import Mathlib

/-!
spider: ranking, tombstone and scan pipeline.

A shallow embedding of parts of `github.com/chrispypip/spider/pkg`:

* the entity snapshots (`Adapter`, `Device`, `KnownNetwork`, `BasicServiceSet`, `Network`,
  `StationOrderedNetwork`);
* the ranking step of `ScanForNetworks` (`src/pkg/spider.go`, lines 167-176): four calls of
  `sort.SliceStable`, embedded together with the algorithm that `sort.SliceStable` runs
  (`stable_func`, `insertionSort_func`, `symMerge_func`, `rotate_func`, `swapRange_func` of
  Go's package `sort`), because two of the four comparators read only one of their two
  arguments and the outcome then depends on the algorithm itself;
* the `KnownNetwork` accessors, `SetAutoConnect` and `Forget` (`src/pkg/known_network.go`);
* `Station.Scan`, `Station.GetOrderedNetworks` (`src/pkg/station.go`) and the station loop of
  `ScanForNetworks`;
* the constructors `NewAdapter`, `NewDevice`, `NewKnownNetwork`, `NewBasicServiceSet`,
  `NewNetwork`, `NewAccessPoint`, `NewAdHoc` and `NewStation`, the mutation methods of the
  entities, and the lookups by name of `src/pkg/spider.go`;
* `SetLogLevel` and `GetLogLevel` (`src/pkg/log.go`);
* the snapshots a caller holds (pointers to cells, adapters nested by value), and the runs
  of the constructors together with their chains of nested constructor invocations.

A slice is embedded as the list of its elements; `Swap(i, j)` exchanges the elements at two
indices and `Less(i, j)` reads the elements at `i` and `j`. Every loop of the sort is a
recursion on a counter that the call site sets high enough for the loop to run to its end.
Requests to the bus and pauses are recorded in a trace, and the replies of the bus are a
parameter (`Conn`) that may depend on the trace.
-/

namespace Spider

/-! ## Entity snapshots -/

/-- The type `dbus.ObjectPath`: an opaque string handle. -/
abbrev ObjectPath := String

/-- The struct `Adapter` of `adapter.go` (the bus handles `conn` and `obj` are determined by
`path` and are left out). -/
structure Adapter where
  path : ObjectPath
  name : String
  model : Option String
  vendor : Option String
  supportedModes : List String
  powered : Bool
deriving DecidableEq, Repr, Inhabited

/-- The struct `Device` of `device.go`; `adapter` is held by value. -/
structure Device where
  path : ObjectPath
  name : String
  address : String
  powered : Bool
  adapter : Adapter
  mode : String
deriving DecidableEq, Repr, Inhabited

/-- The struct `KnownNetwork` of `known_network.go`. -/
structure KnownNetwork where
  path : ObjectPath
  name : String
  netType : String
  hidden : Bool
  lastConnectedTime : Option String
  autoConnect : Bool
  forgotten : Bool
deriving DecidableEq, Repr, Inhabited

/-- The struct `BasicServiceSet` of `basic_service_set.go`. -/
structure BasicServiceSet where
  path : ObjectPath
  address : String
deriving DecidableEq, Repr, Inhabited

/-- The struct `Network` of `network.go`; a nil `knownNetwork` or `extendedServiceSet`
pointer is `none`. -/
structure Network where
  path : ObjectPath
  name : String
  connected : Bool
  device : Device
  netType : String
  knownNetwork : Option KnownNetwork
  extendedServiceSet : Option (List BasicServiceSet)
deriving DecidableEq, Repr, Inhabited

/-- The method `Network.GetName`: it returns `n.name` and a nil error. -/
def Network.GetName (n : Network) : String × Option Unit := (n.name, none)

/-- The method `Network.GetConnected`. -/
def Network.GetConnected (n : Network) : Bool := n.connected

/-- The method `Network.GetKnownNetwork`. -/
def Network.GetKnownNetwork (n : Network) : Option KnownNetwork := n.knownNetwork

/-- The struct `StationOrderedNetwork` of `station.go`; `SignalStrength` is an `int16`,
kept as an integer (it is only compared). -/
structure StationOrderedNetwork where
  Network : Network
  SignalStrength : Int
deriving DecidableEq, Repr, Inhabited

/-! ## Go's `sort.SliceStable` -/

namespace GoSort

variable {α : Type} [Inhabited α]

/-- The element `data[i]` of a slice. Go's `stable_func` only reads indices below the length;
past it the embedding reads the default element. -/
def elemAt (data : List α) (i : Nat) : α := data.getD i default

/-- The swapper of a slice, `data.Swap(i, j)`: `data[i], data[j] = data[j], data[i]`. -/
def swap (data : List α) (i j : Nat) : List α :=
  (data.set i (elemAt data j)).set j (elemAt data i)

/-- The inner loop of `insertionSort_func`:
`for j := i; j > a && data.Less(j, j-1); j-- { data.Swap(j, j-1) }`. -/
def insertLoop (less : α → α → Bool) (a : Nat) : Nat → List α → List α
  | 0, data => data
  | j + 1, data =>
    if a < j + 1 ∧ less (elemAt data (j + 1)) (elemAt data j) = true then
      insertLoop less a j (swap data (j + 1) j)
    else data

/-- The function `insertionSort_func(data, a, b)`: `for i := a + 1; i < b; i++` around
`insertLoop`. -/
def insertionSort (less : α → α → Bool) (data : List α) (a b : Nat) : List α :=
  (List.range' (a + 1) (b - (a + 1))).foldl (fun d i => insertLoop less a i d) data

/-- The function `swapRange_func(data, a, b, n)`:
`for i := 0; i < n; i++ { data.Swap(a+i, b+i) }`. -/
def swapRange (data : List α) (a b n : Nat) : List α :=
  (List.range n).foldl (fun d i => swap d (a + i) (b + i)) data

/-- The loop of `rotate_func` on the block lengths `i` and `j` around `m`, followed by the
closing `swapRange_func(data, m-i, m, i)`. The fuel bounds the number of iterations; `i + j`
is enough when both are positive. -/
def rotateLoop (m : Nat) : Nat → Nat → Nat → List α → List α
  | 0, _, _, data => data
  | fuel + 1, i, j, data =>
    if i ≠ j then
      if i > j then rotateLoop m fuel (i - j) j (swapRange data (m - i) m j)
      else rotateLoop m fuel i (j - i) (swapRange data (m - i) (m + j - i) i)
    else swapRange data (m - i) m i

/-- The function `rotate_func(data, a, m, b)`: the blocks `data[a:m]` and `data[m:b]`
exchange their places. -/
def rotate (data : List α) (a m b : Nat) : List α :=
  rotateLoop m (b - a) (m - a) (b - m) data

/-- The binary-search loop that `symMerge_func` runs three times:
`for i < j { h := int(uint(i+j) >> 1); if pred(h) { i = h + 1 } else { j = h } }`,
returning `i`. The fuel `j - i` is enough, the interval shrinks at every turn. -/
def searchLoop (pred : Nat → Bool) : Nat → Nat → Nat → Nat
  | 0, i, _ => i
  | fuel + 1, i, j =>
    if i < j then
      if pred ((i + j) / 2) = true then searchLoop pred fuel ((i + j) / 2 + 1) j
      else searchLoop pred fuel i ((i + j) / 2)
    else i

/-- The loop `for k := a; k < e; k++ { data.Swap(k, k+1) }` of `symMerge_func` (there
`e = i - 1`). -/
def shiftUp (data : List α) (a e : Nat) : List α :=
  (List.range' a (e - a)).foldl (fun d k => swap d k (k + 1)) data

/-- The loop `for k := m; k > i; k-- { data.Swap(k, k-1) }` of `symMerge_func`. -/
def shiftDown (i : Nat) : Nat → List α → List α
  | 0, data => data
  | k + 1, data => if i < k + 1 then shiftDown i k (swap data (k + 1) k) else data

/-- The function `symMerge_func(data, a, m, b)`. The fuel bounds the depth of the recursion;
`b - a` is enough, each recursive call is on a strictly shorter interval. -/
def symMerge (less : α → α → Bool) : Nat → List α → Nat → Nat → Nat → List α
  | 0, data, _, _, _ => data
  | fuel + 1, data, a, m, b =>
    if m - a = 1 then
      let i := searchLoop (fun h => less (elemAt data h) (elemAt data a)) (b - m) m b
      shiftUp data a (i - 1)
    else if b - m = 1 then
      let i := searchLoop (fun h => !less (elemAt data m) (elemAt data h)) (m - a) a m
      shiftDown i m data
    else
      let mid := (a + b) / 2
      let n := mid + m
      let start0 := if m > mid then n - b else a
      let r0 := if m > mid then mid else m
      let p := n - 1
      let start := searchLoop (fun c => !less (elemAt data (p - c)) (elemAt data c))
        (r0 - start0) start0 r0
      let endIdx := n - start
      let data1 := if start < m ∧ m < endIdx then rotate data start m endIdx else data
      let data2 := if a < start ∧ start < mid then symMerge less fuel data1 a start mid
        else data1
      if mid < endIdx ∧ endIdx < b then symMerge less fuel data2 mid endIdx b else data2

/-- The first loop of `stable_func` and the call after it:
`for b <= n { insertionSort_func(data, a, b); a = b; b += blockSize }` and then
`insertionSort_func(data, a, n)`, with `b = a + blockSize` throughout. -/
def insertionPass (less : α → α → Bool) (blockSize n : Nat) : Nat → Nat → List α → List α
  | 0, a, data => insertionSort less data a n
  | fuel + 1, a, data =>
    if a + blockSize ≤ n then
      insertionPass less blockSize n fuel (a + blockSize)
        (insertionSort less data a (a + blockSize))
    else insertionSort less data a n

/-- The inner loop of the second part of `stable_func`:
`for b <= n { symMerge_func(data, a, a+blockSize, b); a = b; b += 2 * blockSize }` and then
`if m := a + blockSize; m < n { symMerge_func(data, a, m, n) }`, with
`b = a + 2 * blockSize` throughout. -/
def mergePass (less : α → α → Bool) (blockSize n : Nat) : Nat → Nat → List α → List α
  | 0, _, data => data
  | fuel + 1, a, data =>
    if a + 2 * blockSize ≤ n then
      mergePass less blockSize n fuel (a + 2 * blockSize)
        (symMerge less (2 * blockSize) data a (a + blockSize) (a + 2 * blockSize))
    else if a + blockSize < n then symMerge less (n - a) data a (a + blockSize) n
    else data

/-- The outer loop of the second part of `stable_func`:
`for blockSize < n { ...; blockSize *= 2 }`. -/
def mergeLoop (less : α → α → Bool) (n : Nat) : Nat → Nat → List α → List α
  | 0, _, data => data
  | fuel + 1, blockSize, data =>
    if blockSize < n then
      mergeLoop less n fuel (2 * blockSize) (mergePass less blockSize n (n + 1) 0 data)
    else data

/-- The function `stable_func(data, n)`: insertion sort on blocks of 20 elements, then rounds
of `symMerge_func` on blocks of doubling size. -/
def stable (less : α → α → Bool) (data : List α) (n : Nat) : List α :=
  mergeLoop less n (n + 1) 20 (insertionPass less 20 n (n + 1) 0 data)

/-- The function `sort.SliceStable(x, less)` for a comparator `less` that reads the elements
at the two indices it is given: `stable_func(lessSwap{less, swap}, rv.Len())`. -/
def SliceStable (less : α → α → Bool) (x : List α) : List α :=
  stable less x x.length

/-- `data'` is `data` with the elements at the indices `a ≤ x < b` rearranged. -/
def PermWithin (a b : Nat) (data data' : List α) : Prop :=
  data'.length = data.length ∧
    ∃ σ : Equiv.Perm Nat, (∀ x, x < a ∨ b ≤ x → σ x = x) ∧
      ∀ x, elemAt data' x = elemAt data (σ x)

/-- Among the indices `a ≤ x < b` no element satisfying `P` stands after one that does not. -/
def Part (P : α → Bool) (data : List α) (a b : Nat) : Prop :=
  ∀ x y, a ≤ x → x < y → y < b → P (elemAt data y) = true → P (elemAt data x) = true

/-- From index `a` on, every block of `blockSize` indices (the last one cut at `n`) is
partitioned by `P`. -/
def Chunked (P : α → Bool) (data : List α) (blockSize n a : Nat) : Prop :=
  ∀ k, Part P data (a + k * blockSize) (min (a + k * blockSize + blockSize) n)

end GoSort

/-! ## The ranking step of `ScanForNetworks` -/

/-- The comparator of the first pass (`spider.go`, lines 167-171): both names are read from
`orderedNetworks[i]`. -/
def lessName (x _y : StationOrderedNetwork) : Bool :=
  let name1 := x.Network.GetName.1
  let name2 := x.Network.GetName.1
  decide (name1 < name2)

/-- The comparator of the second pass (line 172). -/
def lessSignal (x y : StationOrderedNetwork) : Bool :=
  decide (x.SignalStrength > y.SignalStrength)

/-- The comparator of the third pass (line 173): it reads `orderedNetworks[i]` only. -/
def lessKnown (x _y : StationOrderedNetwork) : Bool :=
  x.Network.GetKnownNetwork.isSome

/-- The comparator of the fourth pass (line 174): it reads `orderedNetworks[i]` only. -/
def lessConnected (x _y : StationOrderedNetwork) : Bool :=
  x.Network.GetConnected

/-- The ranking step of `ScanForNetworks` (lines 167-176): the four `sort.SliceStable` passes
over the concatenated list, in the order of the source. -/
def rank (orderedNetworks : List StationOrderedNetwork) : List StationOrderedNetwork :=
  GoSort.SliceStable lessConnected
    (GoSort.SliceStable lessKnown
      (GoSort.SliceStable lessSignal
        (GoSort.SliceStable lessName orderedNetworks)))

/-! ## The bus -/

/-- An error value (`error`). `ErrNetworkForgotten` is the package variable of
`known_network.go`; `remote` is an error handed back by the bus connection, `store` one of
`Variant.Store`, `errorf` one built by `fmt.Errorf`. -/
inductive GoError where
  | ErrNetworkForgotten
  | remote (msg : String)
  | store (msg : String)
  | errorf (msg : String)
deriving DecidableEq, Repr, Inhabited

/-- The method `Error()` of an error value. -/
def GoError.Error : GoError → String
  | .ErrNetworkForgotten => "network has been forgotten"
  | .remote msg => msg
  | .store msg => msg
  | .errorf msg => msg

/-- A `dbus.Variant` by the dynamic type of the value it holds. -/
inductive Variant where
  | string (s : String)
  | bool (b : Bool)
  | int16 (n : Int)
  | uint32 (n : Nat)
  | objectPath (p : ObjectPath)
  | strings (l : List String)
  | objectPaths (l : List ObjectPath)
  | other
deriving DecidableEq, Repr, Inhabited

/-- What the client does that is visible outside the process: the requests it sends over the
bus, and its pauses (`time.Sleep`, in seconds). -/
inductive Event where
  | getManagedObjects
  | getProperty (path : ObjectPath) (property : String)
  | setProperty (path : ObjectPath) (property : String) (value : Variant)
  | call (path : ObjectPath) (method : String) (args : List Variant)
  | sleep (seconds : Nat)
deriving DecidableEq, Repr, Inhabited

/-- The events of a run so far, oldest first. -/
abbrev Trace := List Event

/-- The connection `*dbus.Conn` with the service and the library behind it, as the client
sees them: the reply to each request, which may depend on everything the client has done
before (the trace), and the outcome of `Variant.Store` into each destination type.
`managedObjects` is the reply to `GetManagedObjects` stored into the map, in the order in
which the two nested `range` loops visit it: object paths with their interface names.
`call` is the reply to a method call stored as `[][]dbus.Variant`, or the error of the call or
of the store. -/
structure Conn where
  managedObjects : Trace → Except GoError (List (ObjectPath × List String))
  GetProperty : Trace → ObjectPath → String → Except GoError Variant
  SetProperty : Trace → ObjectPath → String → Variant → Option GoError
  call : Trace → ObjectPath → String → List Variant → Except GoError (List (List Variant))
  storeString : Variant → Except GoError String
  storeBool : Variant → Except GoError Bool
  storeUint32 : Variant → Except GoError Nat
  storeObjectPath : Variant → Except GoError ObjectPath
  storeStrings : Variant → Except GoError (List String)
  storeObjectPaths : Variant → Except GoError (List ObjectPath)

/-- What a Go function that may panic does: it returns a value, returns an error, or
panics. -/
inductive Result (α : Type) where
  | ok (value : α)
  | error (err : GoError)
  | panic
deriving DecidableEq, Repr

/-- The constant `IwdService`. -/
def IwdService : String := "net.connman.iwd"

/-- The durations of the pauses in a trace, oldest first. -/
def pauses : Trace → List Nat
  | [] => []
  | Event.sleep seconds :: t => seconds :: pauses t
  | _ :: t => pauses t

/-- The method calls in a trace, oldest first: object path and method name. -/
def methodCalls : Trace → List (ObjectPath × String)
  | [] => []
  | Event.call path method _ :: t => (path, method) :: methodCalls t
  | _ :: t => methodCalls t

/-! ## Constructors -/

/-- The constant `adapterInterface`. -/
def adapterInterface : String := "net.connman.iwd.Adapter"

/-- The constant `adapterPropertyPowered`. -/
def adapterPropertyPowered : String := adapterInterface ++ ".Powered"

/-- The constant `adapterPropertyName`. -/
def adapterPropertyName : String := adapterInterface ++ ".Name"

/-- The constant `adapterPropertyModel`. -/
def adapterPropertyModel : String := adapterInterface ++ ".Model"

/-- The constant `adapterPropertyVendor`. -/
def adapterPropertyVendor : String := adapterInterface ++ ".Vendor"

/-- The constant `adapterPropertySupportedModes`. -/
def adapterPropertySupportedModes : String := adapterInterface ++ ".SupportedModes"

/-- The fetch of an optional string property, as `NewAdapter` and `NewKnownNetwork` do it:
after a failed `GetProperty` the field is nil, a failed `Store` is returned as an error. -/
def optionalString (conn : Conn) (reply : Except GoError Variant) :
    Except GoError (Option String) :=
  match reply with
  | .error _ => .ok none
  | .ok variant =>
    match conn.storeString variant with
    | .error err2 => .error err2
    | .ok s => .ok (some s)

/-- The function `NewAdapter` (`adapter.go`): the properties are fetched in the order Name,
Model, Vendor, SupportedModes, Powered. -/
def NewAdapter (conn : Conn) (path : ObjectPath) (t : Trace) : Except GoError Adapter × Trace :=
  let t1 := t ++ [Event.getProperty path adapterPropertyName]
  let t2 := t1 ++ [Event.getProperty path adapterPropertyModel]
  let t3 := t2 ++ [Event.getProperty path adapterPropertyVendor]
  let t4 := t3 ++ [Event.getProperty path adapterPropertySupportedModes]
  let t5 := t4 ++ [Event.getProperty path adapterPropertyPowered]
  match conn.GetProperty t path adapterPropertyName with
  | .error err => (.error err, t1)
  | .ok variant =>
  match conn.storeString variant with
  | .error err2 => (.error err2, t1)
  | .ok name =>
  match optionalString conn (conn.GetProperty t1 path adapterPropertyModel) with
  | .error err2 => (.error err2, t2)
  | .ok model =>
  match optionalString conn (conn.GetProperty t2 path adapterPropertyVendor) with
  | .error err2 => (.error err2, t3)
  | .ok vendor =>
  match conn.GetProperty t3 path adapterPropertySupportedModes with
  | .error err => (.error err, t4)
  | .ok variant =>
  match conn.storeStrings variant with
  | .error err2 => (.error err2, t4)
  | .ok supportedModes =>
  match conn.GetProperty t4 path adapterPropertyPowered with
  | .error err => (.error err, t5)
  | .ok variant =>
  match conn.storeBool variant with
  | .error err2 => (.error err2, t5)
  | .ok powered =>
    (.ok { path := path, name := name, model := model, vendor := vendor,
           supportedModes := supportedModes, powered := powered }, t5)

/-- The constant `deviceInterface`. -/
def deviceInterface : String := "net.connman.iwd.Device"

/-- The constant `devicePropertyName`. -/
def devicePropertyName : String := deviceInterface ++ ".Name"

/-- The constant `devicePropertyAddress`. -/
def devicePropertyAddress : String := deviceInterface ++ ".Address"

/-- The constant `devicePropertyPowered`. -/
def devicePropertyPowered : String := deviceInterface ++ ".Powered"

/-- The constant `devicePropertyAdapter`. -/
def devicePropertyAdapter : String := deviceInterface ++ ".Adapter"

/-- The constant `devicePropertyMode`. -/
def devicePropertyMode : String := deviceInterface ++ ".Mode"

/-- The function `NewDevice` (`device.go`): Name, Address, Powered, Adapter (with the nested
`NewAdapter`), Mode. -/
def NewDevice (conn : Conn) (path : ObjectPath) (t : Trace) : Except GoError Device × Trace :=
  let t1 := t ++ [Event.getProperty path devicePropertyName]
  let t2 := t1 ++ [Event.getProperty path devicePropertyAddress]
  let t3 := t2 ++ [Event.getProperty path devicePropertyPowered]
  let t4 := t3 ++ [Event.getProperty path devicePropertyAdapter]
  match conn.GetProperty t path devicePropertyName with
  | .error err => (.error err, t1)
  | .ok variant =>
  match conn.storeString variant with
  | .error err2 => (.error err2, t1)
  | .ok name =>
  match conn.GetProperty t1 path devicePropertyAddress with
  | .error err => (.error err, t2)
  | .ok variant =>
  match conn.storeString variant with
  | .error err2 => (.error err2, t2)
  | .ok address =>
  match conn.GetProperty t2 path devicePropertyPowered with
  | .error err => (.error err, t3)
  | .ok variant =>
  match conn.storeBool variant with
  | .error err2 => (.error err2, t3)
  | .ok powered =>
  match conn.GetProperty t3 path devicePropertyAdapter with
  | .error err => (.error err, t4)
  | .ok variant =>
  match conn.storeObjectPath variant with
  | .error err2 => (.error err2, t4)
  | .ok adapterPath =>
  let t5 := (NewAdapter conn adapterPath t4).2
  let t6 := t5 ++ [Event.getProperty path devicePropertyMode]
  match (NewAdapter conn adapterPath t4).1 with
  | .error err2 => (.error err2, t5)
  | .ok adapter =>
  match conn.GetProperty t5 path devicePropertyMode with
  | .error err => (.error err, t6)
  | .ok variant =>
  match conn.storeString variant with
  | .error err2 => (.error err2, t6)
  | .ok mode =>
    (.ok { path := path, name := name, address := address, powered := powered,
           adapter := adapter, mode := mode }, t6)

/-- The constant `knownNetworkInterface`. -/
def knownNetworkInterface : String := "net.connman.iwd.KnownNetwork"

/-- The constant `knownNetworkPropertyName`. -/
def knownNetworkPropertyName : String := knownNetworkInterface ++ ".Name"

/-- The constant `knownNetworkPropertyType`. -/
def knownNetworkPropertyType : String := knownNetworkInterface ++ ".Type"

/-- The constant `knownNetworkPropertyHidden`. -/
def knownNetworkPropertyHidden : String := knownNetworkInterface ++ ".Hidden"

/-- The constant `knownNetworkPropertyLastConnectedTime`. -/
def knownNetworkPropertyLastConnectedTime : String :=
  knownNetworkInterface ++ ".LastConnectedTime"

/-- The constant `knownNetworkPropertyAutoConnect`. -/
def knownNetworkPropertyAutoConnect : String := knownNetworkInterface ++ ".AutoConnect"

/-- The constant `knownNetworkMethodForget`. -/
def knownNetworkMethodForget : String := knownNetworkInterface ++ ".Forget"

/-- The function `NewKnownNetwork` (`known_network.go`): Name, Type, Hidden,
LastConnectedTime (optional), AutoConnect; `forgotten` starts false. -/
def NewKnownNetwork (conn : Conn) (path : ObjectPath) (t : Trace) :
    Except GoError KnownNetwork × Trace :=
  let t1 := t ++ [Event.getProperty path knownNetworkPropertyName]
  let t2 := t1 ++ [Event.getProperty path knownNetworkPropertyType]
  let t3 := t2 ++ [Event.getProperty path knownNetworkPropertyHidden]
  let t4 := t3 ++ [Event.getProperty path knownNetworkPropertyLastConnectedTime]
  let t5 := t4 ++ [Event.getProperty path knownNetworkPropertyAutoConnect]
  match conn.GetProperty t path knownNetworkPropertyName with
  | .error err => (.error err, t1)
  | .ok variant =>
  match conn.storeString variant with
  | .error err2 => (.error err2, t1)
  | .ok name =>
  match conn.GetProperty t1 path knownNetworkPropertyType with
  | .error err => (.error err, t2)
  | .ok variant =>
  match conn.storeString variant with
  | .error err2 => (.error err2, t2)
  | .ok netType =>
  match conn.GetProperty t2 path knownNetworkPropertyHidden with
  | .error err => (.error err, t3)
  | .ok variant =>
  match conn.storeBool variant with
  | .error err2 => (.error err2, t3)
  | .ok hidden =>
  match optionalString conn (conn.GetProperty t3 path knownNetworkPropertyLastConnectedTime) with
  | .error err2 => (.error err2, t4)
  | .ok lastConnectedTime =>
  match conn.GetProperty t4 path knownNetworkPropertyAutoConnect with
  | .error err => (.error err, t5)
  | .ok variant =>
  match conn.storeBool variant with
  | .error err2 => (.error err2, t5)
  | .ok autoConnect =>
    (.ok { path := path, name := name, netType := netType, hidden := hidden,
           lastConnectedTime := lastConnectedTime, autoConnect := autoConnect,
           forgotten := false }, t5)

/-- The constant `basicServiceSetInterface`. -/
def basicServiceSetInterface : String := "net.connman.iwd.BasicServiceSet"

/-- The constant `basicServiceSetPropertyAddress`. -/
def basicServiceSetPropertyAddress : String := basicServiceSetInterface ++ ".Address"

/-- The function `NewBasicServiceSet` (`basic_service_set.go`). -/
def NewBasicServiceSet (conn : Conn) (path : ObjectPath) (t : Trace) :
    Except GoError BasicServiceSet × Trace :=
  let t1 := t ++ [Event.getProperty path basicServiceSetPropertyAddress]
  match conn.GetProperty t path basicServiceSetPropertyAddress with
  | .error err => (.error err, t1)
  | .ok variant =>
  match conn.storeString variant with
  | .error err2 => (.error err2, t1)
  | .ok address => (.ok { path := path, address := address }, t1)

/-- The constant `networkInterface`. -/
def networkInterface : String := "net.connman.iwd.Network"

/-- The constant `networkPropertyName`. -/
def networkPropertyName : String := networkInterface ++ ".Name"

/-- The constant `networkPropertyConnected`. -/
def networkPropertyConnected : String := networkInterface ++ ".Connected"

/-- The constant `networkPropertyDevice`. -/
def networkPropertyDevice : String := networkInterface ++ ".Device"

/-- The constant `networkPropertyType`. -/
def networkPropertyType : String := networkInterface ++ ".Type"

/-- The constant `networkPropertyKnownNetwork`. -/
def networkPropertyKnownNetwork : String := networkInterface ++ ".KnownNetwork"

/-- The constant `networkPropertyExtendedServiceSet`. -/
def networkPropertyExtendedServiceSet : String := networkInterface ++ ".ExtendedServiceSet"

/-- The constant `networkMethodConnect`. -/
def networkMethodConnect : String := networkInterface ++ ".Connect"

/-- The loop of `NewNetwork` over the paths of the extended service set
(`network.go`, lines 163-173): the first `NewBasicServiceSet` that fails ends it. -/
def newExtendedServiceSet (conn : Conn) :
    List ObjectPath → List BasicServiceSet → Trace →
      Except GoError (List BasicServiceSet) × Trace
  | [], ess, t => (.ok ess, t)
  | path :: paths, ess, t =>
    match (NewBasicServiceSet conn path t).1 with
    | .error err2 => (.error err2, (NewBasicServiceSet conn path t).2)
    | .ok bss =>
      newExtendedServiceSet conn paths (ess ++ [bss]) (NewBasicServiceSet conn path t).2

/-- The part of `NewNetwork` for the optional property KnownNetwork (lines 126-148). -/
def newNetworkKnownNetwork (conn : Conn) (path : ObjectPath) (t : Trace) :
    Except GoError (Option KnownNetwork) × Trace :=
  let t1 := t ++ [Event.getProperty path networkPropertyKnownNetwork]
  match conn.GetProperty t path networkPropertyKnownNetwork with
  | .error _ => (.ok none, t1)
  | .ok variant =>
  match conn.storeObjectPath variant with
  | .error err2 => (.error err2, t1)
  | .ok knownPath =>
  match (NewKnownNetwork conn knownPath t1).1 with
  | .error err2 => (.error err2, (NewKnownNetwork conn knownPath t1).2)
  | .ok knownNetwork => (.ok (some knownNetwork), (NewKnownNetwork conn knownPath t1).2)

/-- The part of `NewNetwork` for the optional property ExtendedServiceSet
(lines 149-175). -/
def newNetworkExtendedServiceSet (conn : Conn) (path : ObjectPath) (t : Trace) :
    Except GoError (Option (List BasicServiceSet)) × Trace :=
  let t1 := t ++ [Event.getProperty path networkPropertyExtendedServiceSet]
  match conn.GetProperty t path networkPropertyExtendedServiceSet with
  | .error _ => (.ok none, t1)
  | .ok variant =>
  match conn.storeObjectPaths variant with
  | .error err2 => (.error err2, t1)
  | .ok paths =>
  match (newExtendedServiceSet conn paths [] t1).1 with
  | .error err2 => (.error err2, (newExtendedServiceSet conn paths [] t1).2)
  | .ok ess => (.ok (some ess), (newExtendedServiceSet conn paths [] t1).2)

/-- The function `NewNetwork` (`network.go`): Name, Connected, Device (with the nested
`NewDevice`), Type, then the optional KnownNetwork and ExtendedServiceSet. -/
def NewNetwork (conn : Conn) (path : ObjectPath) (t : Trace) : Except GoError Network × Trace :=
  let t1 := t ++ [Event.getProperty path networkPropertyName]
  let t2 := t1 ++ [Event.getProperty path networkPropertyConnected]
  let t3 := t2 ++ [Event.getProperty path networkPropertyDevice]
  match conn.GetProperty t path networkPropertyName with
  | .error err => (.error err, t1)
  | .ok variant =>
  match conn.storeString variant with
  | .error err2 => (.error err2, t1)
  | .ok name =>
  match conn.GetProperty t1 path networkPropertyConnected with
  | .error err => (.error err, t2)
  | .ok variant =>
  match conn.storeBool variant with
  | .error err2 => (.error err2, t2)
  | .ok connected =>
  match conn.GetProperty t2 path networkPropertyDevice with
  | .error err => (.error err, t3)
  | .ok variant =>
  match conn.storeObjectPath variant with
  | .error err2 => (.error err2, t3)
  | .ok devicePath =>
  let t4 := (NewDevice conn devicePath t3).2
  let t5 := t4 ++ [Event.getProperty path networkPropertyType]
  match (NewDevice conn devicePath t3).1 with
  | .error err2 => (.error err2, t4)
  | .ok device =>
  match conn.GetProperty t4 path networkPropertyType with
  | .error err => (.error err, t5)
  | .ok variant =>
  match conn.storeString variant with
  | .error err2 => (.error err2, t5)
  | .ok netType =>
  let t6 := (newNetworkKnownNetwork conn path t5).2
  match (newNetworkKnownNetwork conn path t5).1 with
  | .error err2 => (.error err2, t6)
  | .ok knownNetwork =>
  let t7 := (newNetworkExtendedServiceSet conn path t6).2
  match (newNetworkExtendedServiceSet conn path t6).1 with
  | .error err2 => (.error err2, t7)
  | .ok extendedServiceSet =>
    (.ok { path := path, name := name, connected := connected, device := device,
           netType := netType, knownNetwork := knownNetwork,
           extendedServiceSet := extendedServiceSet }, t7)

/-! ## `KnownNetwork` methods -/

/-- The method `KnownNetwork.GetPath`. -/
def KnownNetwork.GetPath (kn : KnownNetwork) : ObjectPath := kn.path

/-- The method `KnownNetwork.GetInterface`. -/
def KnownNetwork.GetInterface (_kn : KnownNetwork) : String := knownNetworkInterface

/-- The method `KnownNetwork.GetName`. -/
def KnownNetwork.GetName (kn : KnownNetwork) : Except GoError String :=
  if kn.forgotten then .error .ErrNetworkForgotten else .ok kn.name

/-- The method `KnownNetwork.GetType`. -/
def KnownNetwork.GetType (kn : KnownNetwork) : Except GoError String :=
  if kn.forgotten then .error .ErrNetworkForgotten else .ok kn.netType

/-- The method `KnownNetwork.GetHidden`. -/
def KnownNetwork.GetHidden (kn : KnownNetwork) : Except GoError Bool :=
  if kn.forgotten then .error .ErrNetworkForgotten else .ok kn.hidden

/-- The method `KnownNetwork.GetLastConnectedTime`. -/
def KnownNetwork.GetLastConnectedTime (kn : KnownNetwork) : Except GoError (Option String) :=
  if kn.forgotten then .error .ErrNetworkForgotten else .ok kn.lastConnectedTime

/-- The method `KnownNetwork.GetAutoConnect`. -/
def KnownNetwork.GetAutoConnect (kn : KnownNetwork) : Except GoError Bool :=
  if kn.forgotten then .error .ErrNetworkForgotten else .ok kn.autoConnect

/-- The method `KnownNetwork.SetAutoConnect`: the error it returns (nil is `none`), the
entity after the call, and the trace. -/
def KnownNetwork.SetAutoConnect (conn : Conn) (kn : KnownNetwork) (autoConnect : Bool)
    (t : Trace) : (Option GoError × KnownNetwork) × Trace :=
  if kn.forgotten then ((some .ErrNetworkForgotten, kn), t)
  else
    let t1 := t ++ [Event.setProperty kn.path knownNetworkPropertyAutoConnect
      (Variant.bool autoConnect)]
    match conn.SetProperty t kn.path knownNetworkPropertyAutoConnect (Variant.bool autoConnect)
    with
    | some err => ((some err, kn), t1)
    | none => ((none, { kn with autoConnect := autoConnect }), t1)

/-- The method `KnownNetwork.Forget`: the error it returns (nil is `none`), the entity after
the call, and the trace. -/
def KnownNetwork.Forget (conn : Conn) (kn : KnownNetwork) (t : Trace) :
    (Option GoError × KnownNetwork) × Trace :=
  if kn.forgotten then ((some .ErrNetworkForgotten, kn), t)
  else
    let t1 := t ++ [Event.call kn.path knownNetworkMethodForget []]
    match conn.call t kn.path knownNetworkMethodForget [] with
    | .error err => ((some err, kn), t1)
    | .ok _ => ((none, { kn with forgotten := true }), t1)

/-- The error in what a method returns, `none` for nil. -/
def errorOf {α : Type} : Except GoError α → Option GoError
  | .error err => some err
  | .ok _ => none

/-- A call of one of the methods of the interface `KnownNetworker`. -/
inductive KnownNetworkCall where
  | GetPath
  | GetInterface
  | GetName
  | GetType
  | GetHidden
  | GetLastConnectedTime
  | GetAutoConnect
  | SetAutoConnect (autoConnect : Bool)
  | Forget
deriving DecidableEq, Repr

/-- The effect of one call on a `KnownNetwork`: the error the call returns (`none` for nil,
and for `GetPath` and `GetInterface`, which return no error), the entity after the call, and
the trace. -/
def KnownNetwork.perform (conn : Conn) (kn : KnownNetwork) (c : KnownNetworkCall) (t : Trace) :
    (Option GoError × KnownNetwork) × Trace :=
  match c with
  | .GetPath => ((none, kn), t)
  | .GetInterface => ((none, kn), t)
  | .GetName => ((errorOf kn.GetName, kn), t)
  | .GetType => ((errorOf kn.GetType, kn), t)
  | .GetHidden => ((errorOf kn.GetHidden, kn), t)
  | .GetLastConnectedTime => ((errorOf kn.GetLastConnectedTime, kn), t)
  | .GetAutoConnect => ((errorOf kn.GetAutoConnect, kn), t)
  | .SetAutoConnect autoConnect => kn.SetAutoConnect conn autoConnect t
  | .Forget => kn.Forget conn t

/-- A sequence of calls on one `KnownNetwork`, each on the entity and the trace the previous
one left: the entity and the trace after the last. -/
def KnownNetwork.performAll (conn : Conn) :
    KnownNetwork → List KnownNetworkCall → Trace → KnownNetwork × Trace
  | kn, [], t => (kn, t)
  | kn, c :: cs, t =>
    KnownNetwork.performAll conn (kn.perform conn c t).1.2 cs (kn.perform conn c t).2

/-! ## `Station` and `ScanForNetworks` -/

/-- The struct `Station` of `station.go` (a stateless proxy). -/
structure Station where
  path : ObjectPath
deriving DecidableEq, Repr, Inhabited

/-- The constant `stationInterface`. -/
def stationInterface : String := "net.connman.iwd.Station"

/-- The constant `stationPropertyScanning`. -/
def stationPropertyScanning : String := stationInterface ++ ".Scanning"

/-- The constant `stationMethodScan`. -/
def stationMethodScan : String := stationInterface ++ ".Scan"

/-- The constant `stationMethodGetOrderedNetworks`. -/
def stationMethodGetOrderedNetworks : String := stationInterface ++ ".GetOrderedNetworks"

/-- The function `NewStation`: no request is sent and the error is always nil. -/
def NewStation (_conn : Conn) (path : ObjectPath) (t : Trace) : Except GoError Station × Trace :=
  (.ok { path := path }, t)

/-- The method `Station.GetPath`. -/
def Station.GetPath (s : Station) : ObjectPath := s.path

/-- The method `Station.GetScanning`. -/
def Station.GetScanning (conn : Conn) (s : Station) (t : Trace) : Except GoError Bool × Trace :=
  let t1 := t ++ [Event.getProperty s.path stationPropertyScanning]
  match conn.GetProperty t s.path stationPropertyScanning with
  | .error err => (.error err, t1)
  | .ok variant =>
  match conn.storeBool variant with
  | .error err2 => (.error err2, t1)
  | .ok scanning => (.ok scanning, t1)

/-- The method `Station.Scan`: the error it returns (nil is `none`) and the trace. -/
def Station.Scan (conn : Conn) (s : Station) (t : Trace) : Option GoError × Trace :=
  let t1 := (s.GetScanning conn t).2
  match (s.GetScanning conn t).1 with
  | .error err => (some err, t1)
  | .ok scanning =>
    if !scanning then
      let t2 := t1 ++ [Event.call s.path stationMethodScan []]
      match conn.call t1 s.path stationMethodScan [] with
      | .error err => (some err, t2)
      | .ok _ => (none, t2)
    else (none, t1)

/-- The loop of `Station.GetOrderedNetworks` over the entries of the reply
(`station.go`, lines 244-260). `obj[0].Value().(dbus.ObjectPath)` and
`obj[1].Value().(int16)` panic when the entry is too short or holds a value of another type;
when `NewNetwork` fails the loop ends and the entries built so far are returned with a nil
error. -/
def orderedNetworksLoop (conn : Conn) :
    List (List Variant) → List StationOrderedNetwork → Trace →
      Result (List StationOrderedNetwork) × Trace
  | [], orderedNetworks, t => (.ok orderedNetworks, t)
  | obj :: objects, orderedNetworks, t =>
    match obj[0]? with
    | some (Variant.objectPath networkPath) =>
      match obj[1]? with
      | some (Variant.int16 signalStrength) =>
        match (NewNetwork conn networkPath t).1 with
        | .error _ => (.ok orderedNetworks, (NewNetwork conn networkPath t).2)
        | .ok network =>
          orderedNetworksLoop conn objects
            (orderedNetworks ++ [{ Network := network, SignalStrength := signalStrength }])
            (NewNetwork conn networkPath t).2
      | _ => (.panic, t)
    | _ => (.panic, t)

/-- The method `Station.GetOrderedNetworks`. -/
def Station.GetOrderedNetworks (conn : Conn) (s : Station) (t : Trace) :
    Result (List StationOrderedNetwork) × Trace :=
  let t1 := t ++ [Event.call s.path stationMethodGetOrderedNetworks []]
  match conn.call t s.path stationMethodGetOrderedNetworks [] with
  | .error err => (.error err, t1)
  | .ok objects => orderedNetworksLoop conn objects [] t1

/-- The first loops of `ScanForNetworks` (`spider.go`, lines 133-145) over the pairs of an
object path and one of its interface names: a station is built for each
`net.connman.iwd.Station`. -/
def collectStations (conn : Conn) :
    List (ObjectPath × String) → List Station → Trace → Except GoError (List Station) × Trace
  | [], stations, t => (.ok stations, t)
  | (k, resource) :: rest, stations, t =>
    if resource = "net.connman.iwd.Station" then
      match (NewStation conn k t).1 with
      | .error err =>
        (.error (.errorf ("failed to create Station from " ++ k ++ ": " ++ err.Error)),
          (NewStation conn k t).2)
      | .ok station => collectStations conn rest (stations ++ [station]) (NewStation conn k t).2
    else collectStations conn rest stations t

/-- The station loop of `ScanForNetworks` (lines 151-166): for each station `Scan`, then the
pause when `scanTime > 0`, then `GetOrderedNetworks`; the first failure ends the run. -/
def scanLoop (conn : Conn) (scanTime : Nat) :
    List Station → List StationOrderedNetwork → Trace →
      Result (List StationOrderedNetwork) × Trace
  | [], orderedNetworks, t => (.ok orderedNetworks, t)
  | st :: stations, orderedNetworks, t =>
    let t1 := (st.Scan conn t).2
    match (st.Scan conn t).1 with
    | some _ => (.error (.errorf ("failed to scan Station " ++ st.GetPath)), t1)
    | none =>
      let t2 := if scanTime > 0 then t1 ++ [Event.sleep scanTime] else t1
      let t3 := (st.GetOrderedNetworks conn t2).2
      match (st.GetOrderedNetworks conn t2).1 with
      | .panic => (.panic, t3)
      | .error err2 =>
        (.error (.errorf ("failed to get ordered networks for Station " ++ st.GetPath ++ ": "
          ++ err2.Error)), t3)
      | .ok stOns => scanLoop conn scanTime stations (orderedNetworks ++ stOns) t3

/-- The pairs of an object path and one of its interface names, in the order in which the
nested loops `for k, v := range objects { for resource := range v` visit them. -/
def resourcePairs (objects : List (ObjectPath × List String)) : List (ObjectPath × String) :=
  objects.flatMap fun kv => kv.2.map fun resource => (kv.1, resource)

/-- The function `ScanForNetworks` of `src/pkg/spider.go`; `scanTime` is a `uint8`, in
seconds. The result `error` stands for the return of a nil list with an error. -/
def ScanForNetworks (conn : Conn) (scanTime : Nat) (t : Trace) :
    Result (List StationOrderedNetwork) × Trace :=
  let t1 := t ++ [Event.getManagedObjects]
  match conn.managedObjects t with
  | .error err => (.error (.errorf ("failed to get managed objects: " ++ err.Error)), t1)
  | .ok objects =>
    let t2 := (collectStations conn (resourcePairs objects) [] t1).2
    match (collectStations conn (resourcePairs objects) [] t1).1 with
    | .error err => (.error err, t2)
    | .ok stations =>
      if stations.length = 0 then
        (.error (.errorf ("no stations found; Adapters must be powered on and Devices must " ++
          "be powered on in 'station' mode")), t2)
      else
        let t3 := (scanLoop conn scanTime stations [] t2).2
        match (scanLoop conn scanTime stations [] t2).1 with
        | .ok orderedNetworks => (.ok (rank orderedNetworks), t3)
        | .error err => (.error err, t3)
        | .panic => (.panic, t3)

/-- The stations `ScanForNetworks` builds from an enumeration, in the order of the visit: one
for each pair of an object path and the interface name `net.connman.iwd.Station`. -/
def stationsIn (objects : List (ObjectPath × List String)) : List Station :=
  ((resourcePairs objects).filter fun p => p.2 = "net.connman.iwd.Station").map
    fun p => { path := p.1 }

/-! ## `AccessPoint` and `AdHoc` -/

/-- The struct `AccessPoint` of `access_point.go`; a nil pointer field is `none`, and
`frequency` is a `uint32`. -/
structure AccessPoint where
  path : ObjectPath
  started : Bool
  name : Option String
  frequency : Option Nat
  pairwiseCiphers : Option (List String)
  groupCipher : Option String
deriving DecidableEq, Repr, Inhabited

/-- The constant `accessPointInterface`. -/
def accessPointInterface : String := "net.connman.iwd.AccessPoint"

/-- The constant `accessPointPropertyStarted`. -/
def accessPointPropertyStarted : String := accessPointInterface ++ ".Started"

/-- The constant `accessPointPropertyName`. -/
def accessPointPropertyName : String := accessPointInterface ++ ".Name"

/-- The constant `accessPointPropertyFrequency`. -/
def accessPointPropertyFrequency : String := accessPointInterface ++ ".Frequency"

/-- The constant `accessPointPropertyPairwiseCiphers`. -/
def accessPointPropertyPairwiseCiphers : String := accessPointInterface ++ ".PairwiseCiphers"

/-- The constant `accessPointPropertyGroupCipher`. -/
def accessPointPropertyGroupCipher : String := accessPointInterface ++ ".GroupCipher"

/-- The constant `accessPointMethodStart`. -/
def accessPointMethodStart : String := accessPointInterface ++ ".Start"

/-- The constant `accessPointMethodStop`. -/
def accessPointMethodStop : String := accessPointInterface ++ ".Stop"

/-- The constant `accessPointMethodStartProfile`. -/
def accessPointMethodStartProfile : String := accessPointInterface ++ ".StartProfile"

/-- The constant `accessPointMethodScan`. -/
def accessPointMethodScan : String := accessPointInterface ++ ".Scan"

/-- The fetch of an optional property into a pointer field, as every constructor does it:
after a failed `GetProperty` the field is nil and construction goes on, a failed `Store` is
returned as an error. -/
def optionalProperty {α : Type} (store : Variant → Except GoError α)
    (reply : Except GoError Variant) : Except GoError (Option α) :=
  match reply with
  | .error _ => .ok none
  | .ok variant =>
    match store variant with
    | .error err2 => .error err2
    | .ok value => .ok (some value)

/-- The function `NewAccessPoint` (`access_point.go`): Started, then the optional Name,
Frequency, PairwiseCiphers and GroupCipher. -/
def NewAccessPoint (conn : Conn) (path : ObjectPath) (t : Trace) :
    Except GoError AccessPoint × Trace :=
  let t1 := t ++ [Event.getProperty path accessPointPropertyStarted]
  let t2 := t1 ++ [Event.getProperty path accessPointPropertyName]
  let t3 := t2 ++ [Event.getProperty path accessPointPropertyFrequency]
  let t4 := t3 ++ [Event.getProperty path accessPointPropertyPairwiseCiphers]
  let t5 := t4 ++ [Event.getProperty path accessPointPropertyGroupCipher]
  match conn.GetProperty t path accessPointPropertyStarted with
  | .error err => (.error err, t1)
  | .ok variant =>
  match conn.storeBool variant with
  | .error err2 => (.error err2, t1)
  | .ok started =>
  match optionalProperty conn.storeString (conn.GetProperty t1 path accessPointPropertyName)
  with
  | .error err2 => (.error err2, t2)
  | .ok name =>
  match optionalProperty conn.storeUint32
    (conn.GetProperty t2 path accessPointPropertyFrequency) with
  | .error err2 => (.error err2, t3)
  | .ok frequency =>
  match optionalProperty conn.storeStrings
    (conn.GetProperty t3 path accessPointPropertyPairwiseCiphers) with
  | .error err2 => (.error err2, t4)
  | .ok pairwiseCiphers =>
  match optionalProperty conn.storeString
    (conn.GetProperty t4 path accessPointPropertyGroupCipher) with
  | .error err2 => (.error err2, t5)
  | .ok groupCipher =>
    (.ok { path := path, started := started, name := name, frequency := frequency,
           pairwiseCiphers := pairwiseCiphers, groupCipher := groupCipher }, t5)

/-- The method `AccessPoint.GetStarted`. -/
def AccessPoint.GetStarted (ap : AccessPoint) : Bool := ap.started

/-- The method `AccessPoint.Start`: the error it returns (nil is `none`), the entity after
the call, and the trace. -/
def AccessPoint.Start (conn : Conn) (ap : AccessPoint) (ssid psk : String) (t : Trace) :
    (Option GoError × AccessPoint) × Trace :=
  let t1 := t ++ [Event.call ap.path accessPointMethodStart
    [Variant.string ssid, Variant.string psk]]
  match conn.call t ap.path accessPointMethodStart [Variant.string ssid, Variant.string psk]
  with
  | .error err => ((some err, ap), t1)
  | .ok _ => ((none, { ap with started := true }), t1)

/-- The method `AccessPoint.Stop`. -/
def AccessPoint.Stop (conn : Conn) (ap : AccessPoint) (t : Trace) :
    (Option GoError × AccessPoint) × Trace :=
  let t1 := t ++ [Event.call ap.path accessPointMethodStop []]
  match conn.call t ap.path accessPointMethodStop [] with
  | .error err => ((some err, ap), t1)
  | .ok _ => ((none, { ap with started := false }), t1)

/-- The method `AccessPoint.StartProfile`: the call
`ap.obj.Call(accessPointMethodStartProfile, 0)` carries no argument. -/
def AccessPoint.StartProfile (conn : Conn) (ap : AccessPoint) (_ssid : String) (t : Trace) :
    (Option GoError × AccessPoint) × Trace :=
  let t1 := t ++ [Event.call ap.path accessPointMethodStartProfile []]
  match conn.call t ap.path accessPointMethodStartProfile [] with
  | .error err => ((some err, ap), t1)
  | .ok _ => ((none, { ap with started := true }), t1)

/-- The method `AccessPoint.Scan`. -/
def AccessPoint.Scan (conn : Conn) (ap : AccessPoint) (t : Trace) :
    (Option GoError × AccessPoint) × Trace :=
  let t1 := t ++ [Event.call ap.path accessPointMethodScan []]
  match conn.call t ap.path accessPointMethodScan [] with
  | .error err => ((some err, ap), t1)
  | .ok _ => ((none, ap), t1)

/-- The struct `AdHoc` of `adhoc.go`. -/
structure AdHoc where
  path : ObjectPath
  started : Bool
deriving DecidableEq, Repr, Inhabited

/-- The constant `adhocInterface`. -/
def adhocInterface : String := "net.connman.iwd.AdHoc"

/-- The constant `adhocPropertyStarted`. -/
def adhocPropertyStarted : String := adhocInterface ++ ".Started"

/-- The constant `adhocMethodStart`. -/
def adhocMethodStart : String := adhocInterface ++ ".Start"

/-- The constant `adhocMethodStartOpen`. -/
def adhocMethodStartOpen : String := adhocInterface ++ ".StartOpen"

/-- The constant `adhocMethodStop`. -/
def adhocMethodStop : String := adhocInterface ++ ".Stop"

/-- The function `NewAdHoc` (`adhoc.go`). -/
def NewAdHoc (conn : Conn) (path : ObjectPath) (t : Trace) : Except GoError AdHoc × Trace :=
  let t1 := t ++ [Event.getProperty path adhocPropertyStarted]
  match conn.GetProperty t path adhocPropertyStarted with
  | .error err => (.error err, t1)
  | .ok variant =>
  match conn.storeBool variant with
  | .error err2 => (.error err2, t1)
  | .ok started => (.ok { path := path, started := started }, t1)

/-- The method `AdHoc.GetStarted`. -/
def AdHoc.GetStarted (ah : AdHoc) : Bool := ah.started

/-- The method `AdHoc.Start`. -/
def AdHoc.Start (conn : Conn) (ah : AdHoc) (ssid psk : String) (t : Trace) :
    (Option GoError × AdHoc) × Trace :=
  let t1 := t ++ [Event.call ah.path adhocMethodStart [Variant.string ssid, Variant.string psk]]
  match conn.call t ah.path adhocMethodStart [Variant.string ssid, Variant.string psk] with
  | .error err => ((some err, ah), t1)
  | .ok _ => ((none, { ah with started := true }), t1)

/-- The method `AdHoc.StartOpen`: the call `ah.obj.Call(adhocMethodStartOpen, 0)` carries no
argument. -/
def AdHoc.StartOpen (conn : Conn) (ah : AdHoc) (_ssid : String) (t : Trace) :
    (Option GoError × AdHoc) × Trace :=
  let t1 := t ++ [Event.call ah.path adhocMethodStartOpen []]
  match conn.call t ah.path adhocMethodStartOpen [] with
  | .error err => ((some err, ah), t1)
  | .ok _ => ((none, { ah with started := true }), t1)

/-- The method `AdHoc.Stop`. -/
def AdHoc.Stop (conn : Conn) (ah : AdHoc) (t : Trace) : (Option GoError × AdHoc) × Trace :=
  let t1 := t ++ [Event.call ah.path adhocMethodStop []]
  match conn.call t ah.path adhocMethodStop [] with
  | .error err => ((some err, ah), t1)
  | .ok _ => ((none, { ah with started := false }), t1)

/-! ## Mutation methods of `Adapter`, `Device`, `Network` and `Station` -/

/-- The method `Adapter.GetPowered`. -/
def Adapter.GetPowered (a : Adapter) : Bool := a.powered

/-- The method `Adapter.GetSupportedModes`. -/
def Adapter.GetSupportedModes (a : Adapter) : List String := a.supportedModes

/-- The method `Adapter.SetPowered`: the error it returns (nil is `none`), the entity after
the call, and the trace. -/
def Adapter.SetPowered (conn : Conn) (a : Adapter) (powered : Bool) (t : Trace) :
    (Option GoError × Adapter) × Trace :=
  let t1 := t ++ [Event.setProperty a.path adapterPropertyPowered (Variant.bool powered)]
  match conn.SetProperty t a.path adapterPropertyPowered (Variant.bool powered) with
  | some err => ((some err, a), t1)
  | none => ((none, { a with powered := powered }), t1)

/-- The method `Device.GetPowered`. -/
def Device.GetPowered (d : Device) : Bool := d.powered

/-- The method `Device.GetMode`. -/
def Device.GetMode (d : Device) : String := d.mode

/-- The method `Device.GetAdapter`: the adapter is returned by value. -/
def Device.GetAdapter (d : Device) : Adapter := d.adapter

/-- The method `Device.GetSupportedModes`: a fixed list. -/
def Device.GetSupportedModes (_d : Device) : List String := ["ad-hoc", "station", "ap"]

/-- The method `Device.SetPowered`. -/
def Device.SetPowered (conn : Conn) (d : Device) (powered : Bool) (t : Trace) :
    (Option GoError × Device) × Trace :=
  let t1 := t ++ [Event.setProperty d.path devicePropertyPowered (Variant.bool powered)]
  match conn.SetProperty t d.path devicePropertyPowered (Variant.bool powered) with
  | some err => ((some err, d), t1)
  | none => ((none, { d with powered := powered }), t1)

/-- The method `Device.SetMode`: a mode that `slices.Contains` does not find in
`d.GetSupportedModes()` is refused with an error of `fmt.Errorf` before any request. -/
def Device.SetMode (conn : Conn) (d : Device) (mode : String) (t : Trace) :
    (Option GoError × Device) × Trace :=
  let supportedModes := d.GetSupportedModes
  if ¬ mode ∈ supportedModes then
    ((some (.errorf ("invalid mode " ++ mode ++ ". Valid modes are [" ++
      " ".intercalate supportedModes ++ "]")), d), t)
  else
    let t1 := t ++ [Event.setProperty d.path devicePropertyMode (Variant.string mode)]
    match conn.SetProperty t d.path devicePropertyMode (Variant.string mode) with
    | some err => ((some err, d), t1)
    | none => ((none, { d with mode := mode }), t1)

/-- The method `Network.Connect`. -/
def Network.Connect (conn : Conn) (n : Network) (t : Trace) :
    (Option GoError × Network) × Trace :=
  let t1 := t ++ [Event.call n.path networkMethodConnect []]
  match conn.call t n.path networkMethodConnect [] with
  | .error err => ((some err, n), t1)
  | .ok _ => ((none, { n with connected := true }), t1)

/-- The constant `stationMethodDisconnect`. -/
def stationMethodDisconnect : String := stationInterface ++ ".Disconnect"

/-- The method `Station.Disconnect`: the error it returns (nil is `none`) and the trace. -/
def Station.Disconnect (conn : Conn) (s : Station) (t : Trace) : Option GoError × Trace :=
  let t1 := t ++ [Event.call s.path stationMethodDisconnect []]
  match conn.call t s.path stationMethodDisconnect [] with
  | .error err => (some err, t1)
  | .ok _ => (none, t1)

/-- What it means for the run `r` of a constructor to fail at the request `ev` sent after the
trace `τ`, with the error `err`: it returns `err` and no entity, and `ev` is the last thing it
does; or it has returned an error already before that request (its trace ends within
`τ`). -/
def FailsAt {α : Type} (r : Except GoError α × Trace) (τ : Trace) (ev : Event)
    (err : GoError) : Prop :=
  r = (.error err, τ ++ [ev]) ∨ ∃ e, r.1 = .error e ∧ r.2 <+: τ

/-- The trace `t` followed by the fetches of the properties `props` of the object `path`, in
that order. -/
def afterFetches (t : Trace) (path : ObjectPath) : List String → Trace
  | [] => t
  | prop :: props => afterFetches (t ++ [Event.getProperty path prop]) path props

/-- The property `prop` of `path`, fetched after the trace `τ`, is obtained with the value
`x`: `GetProperty` answers and `store` decodes the answer to `x`. -/
def Obtained {β : Type} (conn : Conn) (store : Variant → Except GoError β) (τ : Trace)
    (path : ObjectPath) (prop : String) (x : β) : Prop :=
  ∃ variant, conn.GetProperty τ path prop = .ok variant ∧ store variant = .ok x

/-- The fetch of the property `prop` of `path` that the run `r` sends after the trace `τ` is
fatal: when `GetProperty` fails there, `r` fails at that request with the error of the
fetch. -/
def FetchIsFatal {α : Type} (conn : Conn) (r : Except GoError α × Trace) (τ : Trace)
    (path : ObjectPath) (prop : String) : Prop :=
  ∀ err, conn.GetProperty τ path prop = .error err →
    FailsAt r τ (Event.getProperty path prop) err

/-- The decoding of the property `prop` of `path` that the run `r` fetches after the trace
`τ` is fatal: when `GetProperty` answers there and `store` rejects the answer, `r` fails at
that request with the error of `store`. -/
def StoreIsFatal {α β : Type} (conn : Conn) (store : Variant → Except GoError β)
    (r : Except GoError α × Trace) (τ : Trace) (path : ObjectPath) (prop : String) : Prop :=
  ∀ variant err, conn.GetProperty τ path prop = .ok variant → store variant = .error err →
    FailsAt r τ (Event.getProperty path prop) err

/-! ## Lookups by name (`spider.go`) -/

/-- The method `Adapter.GetName`. -/
def Adapter.GetName (a : Adapter) : String := a.name

/-- The method `Device.GetName`. -/
def Device.GetName (d : Device) : String := d.name

/-- The loops of `GetAdapters` (`spider.go`, lines 33-45) over the pairs of an object path and
one of its interface names: an adapter is built for each `net.connman.iwd.Adapter`. -/
def adaptersLoop (conn : Conn) :
    List (ObjectPath × String) → List Adapter → Trace → Except GoError (List Adapter) × Trace
  | [], adapters, t => (.ok adapters, t)
  | (k, resource) :: rest, adapters, t =>
    if resource = "net.connman.iwd.Adapter" then
      match (NewAdapter conn k t).1 with
      | .error err =>
        (.error (.errorf ("failed to create Adapter from " ++ k ++ ": " ++ err.Error)),
          (NewAdapter conn k t).2)
      | .ok adapter => adaptersLoop conn rest (adapters ++ [adapter]) (NewAdapter conn k t).2
    else adaptersLoop conn rest adapters t

/-- The function `GetAdapters`. -/
def GetAdapters (conn : Conn) (t : Trace) : Except GoError (List Adapter) × Trace :=
  let t1 := t ++ [Event.getManagedObjects]
  match conn.managedObjects t with
  | .error err => (.error (.errorf ("failed to get managed objects: " ++ err.Error)), t1)
  | .ok objects => adaptersLoop conn (resourcePairs objects) [] t1

/-- The loops of `GetAdapterByName` (lines 57-70): the first adapter whose name is `name` is
returned; an adapter that cannot be built ends the lookup with an error. -/
def adapterByNameLoop (conn : Conn) (name : String) :
    List (ObjectPath × String) → Trace → Except GoError Adapter × Trace
  | [], t => (.error (.errorf ("could not find Adapter with name " ++ name)), t)
  | (k, resource) :: rest, t =>
    if resource = "net.connman.iwd.Adapter" then
      match (NewAdapter conn k t).1 with
      | .error err =>
        (.error (.errorf ("failed to create Adapter from " ++ k ++ ": " ++ err.Error)),
          (NewAdapter conn k t).2)
      | .ok adapter =>
        if adapter.GetName = name then (.ok adapter, (NewAdapter conn k t).2)
        else adapterByNameLoop conn name rest (NewAdapter conn k t).2
    else adapterByNameLoop conn name rest t

/-- The function `GetAdapterByName`. -/
def GetAdapterByName (conn : Conn) (name : String) (t : Trace) : Except GoError Adapter × Trace :=
  let t1 := t ++ [Event.getManagedObjects]
  match conn.managedObjects t with
  | .error err => (.error (.errorf ("failed to get managed objects: " ++ err.Error)), t1)
  | .ok objects => adapterByNameLoop conn name (resourcePairs objects) t1

/-- The loops of `GetDevices` (lines 83-95). -/
def devicesLoop (conn : Conn) :
    List (ObjectPath × String) → List Device → Trace → Except GoError (List Device) × Trace
  | [], devices, t => (.ok devices, t)
  | (k, resource) :: rest, devices, t =>
    if resource = "net.connman.iwd.Device" then
      match (NewDevice conn k t).1 with
      | .error err =>
        (.error (.errorf ("failed to create Device from " ++ k ++ ": " ++ err.Error)),
          (NewDevice conn k t).2)
      | .ok device => devicesLoop conn rest (devices ++ [device]) (NewDevice conn k t).2
    else devicesLoop conn rest devices t

/-- The function `GetDevices`. -/
def GetDevices (conn : Conn) (t : Trace) : Except GoError (List Device) × Trace :=
  let t1 := t ++ [Event.getManagedObjects]
  match conn.managedObjects t with
  | .error err => (.error (.errorf ("failed to get managed objects: " ++ err.Error)), t1)
  | .ok objects => devicesLoop conn (resourcePairs objects) [] t1

/-- The loops of `GetDeviceByName` (lines 107-120). -/
def deviceByNameLoop (conn : Conn) (name : String) :
    List (ObjectPath × String) → Trace → Except GoError Device × Trace
  | [], t => (.error (.errorf ("could not find Device with name " ++ name)), t)
  | (k, resource) :: rest, t =>
    if resource = "net.connman.iwd.Device" then
      match (NewDevice conn k t).1 with
      | .error err =>
        (.error (.errorf ("failed to create Device from " ++ k ++ ": " ++ err.Error)),
          (NewDevice conn k t).2)
      | .ok device =>
        if device.GetName = name then (.ok device, (NewDevice conn k t).2)
        else deviceByNameLoop conn name rest (NewDevice conn k t).2
    else deviceByNameLoop conn name rest t

/-- The function `GetDeviceByName`. -/
def GetDeviceByName (conn : Conn) (name : String) (t : Trace) : Except GoError Device × Trace :=
  let t1 := t ++ [Event.getManagedObjects]
  match conn.managedObjects t with
  | .error err => (.error (.errorf ("failed to get managed objects: " ++ err.Error)), t1)
  | .ok objects => deviceByNameLoop conn name (resourcePairs objects) t1

/-- The loops of `GetKnownNetworks` (lines 187-199). -/
def knownNetworksLoop (conn : Conn) :
    List (ObjectPath × String) → List KnownNetwork → Trace →
      Except GoError (List KnownNetwork) × Trace
  | [], knownNetworks, t => (.ok knownNetworks, t)
  | (k, resource) :: rest, knownNetworks, t =>
    if resource = "net.connman.iwd.KnownNetwork" then
      match (NewKnownNetwork conn k t).1 with
      | .error err =>
        (.error (.errorf ("failed to create KnownNetwork from " ++ k ++ ": " ++ err.Error)),
          (NewKnownNetwork conn k t).2)
      | .ok knownNetwork =>
        knownNetworksLoop conn rest (knownNetworks ++ [knownNetwork])
          (NewKnownNetwork conn k t).2
    else knownNetworksLoop conn rest knownNetworks t

/-- The function `GetKnownNetworks`. -/
def GetKnownNetworks (conn : Conn) (t : Trace) : Except GoError (List KnownNetwork) × Trace :=
  let t1 := t ++ [Event.getManagedObjects]
  match conn.managedObjects t with
  | .error err => (.error (.errorf ("failed to get managed objects: " ++ err.Error)), t1)
  | .ok objects => knownNetworksLoop conn (resourcePairs objects) [] t1

/-- The loops of `GetKnownNetworkByName` (lines 211-231): a known network whose `GetName`
fails is skipped (`continue`). -/
def knownNetworkByNameLoop (conn : Conn) (name : String) :
    List (ObjectPath × String) → Trace → Except GoError KnownNetwork × Trace
  | [], t => (.error (.errorf ("could not find KnownNetwork with name " ++ name)), t)
  | (k, resource) :: rest, t =>
    if resource = "net.connman.iwd.KnownNetwork" then
      match (NewKnownNetwork conn k t).1 with
      | .error err =>
        (.error (.errorf ("failed to create KnownNetwork from " ++ k ++ ": " ++ err.Error)),
          (NewKnownNetwork conn k t).2)
      | .ok knownNetwork =>
        match knownNetwork.GetName with
        | .error _ => knownNetworkByNameLoop conn name rest (NewKnownNetwork conn k t).2
        | .ok knName =>
          if knName = name then (.ok knownNetwork, (NewKnownNetwork conn k t).2)
          else knownNetworkByNameLoop conn name rest (NewKnownNetwork conn k t).2
    else knownNetworkByNameLoop conn name rest t

/-- The function `GetKnownNetworkByName`. -/
def GetKnownNetworkByName (conn : Conn) (name : String) (t : Trace) :
    Except GoError KnownNetwork × Trace :=
  let t1 := t ++ [Event.getManagedObjects]
  match conn.managedObjects t with
  | .error err => (.error (.errorf ("failed to get managed objects: " ++ err.Error)), t1)
  | .ok objects => knownNetworkByNameLoop conn name (resourcePairs objects) t1

/-! ## `Station.ConnectHiddenNetwork` -/

/-- The constant `stationMethodConnectHiddenNetwork`. -/
def stationMethodConnectHiddenNetwork : String := stationInterface ++ ".ConnectHiddenNetwork"

/-- The method `Station.ConnectHiddenNetwork`: the call carries `ssid`. -/
def Station.ConnectHiddenNetwork (conn : Conn) (s : Station) (ssid : String) (t : Trace) :
    Option GoError × Trace :=
  let t1 := t ++ [Event.call s.path stationMethodConnectHiddenNetwork [Variant.string ssid]]
  match conn.call t s.path stationMethodConnectHiddenNetwork [Variant.string ssid] with
  | .error err => (some err, t1)
  | .ok _ => (none, t1)

/-! ## Log level (`log.go`) -/

/-- The type `LogLevel` (`uint8`). -/
abbrev LogLevel := Nat

/-- The constant `LogLevelTrace` (`iota`, 0). -/
def LogLevelTrace : LogLevel := 0

/-- The constant `LogLevelDebug`. -/
def LogLevelDebug : LogLevel := 1

/-- The constant `LogLevelInfo`. -/
def LogLevelInfo : LogLevel := 2

/-- The constant `LogLevelWarning`. -/
def LogLevelWarning : LogLevel := 3

/-- The constant `LogLevelError`. -/
def LogLevelError : LogLevel := 4

/-- The constant `LogLevelFatal`. -/
def LogLevelFatal : LogLevel := 5

/-- The constant `LogLevelPanic`. -/
def LogLevelPanic : LogLevel := 6

/-- The type `logrus.Level` (`uint32`) of the logging library: the level of the standard
logger is the state that `log.SetLevel` writes and `log.GetLevel` reads. -/
abbrev logrus.Level := Nat

/-- The constant `logrus.PanicLevel` (`iota`, 0). -/
def logrus.PanicLevel : logrus.Level := 0

/-- The constant `logrus.FatalLevel`. -/
def logrus.FatalLevel : logrus.Level := 1

/-- The constant `logrus.ErrorLevel`. -/
def logrus.ErrorLevel : logrus.Level := 2

/-- The constant `logrus.WarnLevel`. -/
def logrus.WarnLevel : logrus.Level := 3

/-- The constant `logrus.InfoLevel`. -/
def logrus.InfoLevel : logrus.Level := 4

/-- The constant `logrus.DebugLevel`. -/
def logrus.DebugLevel : logrus.Level := 5

/-- The constant `logrus.TraceLevel`. -/
def logrus.TraceLevel : logrus.Level := 6

/-- The function `SetLogLevel`: the level of the standard logger after the call, given the
one before it (`current`). The `switch` has no default case. -/
def SetLogLevel (level : LogLevel) (current : logrus.Level) : logrus.Level :=
  if level = LogLevelTrace then logrus.TraceLevel
  else if level = LogLevelDebug then logrus.DebugLevel
  else if level = LogLevelInfo then logrus.InfoLevel
  else if level = LogLevelWarning then logrus.WarnLevel
  else if level = LogLevelError then logrus.ErrorLevel
  else if level = LogLevelFatal then logrus.FatalLevel
  else if level = LogLevelPanic then logrus.PanicLevel
  else current

/-- The function `GetLogLevel`, given the level of the standard logger (`current`): a level
that is none of the seven is reported as `LogLevelInfo`. -/
def GetLogLevel (current : logrus.Level) : LogLevel :=
  if current = logrus.TraceLevel then LogLevelTrace
  else if current = logrus.DebugLevel then LogLevelDebug
  else if current = logrus.InfoLevel then LogLevelInfo
  else if current = logrus.WarnLevel then LogLevelWarning
  else if current = logrus.ErrorLevel then LogLevelError
  else if current = logrus.FatalLevel then LogLevelFatal
  else if current = logrus.PanicLevel then LogLevelPanic
  else LogLevelInfo

/-! ## Snapshots held by a caller -/

/-- The snapshots a caller holds. Every `*Adapter` and `*Device` that a constructor has
returned points to a cell of its own, and so does every local variable of type `Adapter`; a
pointer is the index of its cell. A `Device` cell holds its adapter by value: the field is
`adapter Adapter`, filled by `d.adapter = *adapter` in `NewDevice` (`device.go`, lines 44 and
122). -/
structure Snapshots where
  adapters : List Adapter
  devices : List Device
deriving DecidableEq, Repr

/-- The statement `a, err := NewAdapter(conn, path)` of a caller: on success the adapter gets
a new cell and `a` points to it. -/
def Snapshots.newAdapter (conn : Conn) (h : Snapshots) (path : ObjectPath) (t : Trace) :
    (Except GoError Nat × Snapshots) × Trace :=
  match (NewAdapter conn path t).1 with
  | .error err => ((.error err, h), (NewAdapter conn path t).2)
  | .ok adapter =>
    ((.ok h.adapters.length, { h with adapters := h.adapters ++ [adapter] }),
      (NewAdapter conn path t).2)

/-- The statement `d, err := NewDevice(conn, path)` of a caller: on success the device gets a
new cell and `d` points to it. The `*Adapter` that `NewDevice` gets from `NewAdapter` is
copied into the device and not kept. -/
def Snapshots.newDevice (conn : Conn) (h : Snapshots) (path : ObjectPath) (t : Trace) :
    (Except GoError Nat × Snapshots) × Trace :=
  match (NewDevice conn path t).1 with
  | .error err => ((.error err, h), (NewDevice conn path t).2)
  | .ok device =>
    ((.ok h.devices.length, { h with devices := h.devices ++ [device] }),
      (NewDevice conn path t).2)

/-- The statement `x := d.GetAdapter()` for a device pointer `d`: `GetAdapter` returns the
adapter by value (`func (d *Device) GetAdapter() Adapter`), the copy is stored in the new
variable `x`. The result is the new state and the pointer `&x`; `none` stands for the panic
on a pointer that is nil. -/
def Snapshots.getAdapter (h : Snapshots) (d : Nat) : Option (Snapshots × Nat) :=
  match h.devices[d]? with
  | none => none
  | some device =>
    some ({ h with adapters := h.adapters ++ [device.GetAdapter] }, h.adapters.length)

/-- The call `a.SetPowered(powered)` for an adapter pointer `a`: the method has a pointer
receiver (`func (a *Adapter) SetPowered`) and writes the field in the cell `a` points to. The
result is the error, the new state and the trace; `none` stands for the panic on a pointer
that is nil. -/
def Snapshots.setPowered (conn : Conn) (h : Snapshots) (a : Nat) (powered : Bool) (t : Trace) :
    Option ((Option GoError × Snapshots) × Trace) :=
  match h.adapters[a]? with
  | none => none
  | some adapter =>
    some (((adapter.SetPowered conn powered t).1.1,
      { h with adapters := h.adapters.set a (adapter.SetPowered conn powered t).1.2 }),
      (adapter.SetPowered conn powered t).2)

/-! ## Constructors and the constructor invocations of a run -/

/-- The struct `StationDiagnostic` of `station_diagnostic.go`. -/
structure StationDiagnostic where
  path : ObjectPath
deriving DecidableEq, Repr, Inhabited

/-- The function `NewStationDiagnostic`: no request is sent and the error is always nil. -/
def NewStationDiagnostic (_conn : Conn) (path : ObjectPath) (t : Trace) :
    Except GoError StationDiagnostic × Trace :=
  (.ok { path := path }, t)

/-- The struct `AgentManager` of `agent_manager.go`. -/
structure AgentManager where
  path : ObjectPath
deriving DecidableEq, Repr, Inhabited

/-- The function `NewAgentManager`: no request is sent, and there is no error result. -/
def NewAgentManager (_conn : Conn) (path : ObjectPath) (t : Trace) : AgentManager × Trace :=
  ({ path := path }, t)

/-- The constructors of the entities: the functions `New...` of `src/pkg` that build an
entity from an object path. -/
inductive Constructor where
  | NewAccessPoint
  | NewAdapter
  | NewAdHoc
  | NewAgentManager
  | NewBasicServiceSet
  | NewDevice
  | NewKnownNetwork
  | NewNetwork
  | NewStation
  | NewStationDiagnostic
deriving DecidableEq, Repr

/-- The chains of nested constructor invocations that belong to one invocation of `c` in
whose body the chains `nested` have occurred: the invocation of `c` alone, and `c` in front of
every chain of a constructor invoked from its body. -/
def Constructor.invoked (c : Constructor) (nested : List (List Constructor)) :
    List (List Constructor) :=
  [c] :: nested.map fun chain => c :: chain

/-- The run of `NewAdapter` with its chains of constructor invocations: the body of
`NewAdapter` (`adapter.go`, lines 45-128) invokes no constructor. -/
def NewAdapter.recorded (conn : Conn) (path : ObjectPath) (t : Trace) :
    (Except GoError Adapter × Trace) × List (List Constructor) :=
  (NewAdapter conn path t, Constructor.NewAdapter.invoked [])

/-- The run of `NewKnownNetwork` with its chains of constructor invocations: the body
(`known_network.go`, lines 50-134) invokes no constructor. -/
def NewKnownNetwork.recorded (conn : Conn) (path : ObjectPath) (t : Trace) :
    (Except GoError KnownNetwork × Trace) × List (List Constructor) :=
  (NewKnownNetwork conn path t, Constructor.NewKnownNetwork.invoked [])

/-- The run of `NewBasicServiceSet` with its chains of constructor invocations: the body
(`basic_service_set.go`, lines 32-59) invokes no constructor. -/
def NewBasicServiceSet.recorded (conn : Conn) (path : ObjectPath) (t : Trace) :
    (Except GoError BasicServiceSet × Trace) × List (List Constructor) :=
  (NewBasicServiceSet conn path t, Constructor.NewBasicServiceSet.invoked [])

/-- The run of `NewAccessPoint` with its chains of constructor invocations: the body
(`access_point.go`, lines 62-145) invokes no constructor. -/
def NewAccessPoint.recorded (conn : Conn) (path : ObjectPath) (t : Trace) :
    (Except GoError AccessPoint × Trace) × List (List Constructor) :=
  (NewAccessPoint conn path t, Constructor.NewAccessPoint.invoked [])

/-- The run of `NewAdHoc` with its chains of constructor invocations: the body (`adhoc.go`,
lines 40-67) invokes no constructor. -/
def NewAdHoc.recorded (conn : Conn) (path : ObjectPath) (t : Trace) :
    (Except GoError AdHoc × Trace) × List (List Constructor) :=
  (NewAdHoc conn path t, Constructor.NewAdHoc.invoked [])

/-- The run of `NewStation` with its chains of constructor invocations: the body
(`station.go`, lines 66-79) invokes no constructor. -/
def NewStation.recorded (conn : Conn) (path : ObjectPath) (t : Trace) :
    (Except GoError Station × Trace) × List (List Constructor) :=
  (NewStation conn path t, Constructor.NewStation.invoked [])

/-- The run of `NewStationDiagnostic` with its chains of constructor invocations: the body
(`station_diagnostic.go`, lines 31-44) invokes no constructor. -/
def NewStationDiagnostic.recorded (conn : Conn) (path : ObjectPath) (t : Trace) :
    (Except GoError StationDiagnostic × Trace) × List (List Constructor) :=
  (NewStationDiagnostic conn path t, Constructor.NewStationDiagnostic.invoked [])

/-- The run of `NewAgentManager` with its chains of constructor invocations: the body
(`agent_manager.go`, lines 37-50) invokes no constructor. -/
def NewAgentManager.recorded (conn : Conn) (path : ObjectPath) (t : Trace) :
    (AgentManager × Trace) × List (List Constructor) :=
  (NewAgentManager conn path t, Constructor.NewAgentManager.invoked [])

/-- The run of `NewDevice` (`device.go`, lines 48-140) with its chains of constructor
invocations: the body of `NewDevice` once more, where the call `NewAdapter(d.conn, path)` of
line 115 is the recorded run of `NewAdapter`, whose chains are kept. A run that ends before
line 115 has invoked no constructor. -/
def NewDevice.recorded (conn : Conn) (path : ObjectPath) (t : Trace) :
    (Except GoError Device × Trace) × List (List Constructor) :=
  let t1 := t ++ [Event.getProperty path devicePropertyName]
  let t2 := t1 ++ [Event.getProperty path devicePropertyAddress]
  let t3 := t2 ++ [Event.getProperty path devicePropertyPowered]
  let t4 := t3 ++ [Event.getProperty path devicePropertyAdapter]
  match conn.GetProperty t path devicePropertyName with
  | .error err => ((.error err, t1), Constructor.NewDevice.invoked [])
  | .ok variant =>
  match conn.storeString variant with
  | .error err2 => ((.error err2, t1), Constructor.NewDevice.invoked [])
  | .ok name =>
  match conn.GetProperty t1 path devicePropertyAddress with
  | .error err => ((.error err, t2), Constructor.NewDevice.invoked [])
  | .ok variant =>
  match conn.storeString variant with
  | .error err2 => ((.error err2, t2), Constructor.NewDevice.invoked [])
  | .ok address =>
  match conn.GetProperty t2 path devicePropertyPowered with
  | .error err => ((.error err, t3), Constructor.NewDevice.invoked [])
  | .ok variant =>
  match conn.storeBool variant with
  | .error err2 => ((.error err2, t3), Constructor.NewDevice.invoked [])
  | .ok powered =>
  match conn.GetProperty t3 path devicePropertyAdapter with
  | .error err => ((.error err, t4), Constructor.NewDevice.invoked [])
  | .ok variant =>
  match conn.storeObjectPath variant with
  | .error err2 => ((.error err2, t4), Constructor.NewDevice.invoked [])
  | .ok adapterPath =>
  let t5 := (NewAdapter.recorded conn adapterPath t4).1.2
  let t6 := t5 ++ [Event.getProperty path devicePropertyMode]
  let chains := Constructor.NewDevice.invoked (NewAdapter.recorded conn adapterPath t4).2
  match (NewAdapter.recorded conn adapterPath t4).1.1 with
  | .error err2 => ((.error err2, t5), chains)
  | .ok adapter =>
  match conn.GetProperty t5 path devicePropertyMode with
  | .error err => ((.error err, t6), chains)
  | .ok variant =>
  match conn.storeString variant with
  | .error err2 => ((.error err2, t6), chains)
  | .ok mode =>
    ((.ok { path := path, name := name, address := address, powered := powered,
            adapter := adapter, mode := mode }, t6), chains)

/-- The loop of `NewNetwork` over the members of the ExtendedServiceSet (`network.go`, lines
163-173) with the chains of the constructor invocations of its turns: each turn invokes
`NewBasicServiceSet`. -/
def newExtendedServiceSet.recorded (conn : Conn) :
    List ObjectPath → List BasicServiceSet → Trace →
      (Except GoError (List BasicServiceSet) × Trace) × List (List Constructor)
  | [], ess, t => ((.ok ess, t), [])
  | path :: paths, ess, t =>
    match (NewBasicServiceSet.recorded conn path t).1.1 with
    | .error err2 =>
      ((.error err2, (NewBasicServiceSet.recorded conn path t).1.2),
        (NewBasicServiceSet.recorded conn path t).2)
    | .ok bss =>
      ((newExtendedServiceSet.recorded conn paths (ess ++ [bss])
          (NewBasicServiceSet.recorded conn path t).1.2).1,
        (NewBasicServiceSet.recorded conn path t).2 ++
          (newExtendedServiceSet.recorded conn paths (ess ++ [bss])
            (NewBasicServiceSet.recorded conn path t).1.2).2)

/-- The part of `NewNetwork` for the optional property KnownNetwork (lines 126-148) with the
chains of its constructor invocations: line 139 invokes `NewKnownNetwork`. -/
def newNetworkKnownNetwork.recorded (conn : Conn) (path : ObjectPath) (t : Trace) :
    (Except GoError (Option KnownNetwork) × Trace) × List (List Constructor) :=
  let t1 := t ++ [Event.getProperty path networkPropertyKnownNetwork]
  match conn.GetProperty t path networkPropertyKnownNetwork with
  | .error _ => ((.ok none, t1), [])
  | .ok variant =>
  match conn.storeObjectPath variant with
  | .error err2 => ((.error err2, t1), [])
  | .ok knownPath =>
  match (NewKnownNetwork.recorded conn knownPath t1).1.1 with
  | .error err2 =>
    ((.error err2, (NewKnownNetwork.recorded conn knownPath t1).1.2),
      (NewKnownNetwork.recorded conn knownPath t1).2)
  | .ok knownNetwork =>
    ((.ok (some knownNetwork), (NewKnownNetwork.recorded conn knownPath t1).1.2),
      (NewKnownNetwork.recorded conn knownPath t1).2)

/-- The part of `NewNetwork` for the optional property ExtendedServiceSet (lines 149-175)
with the chains of its constructor invocations. -/
def newNetworkExtendedServiceSet.recorded (conn : Conn) (path : ObjectPath) (t : Trace) :
    (Except GoError (Option (List BasicServiceSet)) × Trace) × List (List Constructor) :=
  let t1 := t ++ [Event.getProperty path networkPropertyExtendedServiceSet]
  match conn.GetProperty t path networkPropertyExtendedServiceSet with
  | .error _ => ((.ok none, t1), [])
  | .ok variant =>
  match conn.storeObjectPaths variant with
  | .error err2 => ((.error err2, t1), [])
  | .ok paths =>
  match (newExtendedServiceSet.recorded conn paths [] t1).1.1 with
  | .error err2 =>
    ((.error err2, (newExtendedServiceSet.recorded conn paths [] t1).1.2),
      (newExtendedServiceSet.recorded conn paths [] t1).2)
  | .ok ess =>
    ((.ok (some ess), (newExtendedServiceSet.recorded conn paths [] t1).1.2),
      (newExtendedServiceSet.recorded conn paths [] t1).2)

/-- The run of `NewNetwork` (`network.go`, lines 49-177) with its chains of constructor
invocations: the body of `NewNetwork` once more, where the call `NewDevice(n.conn, path)` of
line 102, the call `NewKnownNetwork(conn, path)` of line 139 and the calls
`NewBasicServiceSet(n.conn, path)` of line 164 are recorded runs, whose chains are kept. -/
def NewNetwork.recorded (conn : Conn) (path : ObjectPath) (t : Trace) :
    (Except GoError Network × Trace) × List (List Constructor) :=
  let t1 := t ++ [Event.getProperty path networkPropertyName]
  let t2 := t1 ++ [Event.getProperty path networkPropertyConnected]
  let t3 := t2 ++ [Event.getProperty path networkPropertyDevice]
  match conn.GetProperty t path networkPropertyName with
  | .error err => ((.error err, t1), Constructor.NewNetwork.invoked [])
  | .ok variant =>
  match conn.storeString variant with
  | .error err2 => ((.error err2, t1), Constructor.NewNetwork.invoked [])
  | .ok name =>
  match conn.GetProperty t1 path networkPropertyConnected with
  | .error err => ((.error err, t2), Constructor.NewNetwork.invoked [])
  | .ok variant =>
  match conn.storeBool variant with
  | .error err2 => ((.error err2, t2), Constructor.NewNetwork.invoked [])
  | .ok connected =>
  match conn.GetProperty t2 path networkPropertyDevice with
  | .error err => ((.error err, t3), Constructor.NewNetwork.invoked [])
  | .ok variant =>
  match conn.storeObjectPath variant with
  | .error err2 => ((.error err2, t3), Constructor.NewNetwork.invoked [])
  | .ok devicePath =>
  let t4 := (NewDevice.recorded conn devicePath t3).1.2
  let t5 := t4 ++ [Event.getProperty path networkPropertyType]
  let chains1 := (NewDevice.recorded conn devicePath t3).2
  match (NewDevice.recorded conn devicePath t3).1.1 with
  | .error err2 => ((.error err2, t4), Constructor.NewNetwork.invoked chains1)
  | .ok device =>
  match conn.GetProperty t4 path networkPropertyType with
  | .error err => ((.error err, t5), Constructor.NewNetwork.invoked chains1)
  | .ok variant =>
  match conn.storeString variant with
  | .error err2 => ((.error err2, t5), Constructor.NewNetwork.invoked chains1)
  | .ok netType =>
  let t6 := (newNetworkKnownNetwork.recorded conn path t5).1.2
  let chains2 := chains1 ++ (newNetworkKnownNetwork.recorded conn path t5).2
  match (newNetworkKnownNetwork.recorded conn path t5).1.1 with
  | .error err2 => ((.error err2, t6), Constructor.NewNetwork.invoked chains2)
  | .ok knownNetwork =>
  let t7 := (newNetworkExtendedServiceSet.recorded conn path t6).1.2
  let chains3 := chains2 ++ (newNetworkExtendedServiceSet.recorded conn path t6).2
  match (newNetworkExtendedServiceSet.recorded conn path t6).1.1 with
  | .error err2 => ((.error err2, t7), Constructor.NewNetwork.invoked chains3)
  | .ok extendedServiceSet =>
    ((.ok { path := path, name := name, connected := connected, device := device,
            netType := netType, knownNetwork := knownNetwork,
            extendedServiceSet := extendedServiceSet }, t7),
      Constructor.NewNetwork.invoked chains3)

/-- The fetches of the properties `props` of the object `path`, in that order. -/
def fetches (path : ObjectPath) (props : List String) : List Event :=
  props.map (Event.getProperty path)

/-- The number of members of the ExtendedServiceSet that `NewNetwork` reads after the trace
`τ`: the length of the decoded list of paths, 0 when the property is not fetched or not
decoded. -/
def extendedServiceSetSize (conn : Conn) (path : ObjectPath) (τ : Trace) : Nat :=
  match conn.GetProperty τ path networkPropertyExtendedServiceSet with
  | .error _ => 0
  | .ok variant =>
    match conn.storeObjectPaths variant with
    | .error _ => 0
    | .ok paths => paths.length

/-! ## Sample entities -/

/-- An adapter snapshot used by the examples. -/
def sampleAdapter : Adapter :=
  { path := "/net/connman/iwd/0", name := "phy0", model := none, vendor := none,
    supportedModes := ["ad-hoc", "station", "ap"], powered := true }

/-- A device snapshot used by the examples. -/
def sampleDevice : Device :=
  { path := "/net/connman/iwd/0/4", name := "wlan0", address := "00:11:22:33:44:55",
    powered := true, adapter := sampleAdapter, mode := "station" }

/-- A known-network snapshot used by the examples. -/
def sampleKnown (name : String) : KnownNetwork :=
  { path := "/net/connman/iwd/" ++ name ++ "_psk", name := name, netType := "psk",
    hidden := false, lastConnectedTime := none, autoConnect := true, forgotten := false }

/-- An ordered-network entry with the four attributes the ranking reads. -/
def entry (name : String) (signal : Int) (known connected : Bool) : StationOrderedNetwork :=
  { Network :=
      { path := "/net/connman/iwd/0/4/" ++ name, name := name, connected := connected,
        device := sampleDevice, netType := "psk",
        knownNetwork := if known then some (sampleKnown name) else none,
        extendedServiceSet := none },
    SignalStrength := signal }

/-- Entry A of the ranking example: "Home", signal -40, known, not connected. -/
def entryA : StationOrderedNetwork := entry "Home" (-40) true false

/-- Entry B of the ranking example: "Guest", signal -30, not known, not connected. -/
def entryB : StationOrderedNetwork := entry "Guest" (-30) false false

/-- Entry C of the ranking example: "Home2", signal -90, known, connected. -/
def entryC : StationOrderedNetwork := entry "Home2" (-90) true true

/-- A `Store` that accepts a string value only. -/
def strictStoreString : Variant → Except GoError String
  | .string s => .ok s
  | _ => .error (.store "dbus.Store: type mismatch")

/-- A `Store` that accepts a boolean value only. -/
def strictStoreBool : Variant → Except GoError Bool
  | .bool b => .ok b
  | _ => .error (.store "dbus.Store: type mismatch")

/-- A `Store` that accepts an unsigned 32-bit value only. -/
def strictStoreUint32 : Variant → Except GoError Nat
  | .uint32 n => .ok n
  | _ => .error (.store "dbus.Store: type mismatch")

/-- A `Store` that accepts an object path only. -/
def strictStoreObjectPath : Variant → Except GoError ObjectPath
  | .objectPath p => .ok p
  | _ => .error (.store "dbus.Store: type mismatch")

/-- A `Store` that accepts a list of strings only. -/
def strictStoreStrings : Variant → Except GoError (List String)
  | .strings l => .ok l
  | _ => .error (.store "dbus.Store: type mismatch")

/-- A `Store` that accepts a list of object paths only. -/
def strictStoreObjectPaths : Variant → Except GoError (List ObjectPath)
  | .objectPaths l => .ok l
  | _ => .error (.store "dbus.Store: type mismatch")

/-- A connection used by the examples: the enumeration returns `objects`, every station
reports that it is not scanning, every other property is missing, every property can be set,
and every method call succeeds with an empty reply except the calls of `failingMethod`. -/
def sampleConn (objects : List (ObjectPath × List String)) (failingMethod : String) : Conn where
  managedObjects := fun _ => .ok objects
  GetProperty := fun _ _ property =>
    if property = stationPropertyScanning then .ok (.bool false)
    else .error (.remote "no such property")
  SetProperty := fun _ _ _ _ => none
  call := fun _ _ method _ =>
    if method = failingMethod then .error (.remote "call failed") else .ok []
  storeString := strictStoreString
  storeBool := strictStoreBool
  storeUint32 := strictStoreUint32
  storeObjectPath := strictStoreObjectPath
  storeStrings := strictStoreStrings
  storeObjectPaths := strictStoreObjectPaths

/-- An enumeration with one adapter and two stations. -/
def twoStations : List (ObjectPath × List String) :=
  [("/net/connman/iwd/0", ["net.connman.iwd.Adapter"]),
   ("/net/connman/iwd/0/4", ["net.connman.iwd.Device", "net.connman.iwd.Station"]),
   ("/net/connman/iwd/1/5", ["net.connman.iwd.Device", "net.connman.iwd.Station"])]

/-- An enumeration with one adapter and one device, and no station. -/
def noStations : List (ObjectPath × List String) :=
  [("/net/connman/iwd/0", ["net.connman.iwd.Adapter"]),
   ("/net/connman/iwd/0/4", ["net.connman.iwd.Device", "net.connman.iwd.AccessPoint"])]

/-- A connection used by the examples: the enumeration returns `objects`, a property is read
from the table `properties` (one that is not in the table is missing), every property can be
set, `GetOrderedNetworks` returns `reply` and every other method call succeeds with an empty
reply. -/
def tableConn (objects : List (ObjectPath × List String))
    (properties : List ((ObjectPath × String) × Variant)) (reply : List (List Variant)) :
    Conn where
  managedObjects := fun _ => .ok objects
  GetProperty := fun _ path property =>
    match properties.lookup (path, property) with
    | some value => .ok value
    | none => .error (.remote "no such property")
  SetProperty := fun _ _ _ _ => none
  call := fun _ _ method _ =>
    if method = stationMethodGetOrderedNetworks then .ok reply else .ok []
  storeString := strictStoreString
  storeBool := strictStoreBool
  storeUint32 := strictStoreUint32
  storeObjectPath := strictStoreObjectPath
  storeStrings := strictStoreStrings
  storeObjectPaths := strictStoreObjectPaths

/-- An enumeration with one adapter and one station. -/
def oneStation : List (ObjectPath × List String) :=
  [("/net/connman/iwd/0", ["net.connman.iwd.Adapter"]),
   ("/net/connman/iwd/0/4", ["net.connman.iwd.Device", "net.connman.iwd.Station"])]

/-- The properties of the adapter `sampleAdapter`, of the device `sampleDevice` with its
station, and of one network "Home" on that device. The adapter has no Model and no Vendor,
the network no KnownNetwork and no ExtendedServiceSet. -/
def homeProperties : List ((ObjectPath × String) × Variant) :=
  [(("/net/connman/iwd/0", adapterPropertyName), .string "phy0"),
   (("/net/connman/iwd/0", adapterPropertySupportedModes),
     .strings ["ad-hoc", "station", "ap"]),
   (("/net/connman/iwd/0", adapterPropertyPowered), .bool true),
   (("/net/connman/iwd/0/4", devicePropertyName), .string "wlan0"),
   (("/net/connman/iwd/0/4", devicePropertyAddress), .string "00:11:22:33:44:55"),
   (("/net/connman/iwd/0/4", devicePropertyPowered), .bool true),
   (("/net/connman/iwd/0/4", devicePropertyAdapter), .objectPath "/net/connman/iwd/0"),
   (("/net/connman/iwd/0/4", devicePropertyMode), .string "station"),
   (("/net/connman/iwd/0/4", stationPropertyScanning), .bool false),
   (("/net/connman/iwd/0/4/Home", networkPropertyName), .string "Home"),
   (("/net/connman/iwd/0/4/Home", networkPropertyConnected), .bool false),
   (("/net/connman/iwd/0/4/Home", networkPropertyDevice), .objectPath "/net/connman/iwd/0/4"),
   (("/net/connman/iwd/0/4/Home", networkPropertyType), .string "psk")]

/-- The network snapshot that `NewNetwork` builds from `homeProperties`. -/
def homeNetwork : Network :=
  { path := "/net/connman/iwd/0/4/Home", name := "Home", connected := false,
    device := sampleDevice, netType := "psk", knownNetwork := none,
    extendedServiceSet := none }

/-- A reply to `GetOrderedNetworks` with three entries: "Home", a network "Gone" that has no
properties on the bus, and "Home" once more. -/
def replyWithGone : List (List Variant) :=
  [[.objectPath "/net/connman/iwd/0/4/Home", .int16 (-40)],
   [.objectPath "/net/connman/iwd/0/4/Gone", .int16 (-60)],
   [.objectPath "/net/connman/iwd/0/4/Home", .int16 (-70)]]

/-- The properties of an adapter that has no Model and whose Vendor is not a string. -/
def vendorNotStringProperties : List ((ObjectPath × String) × Variant) :=
  [(("/net/connman/iwd/0", adapterPropertyName), .string "phy0"),
   (("/net/connman/iwd/0", adapterPropertyVendor), .bool true),
   (("/net/connman/iwd/0", adapterPropertySupportedModes),
     .strings ["ad-hoc", "station", "ap"]),
   (("/net/connman/iwd/0", adapterPropertyPowered), .bool true)]

/-- The table `homeProperties` with a KnownNetwork property on the network "Home" that
refers to an object without properties. -/
def danglingKnownProperties : List ((ObjectPath × String) × Variant) :=
  (("/net/connman/iwd/0/4/Home", networkPropertyKnownNetwork),
    .objectPath "/net/connman/iwd/known/gone") :: homeProperties

/-- The properties of a basic service set whose Address is not a string. -/
def addressNotStringProperties : List ((ObjectPath × String) × Variant) :=
  [(("/net/connman/iwd/0/4/bss0", basicServiceSetPropertyAddress), .bool true)]

/-- A reply to `GetOrderedNetworks` with one entry that holds an object path and no signal
strength. -/
def replyWithShortEntry : List (List Variant) :=
  [[.objectPath "/net/connman/iwd/0/4/Home"]]

/-- A reply to `GetOrderedNetworks` with one entry whose signal strength is a string. -/
def replyWithStringSignal : List (List Variant) :=
  [[.objectPath "/net/connman/iwd/0/4/Home", .string "-40"]]

/-- A caller that holds one adapter and one device, `sampleAdapter` and `sampleDevice`, both
snapshots of the adapter `/net/connman/iwd/0`. -/
def sampleSnapshots : Snapshots :=
  { adapters := [sampleAdapter], devices := [sampleDevice] }

/-- A device in mode "station" whose adapter supports the mode "station" only. -/
def stationOnlyDevice : Device :=
  { sampleDevice with adapter := { sampleAdapter with supportedModes := ["station"] } }

/-! ## Lemmas on `sort.SliceStable` -/

namespace GoSort

variable {α : Type} [Inhabited α]

theorem length_swap (data : List α) (i j : Nat) : (swap data i j).length = data.length := by
  simp [swap]

theorem elemAt_swap (data : List α) {i j : Nat} (hi : i < data.length) (hj : j < data.length)
    (x : Nat) :
    elemAt (swap data i j) x =
      if x = j then elemAt data i else if x = i then elemAt data j else elemAt data x := by
  unfold swap elemAt
  simp only [List.getD_eq_getElem?_getD, List.getElem?_set, List.length_set]
  by_cases h1 : x = j
  · subst h1; simp [hj]
  · by_cases h2 : x = i
    · subst h2; simp [hi, Ne.symm h1, h1]
    · simp [h1, h2, Ne.symm h1, Ne.symm h2]

theorem PermWithin.refl (a b : Nat) (data : List α) : PermWithin a b data data :=
  ⟨rfl, 1, fun _ _ => rfl, fun _ => rfl⟩

theorem PermWithin.trans {a b : Nat} {d1 d2 d3 : List α}
    (h12 : PermWithin a b d1 d2) (h23 : PermWithin a b d2 d3) : PermWithin a b d1 d3 := by
  obtain ⟨l12, σ, hσ, e12⟩ := h12
  obtain ⟨l23, τ, hτ, e23⟩ := h23
  refine ⟨l23.trans l12, σ * τ, ?_, ?_⟩
  · intro x hx
    simp [Equiv.Perm.mul_apply, hτ x hx, hσ x hx]
  · intro x
    simp [Equiv.Perm.mul_apply, e23 x, e12 (τ x)]

theorem PermWithin.mono {a b a' b' : Nat} {d1 d2 : List α} (h : PermWithin a b d1 d2)
    (ha : a' ≤ a) (hb : b ≤ b') : PermWithin a' b' d1 d2 := by
  obtain ⟨l, σ, hσ, e⟩ := h
  exact ⟨l, σ, fun x hx => hσ x (by omega), e⟩

theorem PermWithin.length_eq {a b : Nat} {d1 d2 : List α} (h : PermWithin a b d1 d2) :
    d2.length = d1.length := h.1

theorem PermWithin.frame {a b : Nat} {d1 d2 : List α} (h : PermWithin a b d1 d2)
    {x : Nat} (hx : x < a ∨ b ≤ x) : elemAt d2 x = elemAt d1 x := by
  obtain ⟨_, σ, hσ, e⟩ := h
  rw [e x, hσ x hx]

theorem PermWithin.source {a b : Nat} {d1 d2 : List α} (h : PermWithin a b d1 d2)
    {x : Nat} (hxa : a ≤ x) (hxb : x < b) :
    ∃ y, a ≤ y ∧ y < b ∧ elemAt d2 x = elemAt d1 y := by
  obtain ⟨_, σ, hσ, e⟩ := h
  refine ⟨σ x, ?_, ?_, e x⟩
  · by_contra hc
    have h1 : σ (σ x) = σ x := hσ (σ x) (by omega)
    have h2 : σ x = x := σ.injective h1
    omega
  · by_contra hc
    have h1 : σ (σ x) = σ x := hσ (σ x) (by omega)
    have h2 : σ x = x := σ.injective h1
    omega

theorem PermWithin.swap {a b : Nat} (data : List α) {i j : Nat} (hia : a ≤ i) (hib : i < b)
    (hja : a ≤ j) (hjb : j < b) (hb : b ≤ data.length) :
    PermWithin a b data (swap data i j) := by
  refine ⟨length_swap data i j, Equiv.swap i j, ?_, ?_⟩
  · intro x hx
    exact Equiv.swap_apply_of_ne_of_ne (by omega) (by omega)
  · intro x
    rw [elemAt_swap data (by omega) (by omega), Equiv.swap_apply_def]
    by_cases h1 : x = j
    · subst h1
      by_cases h2 : x = i
      · subst h2; simp
      · simp [h2]
    · by_cases h2 : x = i
      · subst h2; simp [h1]
      · simp [h1, h2]

theorem permWithin_insertLoop (less : α → α → Bool) (a b : Nat) :
    ∀ (j : Nat) (data : List α), j < b → b ≤ data.length →
      PermWithin a b data (insertLoop less a j data) := by
  intro j
  induction j with
  | zero => intro data _ _; exact PermWithin.refl _ _ _
  | succ j ih =>
    intro data hj hb
    unfold insertLoop
    split
    · rename_i h
      have h1 : PermWithin a b data (swap data (j + 1) j) :=
        PermWithin.swap data (by omega) hj (by omega) (by omega) hb
      exact h1.trans (ih _ (by omega) (by rw [length_swap]; exact hb))
    · exact PermWithin.refl _ _ _

theorem permWithin_foldl_range' {a b : Nat} (f : List α → Nat → List α) :
    ∀ (n s : Nat) (data : List α),
      (∀ (d : List α) (i : Nat), s ≤ i → i < s + n → d.length = data.length →
        PermWithin a b d (f d i)) →
      PermWithin a b data ((List.range' s n).foldl f data) := by
  intro n
  induction n with
  | zero => intro s data _; exact PermWithin.refl _ _ _
  | succ n ih =>
    intro s data hf
    rw [List.range'_succ, List.foldl_cons]
    have h1 := hf data s (le_refl _) (by omega) rfl
    refine h1.trans (ih (s + 1) _ ?_)
    intro d i hi1 hi2 hd
    exact hf d i (by omega) (by omega) (hd.trans h1.length_eq)

theorem permWithin_insertionSort (less : α → α → Bool) (data : List α) (a b : Nat)
    (hb : b ≤ data.length) : PermWithin a b data (insertionSort less data a b) := by
  unfold insertionSort
  apply permWithin_foldl_range'
  intro d i hi1 hi2 hd
  exact permWithin_insertLoop less a b i d (by omega) (by omega)

theorem permWithin_swapRange (data : List α) (a b n lo hi : Nat) (hlo : lo ≤ a) (hlo' : lo ≤ b)
    (h1 : a + n ≤ hi) (h2 : b + n ≤ hi) (hhi : hi ≤ data.length) :
    PermWithin lo hi data (swapRange data a b n) := by
  unfold swapRange
  rw [List.range_eq_range']
  apply permWithin_foldl_range'
  intro d i hi1 hi2 hd
  exact PermWithin.swap d (by omega) (by omega) (by omega) (by omega) (by omega)

theorem permWithin_rotateLoop (m : Nat) :
    ∀ (fuel i j : Nat) (data : List α), i ≤ m → m + j ≤ data.length →
      PermWithin (m - i) (m + j) data (rotateLoop m fuel i j data) := by
  intro fuel
  induction fuel with
  | zero => intro i j data _ _; exact PermWithin.refl _ _ _
  | succ fuel ih =>
    intro i j data hi hj
    unfold rotateLoop
    split
    · split
      · have h1 := permWithin_swapRange data (m - i) m j (m - i) (m + j) (le_refl _) (by omega)
          (by omega) (by omega) hj
        have h2 := ih (i - j) j (swapRange data (m - i) m j) (by omega)
          (by rw [h1.length_eq]; exact hj)
        exact h1.trans (h2.mono (by omega) (by omega))
      · have h1 := permWithin_swapRange data (m - i) (m + j - i) i (m - i) (m + j) (le_refl _)
          (by omega) (by omega) (by omega) hj
        have h2 := ih i (j - i) (swapRange data (m - i) (m + j - i) i) (by omega)
          (by rw [h1.length_eq]; omega)
        exact h1.trans (h2.mono (by omega) (by omega))
    · exact permWithin_swapRange data (m - i) m i (m - i) (m + j) (le_refl _) (by omega)
        (by omega) (by omega) hj

theorem permWithin_rotate (data : List α) (a m b : Nat) (ham : a ≤ m) (hmb : m ≤ b)
    (hb : b ≤ data.length) : PermWithin a b data (rotate data a m b) := by
  unfold rotate
  have h := permWithin_rotateLoop m (b - a) (m - a) (b - m) data (by omega) (by omega)
  exact h.mono (by omega) (by omega)

theorem permWithin_shiftUp (data : List α) (a e lo hi : Nat) (hlo : lo ≤ a) (he : e < hi)
    (hhi : hi ≤ data.length) : PermWithin lo hi data (shiftUp data a e) := by
  unfold shiftUp
  apply permWithin_foldl_range'
  intro d k hk1 hk2 hd
  exact PermWithin.swap d (by omega) (by omega) (by omega) (by omega) (by omega)

theorem permWithin_shiftDown (i lo hi : Nat) (hlo : lo ≤ i) :
    ∀ (k : Nat) (data : List α), k < hi → hi ≤ data.length →
      PermWithin lo hi data (shiftDown i k data) := by
  intro k
  induction k with
  | zero => intro data _ _; exact PermWithin.refl _ _ _
  | succ k ih =>
    intro data hk hhi
    unfold shiftDown
    split
    · have h1 : PermWithin lo hi data (swap data (k + 1) k) :=
        PermWithin.swap data (by omega) hk (by omega) (by omega) hhi
      exact h1.trans (ih _ (by omega) (by rw [length_swap]; exact hhi))
    · exact PermWithin.refl _ _ _

theorem searchLoop_bounds (pred : Nat → Bool) :
    ∀ (fuel i j : Nat), i ≤ j → i ≤ searchLoop pred fuel i j ∧ searchLoop pred fuel i j ≤ j := by
  intro fuel
  induction fuel with
  | zero => intro i j h; exact ⟨le_refl _, h⟩
  | succ fuel ih =>
    intro i j h
    unfold searchLoop
    split
    · split
      · have := ih ((i + j) / 2 + 1) j (by omega)
        omega
      · have := ih i ((i + j) / 2) (by omega)
        omega
    · exact ⟨le_refl _, h⟩

theorem permWithin_symMerge (less : α → α → Bool) :
    ∀ (fuel : Nat) (data : List α) (a m b : Nat), a ≤ m → m ≤ b → b ≤ data.length →
      PermWithin a b data (symMerge less fuel data a m b) := by
  intro fuel
  induction fuel with
  | zero => intro data a m b _ _ _; exact PermWithin.refl _ _ _
  | succ fuel ih =>
    intro data a m b ham hmb hb
    unfold symMerge
    split
    · rename_i h1
      have hs := searchLoop_bounds (fun h => less (elemAt data h) (elemAt data a)) (b - m) m b hmb
      exact permWithin_shiftUp data a _ a b (le_refl _) (by omega) hb
    · split
      · rename_i h1 h2
        have hs := searchLoop_bounds (fun h => !less (elemAt data m) (elemAt data h)) (m - a) a m
          ham
        exact permWithin_shiftDown _ a b hs.1 m data (by omega) hb
      · rename_i h1 h2
        dsimp only
        generalize hmid : (a + b) / 2 = mid
        have hmid1 : a ≤ mid := by omega
        have hmid2 : mid ≤ b := by omega
        generalize hstart0 : (if m > mid then mid + m - b else a) = start0
        generalize hr0 : (if m > mid then mid else m) = r0
        have h0 : start0 ≤ r0 := by
          subst hstart0 hr0
          split <;> omega
        have hs := searchLoop_bounds
          (fun c => !less (elemAt data (mid + m - 1 - c)) (elemAt data c)) (r0 - start0) start0 r0
          h0
        generalize searchLoop
          (fun c => !less (elemAt data (mid + m - 1 - c)) (elemAt data c)) (r0 - start0) start0 r0
          = start at hs ⊢
        have hsa : a ≤ start := by
          subst hstart0
          split at hs <;> omega
        have hsm : start ≤ m := by
          subst hr0
          split at hs <;> omega
        have hsmid : start ≤ mid := by
          subst hr0
          split at hs <;> omega
        have hend : mid + m - start ≤ b := by
          subst hstart0
          split at hs <;> omega
        generalize hd1 : (if start < m ∧ m < mid + m - start
          then rotate data start m (mid + m - start) else data) = data1
        have p1 : PermWithin a b data data1 := by
          subst hd1
          split
          · exact (permWithin_rotate data start m _ hsm (by omega) (by omega)).mono hsa hend
          · exact PermWithin.refl _ _ _
        generalize hd2 : (if a < start ∧ start < mid
          then symMerge less fuel data1 a start mid else data1) = data2
        have p2 : PermWithin a b data1 data2 := by
          subst hd2
          split
          · exact (ih data1 a start mid hsa hsmid (by rw [p1.length_eq]; omega)).mono
              (le_refl _) hmid2
          · exact PermWithin.refl _ _ _
        have p3 : PermWithin a b data2
            (if mid < mid + m - start ∧ mid + m - start < b
              then symMerge less fuel data2 mid (mid + m - start) b else data2) := by
          split
          · exact (ih data2 mid _ b (by omega) hend
              (by rw [p2.length_eq, p1.length_eq]; omega)).mono hmid1 (le_refl _)
          · exact PermWithin.refl _ _ _
        exact (p1.trans p2).trans p3

theorem length_shiftDown (i : Nat) :
    ∀ (k : Nat) (data : List α), (shiftDown i k data).length = data.length := by
  intro k
  induction k with
  | zero => intro data; rfl
  | succ k ih =>
    intro data
    unfold shiftDown
    split
    · rw [ih, length_swap]
    · rfl

theorem elemAt_shiftDown (i : Nat) :
    ∀ (k : Nat) (data : List α), i ≤ k → k < data.length → ∀ x,
      elemAt (shiftDown i k data) x =
        if x = i then elemAt data k
        else if i < x ∧ x ≤ k then elemAt data (x - 1) else elemAt data x := by
  intro k
  induction k with
  | zero =>
    intro data hi _ x
    have : i = 0 := by omega
    subst this
    unfold shiftDown
    split_ifs with h1 h2
    · rw [h1]
    · omega
    · rfl
  | succ k ih =>
    intro data hi hk x
    unfold shiftDown
    split
    · rw [ih _ (by omega) (by rw [length_swap]; omega)]
      simp only [elemAt_swap data hk (show k < data.length by omega)]
      split_ifs <;> first | rfl | omega | (congr 1; omega)
    · have : i = k + 1 := by omega
      subst this
      split_ifs with h1 h2
      · rw [h1]
      · omega
      · rfl

theorem swapRange_succ (data : List α) (a b n : Nat) :
    swapRange data a b (n + 1) = swap (swapRange data a b n) (a + n) (b + n) := by
  unfold swapRange
  rw [List.range_succ, List.foldl_append]
  rfl

theorem length_swapRange (data : List α) (a b n : Nat) :
    (swapRange data a b n).length = data.length := by
  induction n with
  | zero => rfl
  | succ n ih => rw [swapRange_succ, length_swap, ih]

theorem elemAt_swapRange (data : List α) (a b n : Nat) (hab : a + n ≤ b)
    (hb : b + n ≤ data.length) (x : Nat) :
    elemAt (swapRange data a b n) x =
      if a ≤ x ∧ x < a + n then elemAt data (x + (b - a))
      else if b ≤ x ∧ x < b + n then elemAt data (x - (b - a)) else elemAt data x := by
  induction n generalizing x with
  | zero =>
    simp only [swapRange, List.range_zero, List.foldl_nil]
    split_ifs <;> first | rfl | omega
  | succ n ih =>
    rw [swapRange_succ, elemAt_swap _ (by rw [length_swapRange]; omega)
      (by rw [length_swapRange]; omega)]
    rw [ih (by omega) (by omega), ih (by omega) (by omega), ih (by omega) (by omega)]
    split_ifs <;> first | rfl | omega | (congr 1; omega)

theorem shiftUp_succ (data : List α) (a e : Nat) (h : a ≤ e) :
    shiftUp data a (e + 1) = swap (shiftUp data a e) e (e + 1) := by
  unfold shiftUp
  have : e + 1 - a = (e - a) + 1 := by omega
  rw [this, List.range'_1_concat, List.foldl_append]
  have h2 : a + (e - a) = e := by omega
  simp only [List.foldl_cons, List.foldl_nil, h2]

theorem shiftUp_self (data : List α) (a e : Nat) (h : e ≤ a) : shiftUp data a e = data := by
  unfold shiftUp
  have : e - a = 0 := by omega
  rw [this]
  rfl

theorem length_shiftUp (data : List α) (a e : Nat) :
    (shiftUp data a e).length = data.length := by
  induction e with
  | zero => rw [shiftUp_self _ _ _ (by omega)]
  | succ e ih =>
    by_cases h : a ≤ e
    · rw [shiftUp_succ _ _ _ h, length_swap, ih]
    · rw [shiftUp_self _ _ _ (by omega)]

theorem elemAt_shiftUp (data : List α) (a e : Nat) (hae : a ≤ e) (he : e < data.length)
    (x : Nat) :
    elemAt (shiftUp data a e) x =
      if a ≤ x ∧ x < e then elemAt data (x + 1)
      else if x = e then elemAt data a else elemAt data x := by
  induction e, hae using Nat.le_induction generalizing x with
  | base =>
    rw [shiftUp_self _ _ _ (le_refl _)]
    split_ifs with h1 h2
    · omega
    · rw [h2]
    · rfl
  | succ e hae ih =>
    rw [shiftUp_succ _ _ _ hae, elemAt_swap _ (by rw [length_shiftUp]; omega)
      (by rw [length_shiftUp]; omega)]
    rw [ih (by omega), ih (by omega), ih (by omega)]
    split_ifs <;> first | rfl | omega | (congr 1; omega)

theorem elemAt_rotateLoop (m : Nat) :
    ∀ (fuel i j : Nat) (data : List α), 0 < i → 0 < j → i + j ≤ fuel → i ≤ m →
      m + j ≤ data.length → ∀ x,
      elemAt (rotateLoop m fuel i j data) x =
        if m - i ≤ x ∧ x < m - i + j then elemAt data (x + i)
        else if m - i + j ≤ x ∧ x < m + j then elemAt data (x - j) else elemAt data x := by
  intro fuel
  induction fuel with
  | zero => intro i j data hi hj hf; omega
  | succ fuel ih =>
    intro i j data hi hj hf him hlen x
    unfold rotateLoop
    split
    · split
      · rw [ih (i - j) j _ (by omega) hj (by omega) (by omega)
          (by rw [length_swapRange]; omega)]
        simp only [elemAt_swapRange data (m - i) m j (by omega) (by omega)]
        split_ifs <;> first | rfl | omega | (congr 1; omega)
      · rw [ih i (j - i) _ hi (by omega) (by omega) (by omega)
          (by rw [length_swapRange]; omega)]
        simp only [elemAt_swapRange data (m - i) (m + j - i) i (by omega) (by omega)]
        split_ifs <;> first | rfl | omega | (congr 1; omega)
    · rename_i hij
      have hij' : i = j := by omega
      subst hij'
      rw [elemAt_swapRange data (m - i) m i (by omega) (by omega)]
      split_ifs <;> first | rfl | omega | (congr 1; omega)

theorem elemAt_rotate (data : List α) (a m b : Nat) (ham : a < m) (hmb : m < b)
    (hb : b ≤ data.length) (x : Nat) :
    elemAt (rotate data a m b) x =
      if a ≤ x ∧ x < a + (b - m) then elemAt data (x + (m - a))
      else if a + (b - m) ≤ x ∧ x < b then elemAt data (x - (b - m)) else elemAt data x := by
  unfold rotate
  rw [elemAt_rotateLoop m (b - a) (m - a) (b - m) data (by omega) (by omega) (by omega)
    (by omega) (by omega)]
  split_ifs <;> first | rfl | omega

theorem searchLoop_spec (pred : Nat → Bool) :
    ∀ (fuel i j : Nat), i ≤ j → j - i ≤ fuel →
      (∀ x y, i ≤ x → x < y → y < j → pred y = true → pred x = true) →
      (∀ x, i ≤ x → x < searchLoop pred fuel i j → pred x = true) ∧
        (∀ x, searchLoop pred fuel i j ≤ x → x < j → pred x = false) := by
  intro fuel
  induction fuel with
  | zero =>
    intro i j hij hf _
    unfold searchLoop
    exact ⟨fun x h1 h2 => by omega, fun x h1 h2 => by omega⟩
  | succ fuel ih =>
    intro i j hij hf hmono
    unfold searchLoop
    split
    · split
      · rename_i hlt hp
        obtain ⟨h1, h2⟩ := ih ((i + j) / 2 + 1) j (by omega) (by omega)
          (fun x y hx hxy hy => hmono x y (by omega) hxy hy)
        refine ⟨fun x hx1 hx2 => ?_, h2⟩
        by_cases hx : x < (i + j) / 2
        · exact hmono x _ hx1 hx (by omega) hp
        · by_cases hx' : x = (i + j) / 2
          · rw [hx']; exact hp
          · exact h1 x (by omega) hx2
      · rename_i hlt hp
        obtain ⟨h1, h2⟩ := ih i ((i + j) / 2) (by omega) (by omega)
          (fun x y hx hxy hy => hmono x y hx hxy (by omega))
        refine ⟨h1, fun x hx1 hx2 => ?_⟩
        by_cases hx : x < (i + j) / 2
        · exact h2 x hx1 hx
        · by_cases hx' : x = (i + j) / 2
          · rw [hx']; simpa using hp
          · cases hpx : pred x with
            | false => rfl
            | true => exact absurd (hmono _ x (by omega) (by omega) hx2 hpx) hp
    · exact ⟨fun x h1 h2 => by omega, fun x h1 h2 => by omega⟩

theorem Part.sub {P : α → Bool} {data : List α} {a b a' b' : Nat} (h : Part P data a b)
    (ha : a ≤ a') (hb : b' ≤ b) : Part P data a' b' :=
  fun x y hx hxy hy hP => h x y (by omega) hxy (by omega) hP

theorem Part.of_le {P : α → Bool} {data : List α} {a b : Nat} (h : b ≤ a + 1) :
    Part P data a b :=
  fun x y hx hxy hy _ => by omega

theorem Part.congr {P : α → Bool} {d d' : List α} {a b : Nat} (h : Part P d a b)
    (he : ∀ x, a ≤ x → x < b → elemAt d' x = elemAt d x) : Part P d' a b := by
  intro x y hx hxy hy hP
  rw [he x hx (by omega)]
  rw [he y (by omega) hy] at hP
  exact h x y hx hxy hy hP

theorem Part.shift {P : α → Bool} {d d' : List α} {a b a' b' : Nat} (g : Nat → Nat)
    (h : Part P d a' b') (hg1 : ∀ x, a ≤ x → x < b → a' ≤ g x ∧ g x < b')
    (hg2 : ∀ x y, a ≤ x → x < y → y < b → g x < g y)
    (he : ∀ x, a ≤ x → x < b → elemAt d' x = elemAt d (g x)) : Part P d' a b := by
  intro x y hx hxy hy hP
  rw [he x hx (by omega)]
  rw [he y (by omega) hy] at hP
  exact h (g x) (g y) (hg1 x hx (by omega)).1 (hg2 x y hx hxy hy) (hg1 y (by omega) hy).2 hP

theorem Part.glue {P : α → Bool} {d : List α} {a mid b : Nat} (h1 : Part P d a mid)
    (h2 : Part P d mid b)
    (hc : ∀ x y, a ≤ x → x < mid → mid ≤ y → y < b → P (elemAt d y) = true →
      P (elemAt d x) = true) : Part P d a b := by
  intro x y hx hxy hy hP
  by_cases hym : y < mid
  · exact h1 x y hx hxy hym hP
  · by_cases hxm : x < mid
    · exact hc x y hx hxm (by omega) hy hP
    · exact h2 x y (by omega) hxy hy hP

theorem part_symMerge_left_one (P : α → Bool) (data : List α) (a m b : Nat) (hm : m - a = 1)
    (hmb : m < b) (hb : b ≤ data.length) (hR : Part P data m b) :
    Part P (shiftUp data a
      (searchLoop (fun h => (fun x _ => P x) (elemAt data h) (elemAt data a)) (b - m) m b - 1))
      a b := by
  have hbd := searchLoop_bounds (fun h => P (elemAt data h)) (b - m) m b (by omega)
  obtain ⟨hs1, hs2⟩ := searchLoop_spec (fun h => P (elemAt data h)) (b - m) m b (by omega)
    (le_refl _) (fun x y hx hxy hy hp => hR x y hx hxy hy hp)
  show Part P (shiftUp data a (searchLoop (fun h => P (elemAt data h)) (b - m) m b - 1)) a b
  generalize searchLoop (fun h => P (elemAt data h)) (b - m) m b = i at hbd hs1 hs2 ⊢
  intro x y hx hxy hy hP
  rw [elemAt_shiftUp data a (i - 1) (by omega) (by omega)] at hP ⊢
  by_cases hxe : x < i - 1
  · rw [if_pos ⟨hx, hxe⟩]
    exact hs1 (x + 1) (by omega) (by omega)
  · exfalso
    rw [if_neg (by omega), if_neg (by omega)] at hP
    have := hs2 y (by omega) hy
    simp only [this] at hP
    exact Bool.false_ne_true hP

theorem part_symMerge_right_one (P : α → Bool) (data : List α) (a m b : Nat) (ham : a < m)
    (hm : b - m = 1) (hb : b ≤ data.length) (hL : Part P data a m) :
    Part P (shiftDown
      (searchLoop (fun h => !(fun x _ => P x) (elemAt data m) (elemAt data h)) (m - a) a m)
      m data) a b := by
  have hbd := searchLoop_bounds (fun _ => !P (elemAt data m)) (m - a) a m (by omega)
  obtain ⟨hs1, hs2⟩ := searchLoop_spec (fun _ => !P (elemAt data m)) (m - a) a m (by omega)
    (le_refl _) (fun x y hx hxy hy hp => hp)
  show Part P (shiftDown (searchLoop (fun _ => !P (elemAt data m)) (m - a) a m) m data) a b
  generalize searchLoop (fun _ => !P (elemAt data m)) (m - a) a m = i at hbd hs1 hs2 ⊢
  intro x y hx hxy hy hP
  rw [elemAt_shiftDown i m data (by omega) (by omega)] at hP ⊢
  cases hPm : P (elemAt data m) with
  | true =>
    have hia : i = a := by
      by_contra hne
      have := hs1 a (le_refl _) (by omega)
      simp [hPm] at this
    subst hia
    by_cases hxi : x = i
    · rw [if_pos hxi]; exact hPm
    · rw [if_neg hxi, if_pos (by omega)]
      rw [if_neg (by omega), if_pos (by omega)] at hP
      exact hL (x - 1) (y - 1) (by omega) (by omega) (by omega) hP
  | false =>
    have him : i = m := by
      by_contra hne
      have := hs2 i (le_refl _) (by omega)
      simp [hPm] at this
    subst him
    by_cases hyi : y = i
    · rw [if_pos hyi, hPm] at hP
      exact absurd hP Bool.false_ne_true
    · rw [if_neg hyi, if_neg (by omega)] at hP
      rw [if_neg (by omega), if_neg (by omega)]
      exact hL x y hx hxy (by omega) hP

theorem part_symMerge_split (P : α → Bool) (data data1 : List α) (a m b mid start0 r0 start : Nat)
    (ham : a < m) (hmb : m < b) (hL : Part P data a m) (hR : Part P data m b)
    (hmid : mid = (a + b) / 2)
    (hc : (mid < m ∧ start0 = mid + m - b ∧ r0 = mid) ∨ (m ≤ mid ∧ start0 = a ∧ r0 = m))
    (hbd : start0 ≤ start ∧ start ≤ r0)
    (hs1 : ∀ c, start0 ≤ c → c < start → P (elemAt data (mid + m - 1 - c)) = false)
    (hs2 : ∀ c, start ≤ c → c < r0 → P (elemAt data (mid + m - 1 - c)) = true)
    (h1 : ∀ x, elemAt data1 x =
      if start ≤ x ∧ x < mid then elemAt data (x + (m - start))
      else if mid ≤ x ∧ x < mid + m - start then elemAt data (x - (mid - start))
      else elemAt data x) :
    Part P data1 a start ∧ Part P data1 start mid ∧ Part P data1 mid (mid + m - start) ∧
      Part P data1 (mid + m - start) b ∧
      (∀ x y, a ≤ x → x < mid → mid ≤ y → y < b → P (elemAt data1 y) = true →
        P (elemAt data1 x) = true) := by
  refine ⟨?_, ?_, ?_, ?_, ?_⟩
  · refine (hL.sub (le_refl _) (by omega)).congr ?_
    intro x hx1 hx2
    rw [h1, if_neg (by omega), if_neg (by omega)]
  · refine Part.shift (fun x => x + (m - start)) hR ?_ ?_ ?_
    · intro x hx1 hx2; dsimp only; omega
    · intro x y hx hxy hy; dsimp only; omega
    · intro x hx1 hx2
      rw [h1, if_pos ⟨hx1, hx2⟩]
  · refine Part.shift (fun x => x - (mid - start)) hL ?_ ?_ ?_
    · intro x hx1 hx2; dsimp only; omega
    · intro x y hx hxy hy; dsimp only; omega
    · intro x hx1 hx2
      rw [h1, if_neg (by omega), if_pos ⟨hx1, hx2⟩]
  · refine (hR.sub (by omega) (le_refl _)).congr ?_
    intro x hx1 hx2
    rw [h1, if_neg (by omega), if_neg (by omega)]
  · intro x y hxa hxm hym hyb hP
    rw [h1] at hP ⊢
    rw [if_neg (by omega)] at hP
    by_cases hxs : x < start
    · rw [if_neg (by omega), if_neg (by omega)]
      by_cases hye : y < mid + m - start
      · rw [if_pos ⟨hym, hye⟩] at hP
        exact hL x (y - (mid - start)) hxa (by omega) (by omega) hP
      · rw [if_neg (by omega)] at hP
        exfalso
        have h0 : start0 < start := by omega
        have hN := hs1 (start - 1) (by omega) (by omega)
        have he : mid + m - 1 - (start - 1) = mid + m - start := by omega
        rw [he] at hN
        by_cases hy' : y = mid + m - start
        · rw [hy', hN] at hP
          exact Bool.false_ne_true hP
        · have := hR (mid + m - start) y (by omega) (by omega) hyb hP
          rw [hN] at this
          exact Bool.false_ne_true this
    · rw [if_pos ⟨by omega, hxm⟩]
      by_cases hsr : start < r0
      · have hT := hs2 start (le_refl _) hsr
        by_cases hx' : x + (m - start) = mid + m - 1 - start
        · rw [hx']; exact hT
        · exact hR (x + (m - start)) (mid + m - 1 - start) (by omega) (by omega) (by omega) hT
      · have hsm : start = m := by omega
        rw [if_neg (by omega)] at hP
        exact hR (x + (m - start)) y (by omega) (by omega) hyb hP

theorem part_symMerge (P : α → Bool) :
    ∀ (fuel : Nat) (data : List α) (a m b : Nat), b - a ≤ fuel → a < m → m < b →
      b ≤ data.length → Part P data a m → Part P data m b →
      Part P (symMerge (fun x _ => P x) fuel data a m b) a b := by
  intro fuel
  induction fuel with
  | zero => intro data a m b hf ham hmb; omega
  | succ fuel ih =>
    intro data a m b hf ham hmb hb hL hR
    unfold symMerge
    split
    · rename_i hm1
      exact part_symMerge_left_one P data a m b hm1 hmb hb hR
    · split
      · rename_i hm1 hm2
        exact part_symMerge_right_one P data a m b ham hm2 hb hL
      · rename_i hm1 hm2
        dsimp only
        generalize hmid : (a + b) / 2 = mid
        generalize hstart0 : (if m > mid then mid + m - b else a) = start0
        generalize hr0 : (if m > mid then mid else m) = r0
        have hc : (mid < m ∧ start0 = mid + m - b ∧ r0 = mid) ∨
            (m ≤ mid ∧ start0 = a ∧ r0 = m) := by
          subst hstart0 hr0
          by_cases h : m > mid
          · left; simp [h]
          · right; simp [h]; omega
        have h0 : start0 ≤ r0 := by omega
        have hbd := searchLoop_bounds
          (fun c => !P (elemAt data (mid + m - 1 - c))) (r0 - start0) start0 r0 h0
        obtain ⟨hs1, hs2⟩ := searchLoop_spec
          (fun c => !P (elemAt data (mid + m - 1 - c))) (r0 - start0) start0 r0 h0 (le_refl _)
          (by
            intro x y hx hxy hy hp
            cases hpx : P (elemAt data (mid + m - 1 - x)) with
            | false => simp [hpx]
            | true =>
              have := hR (mid + m - 1 - y) (mid + m - 1 - x) (by omega) (by omega) (by omega)
                hpx
              simp [this] at hp)
        generalize searchLoop
          (fun c => !P (elemAt data (mid + m - 1 - c))) (r0 - start0) start0 r0
          = start at hbd hs1 hs2 ⊢
        have hs1' : ∀ c, start0 ≤ c → c < start →
            P (elemAt data (mid + m - 1 - c)) = false := by
          intro c hc1 hc2
          simpa using hs1 c hc1 hc2
        have hs2' : ∀ c, start ≤ c → c < r0 →
            P (elemAt data (mid + m - 1 - c)) = true := by
          intro c hc1 hc2
          simpa using hs2 c hc1 hc2
        generalize hd1 : (if start < m ∧ m < mid + m - start
          then rotate data start m (mid + m - start) else data) = data1
        have p1 : PermWithin a b data data1 := by
          subst hd1
          split
          · exact (permWithin_rotate data start m _ (by omega) (by omega) (by omega)).mono
              (by omega) (by omega)
          · exact PermWithin.refl _ _ _
        have h1 : ∀ x, elemAt data1 x =
            if start ≤ x ∧ x < mid then elemAt data (x + (m - start))
            else if mid ≤ x ∧ x < mid + m - start then elemAt data (x - (mid - start))
            else elemAt data x := by
          intro x
          subst hd1
          split
          · rename_i hrot
            rw [elemAt_rotate data start m _ hrot.1 hrot.2 (by omega)]
            split_ifs <;> first | rfl | omega | (congr 1; omega)
          · split_ifs <;> first | rfl | omega | (congr 1; omega)
        obtain ⟨q1, q2, q3, q4, qc⟩ := part_symMerge_split P data data1 a m b mid start0 r0
          start ham hmb hL hR hmid.symm hc hbd hs1' hs2' h1
        generalize hd2 : (if a < start ∧ start < mid
          then symMerge (fun x _ => P x) fuel data1 a start mid else data1) = data2
        have p2 : PermWithin a mid data1 data2 := by
          subst hd2
          split
          · exact permWithin_symMerge _ fuel data1 a start mid (by omega) (by omega)
              (by rw [p1.length_eq]; omega)
          · exact PermWithin.refl _ _ _
        have r1 : Part P data2 a mid := by
          subst hd2
          split
          · rename_i hcond
            exact ih data1 a start mid (by omega) hcond.1 hcond.2
              (by rw [p1.length_eq]; omega) q1 q2
          · rename_i hcond
            by_cases hsa : a < start
            · exact q1.sub (le_refl _) (by omega)
            · exact q2.sub (by omega) (le_refl _)
        have r3 : Part P data2 mid (mid + m - start) :=
          q3.congr (fun x hx1 hx2 => p2.frame (Or.inr hx1))
        have r4 : Part P data2 (mid + m - start) b :=
          q4.congr (fun x hx1 hx2 => p2.frame (Or.inr (by omega)))
        have rc : ∀ x y, a ≤ x → x < mid → mid ≤ y → y < b → P (elemAt data2 y) = true →
            P (elemAt data2 x) = true := by
          intro x y hxa hxm hym hyb hP
          obtain ⟨x', hx1, hx2, hx3⟩ := p2.source hxa hxm
          rw [hx3]
          rw [p2.frame (Or.inr hym)] at hP
          exact qc x' y hx1 hx2 hym hyb hP
        generalize hd3 : (if mid < mid + m - start ∧ mid + m - start < b
          then symMerge (fun x _ => P x) fuel data2 mid (mid + m - start) b else data2) = data3
        have p3 : PermWithin mid b data2 data3 := by
          subst hd3
          split
          · exact permWithin_symMerge _ fuel data2 mid _ b (by omega) (by omega)
              (by rw [p2.length_eq, p1.length_eq]; omega)
          · exact PermWithin.refl _ _ _
        have s1 : Part P data3 mid b := by
          subst hd3
          split
          · rename_i hcond
            exact ih data2 mid _ b (by omega) hcond.1 hcond.2
              (by rw [p2.length_eq, p1.length_eq]; omega) r3 r4
          · rename_i hcond
            by_cases hse : mid < mid + m - start
            · exact r3.sub (le_refl _) (by omega)
            · exact r4.sub (by omega) (le_refl _)
        have s2 : Part P data3 a mid :=
          r1.congr (fun x hx1 hx2 => p3.frame (Or.inl hx2))
        refine s2.glue s1 ?_
        intro x y hxa hxm hym hyb hP
        obtain ⟨y', hy1, hy2, hy3⟩ := p3.source hym hyb
        rw [hy3] at hP
        rw [p3.frame (Or.inl hxm)]
        exact rc x y' hxa hxm hy1 hy2 hP

theorem insertLoop_pred (P : α → Bool) (a : Nat) :
    ∀ (j : Nat) (data : List α), j < data.length →
      insertLoop (fun x _ => P x) a j data =
        if P (elemAt data j) = true then shiftDown a j data else data := by
  intro j
  induction j with
  | zero =>
    intro data _
    unfold insertLoop shiftDown
    simp
  | succ j ih =>
    intro data hj
    unfold insertLoop shiftDown
    by_cases hP : P (elemAt data (j + 1)) = true
    · by_cases ha : a < j + 1
      · rw [if_pos ⟨ha, hP⟩, if_pos hP, if_pos ha, ih _ (by rw [length_swap]; omega)]
        have : elemAt (swap data (j + 1) j) j = elemAt data (j + 1) := by
          rw [elemAt_swap data hj (by omega)]
          simp
        rw [this, if_pos hP]
      · rw [if_neg (fun h => ha h.1), if_pos hP, if_neg ha]
    · rw [if_neg (fun h => hP h.2), if_neg hP]

theorem part_insertLoop (P : α → Bool) (data : List α) (a i : Nat) (hai : a ≤ i)
    (hi : i < data.length) (h : Part P data a i) :
    Part P (insertLoop (fun x _ => P x) a i data) a (i + 1) := by
  rw [insertLoop_pred P a i data hi]
  split
  · rename_i hP
    intro x y hx hxy hy hPy
    rw [elemAt_shiftDown a i data hai hi] at hPy ⊢
    by_cases hxa : x = a
    · rw [if_pos hxa]; exact hP
    · rw [if_neg hxa, if_pos (by omega)]
      rw [if_neg (by omega), if_pos (by omega)] at hPy
      exact h (x - 1) (y - 1) (by omega) (by omega) (by omega) hPy
  · rename_i hP
    intro x y hx hxy hy hPy
    by_cases hyi : y = i
    · rw [hyi] at hPy; exact absurd hPy hP
    · exact h x y hx hxy (by omega) hPy

theorem length_insertLoop (less : α → α → Bool) (a : Nat) :
    ∀ (j : Nat) (data : List α), (insertLoop less a j data).length = data.length := by
  intro j
  induction j with
  | zero => intro data; rfl
  | succ j ih =>
    intro data
    unfold insertLoop
    split
    · rw [ih, length_swap]
    · rfl

theorem part_insertionSort_aux (P : α → Bool) (a : Nat) :
    ∀ (n s : Nat) (data : List α), a ≤ s → s + n ≤ data.length → Part P data a s →
      Part P ((List.range' s n).foldl (fun d i => insertLoop (fun x _ => P x) a i d) data) a
        (s + n) := by
  intro n
  induction n with
  | zero => intro s data _ _ h; exact h
  | succ n ih =>
    intro s data has hlen h
    rw [List.range'_succ, List.foldl_cons]
    have h1 := part_insertLoop P data a s has (by omega) h
    have := ih (s + 1) _ (by omega) (by rw [length_insertLoop]; omega) h1
    have e : s + 1 + n = s + (n + 1) := by omega
    rw [e] at this
    exact this

theorem part_insertionSort (P : α → Bool) (data : List α) (a b : Nat) (hb : b ≤ data.length) :
    Part P (insertionSort (fun x _ => P x) data a b) a b := by
  by_cases h : b ≤ a + 1
  · exact Part.of_le h
  · unfold insertionSort
    have := part_insertionSort_aux P a (b - (a + 1)) (a + 1) data (by omega) (by omega)
      (Part.of_le (le_refl _))
    have e : a + 1 + (b - (a + 1)) = b := by omega
    rw [e] at this
    exact this

theorem Chunked.head {P : α → Bool} {data : List α} {bs n a : Nat}
    (h : Chunked P data bs n a) : Part P data a (min (a + bs) n) := by
  have := h 0
  simpa using this

theorem Chunked.tail {P : α → Bool} {data : List α} {bs n a : Nat}
    (h : Chunked P data bs n a) : Chunked P data bs n (a + bs) := by
  intro k
  have := h (k + 1)
  have e : a + (k + 1) * bs = a + bs + k * bs := by ring
  rw [e] at this
  exact this

theorem Chunked.cons {P : α → Bool} {data : List α} {bs n a : Nat}
    (h1 : Part P data a (min (a + bs) n)) (h2 : Chunked P data bs n (a + bs)) :
    Chunked P data bs n a := by
  intro k
  cases k with
  | zero => simpa using h1
  | succ k =>
    have := h2 k
    have e : a + (k + 1) * bs = a + bs + k * bs := by ring
    rw [e]
    exact this

theorem Chunked.of_short {P : α → Bool} {data : List α} {bs n a : Nat} (h : n ≤ a + 1) :
    Chunked P data bs n a := by
  intro k
  apply Part.of_le
  have : a ≤ a + k * bs := Nat.le_add_right _ _
  omega

theorem Chunked.frame_congr {P : α → Bool} {d d' : List α} {bs n a : Nat}
    (h : Chunked P d bs n a) (he : ∀ x, a ≤ x → elemAt d' x = elemAt d x) :
    Chunked P d' bs n a := by
  intro k
  refine (h k).congr ?_
  intro x hx1 _
  have : a ≤ a + k * bs := Nat.le_add_right _ _
  exact he x (by omega)

theorem permWithin_insertionPass (less : α → α → Bool) (bs n : Nat) :
    ∀ (fuel a : Nat) (data : List α), n ≤ data.length →
      PermWithin a n data (insertionPass less bs n fuel a data) := by
  intro fuel
  induction fuel with
  | zero =>
    intro a data hn
    exact permWithin_insertionSort less data a n hn
  | succ fuel ih =>
    intro a data hn
    unfold insertionPass
    split
    · rename_i h
      have h1 := permWithin_insertionSort less data a (a + bs) (by omega)
      have h2 := ih (a + bs) _ (by rw [h1.length_eq]; exact hn)
      exact (h1.mono (le_refl _) h).trans (h2.mono (by omega) (le_refl _))
    · exact permWithin_insertionSort less data a n hn

theorem chunked_insertionPass (P : α → Bool) (bs n : Nat) (hbs : 0 < bs) :
    ∀ (fuel a : Nat) (data : List α), n ≤ data.length → n ≤ a + fuel →
      Chunked P (insertionPass (fun x _ => P x) bs n fuel a data) bs n a := by
  intro fuel
  induction fuel with
  | zero =>
    intro a data hn hf
    exact Chunked.of_short (by omega)
  | succ fuel ih =>
    intro a data hn hf
    unfold insertionPass
    split
    · rename_i h
      have h1 := permWithin_insertionSort (fun x _ => P x) data a (a + bs) (by omega)
      have h2 := permWithin_insertionPass (fun x _ => P x) bs n fuel (a + bs) _
        (show n ≤ (insertionSort (fun x _ => P x) data a (a + bs)).length by
          rw [h1.length_eq]; exact hn)
      refine Chunked.cons ?_ (ih (a + bs) _ (by rw [h1.length_eq]; exact hn) (by omega))
      rw [Nat.min_eq_left h]
      exact (part_insertionSort P data a (a + bs) (by omega)).congr
        (fun x _ hx2 => h2.frame (Or.inl hx2))
    · rename_i h
      refine Chunked.cons ?_ (Chunked.of_short (by omega))
      rw [Nat.min_eq_right (by omega)]
      exact part_insertionSort P data a n hn

theorem permWithin_mergePass (less : α → α → Bool) (bs n : Nat) :
    ∀ (fuel a : Nat) (data : List α), n ≤ data.length →
      PermWithin a n data (mergePass less bs n fuel a data) := by
  intro fuel
  induction fuel with
  | zero => intro a data _; exact PermWithin.refl _ _ _
  | succ fuel ih =>
    intro a data hn
    unfold mergePass
    split
    · rename_i h
      have h1 := permWithin_symMerge less (2 * bs) data a (a + bs) (a + 2 * bs) (by omega)
        (by omega) (by omega)
      have h2 := ih (a + 2 * bs) _ (by rw [h1.length_eq]; exact hn)
      exact (h1.mono (le_refl _) h).trans (h2.mono (by omega) (le_refl _))
    · split
      · exact permWithin_symMerge less (n - a) data a (a + bs) n (by omega) (by omega) hn
      · exact PermWithin.refl _ _ _

theorem chunked_mergePass (P : α → Bool) (bs n : Nat) (hbs : 0 < bs) :
    ∀ (fuel a : Nat) (data : List α), n ≤ data.length → n ≤ a + fuel →
      Chunked P data bs n a →
      Chunked P (mergePass (fun x _ => P x) bs n fuel a data) (2 * bs) n a := by
  intro fuel
  induction fuel with
  | zero =>
    intro a data hn hf _
    exact Chunked.of_short (by omega)
  | succ fuel ih =>
    intro a data hn hf hC
    unfold mergePass
    have hh := hC.head
    have ht := hC.tail.head
    split
    · rename_i h
      rw [Nat.min_eq_left (by omega)] at hh
      rw [Nat.min_eq_left (by omega)] at ht
      have e : a + bs + bs = a + 2 * bs := by omega
      rw [e] at ht
      have h1 := permWithin_symMerge (fun x _ => P x) (2 * bs) data a (a + bs) (a + 2 * bs)
        (by omega) (by omega) (by omega)
      have hp := part_symMerge P (2 * bs) data a (a + bs) (a + 2 * bs) (by omega) (by omega)
        (by omega) (by omega) hh ht
      have hC2 : Chunked P data bs n (a + 2 * bs) := by
        have := hC.tail.tail
        rw [e] at this
        exact this
      have hC2' : Chunked P (symMerge (fun x _ => P x) (2 * bs) data a (a + bs) (a + 2 * bs))
          bs n (a + 2 * bs) := hC2.frame_congr (fun x hx => h1.frame (Or.inr hx))
      have h2 := permWithin_mergePass (fun x _ => P x) bs n fuel (a + 2 * bs) _
        (show n ≤ (symMerge (fun x _ => P x) (2 * bs) data a (a + bs) (a + 2 * bs)).length by
          rw [h1.length_eq]; exact hn)
      refine Chunked.cons ?_ (ih (a + 2 * bs) _ (by rw [h1.length_eq]; exact hn) (by omega)
        hC2')
      rw [Nat.min_eq_left h]
      exact hp.congr (fun x _ hx2 => h2.frame (Or.inl hx2))
    · rename_i h
      refine Chunked.cons ?_ (Chunked.of_short (by omega))
      rw [Nat.min_eq_right (by omega)]
      split
      · rename_i h'
        rw [Nat.min_eq_left (by omega)] at hh
        rw [Nat.min_eq_right (by omega)] at ht
        exact part_symMerge P (n - a) data a (a + bs) n (le_refl _) (by omega) h' hn hh ht
      · rw [Nat.min_eq_right (by omega)] at hh
        exact hh

theorem permWithin_mergeLoop (less : α → α → Bool) (n : Nat) :
    ∀ (fuel bs : Nat) (data : List α), n ≤ data.length →
      PermWithin 0 n data (mergeLoop less n fuel bs data) := by
  intro fuel
  induction fuel with
  | zero => intro bs data _; exact PermWithin.refl _ _ _
  | succ fuel ih =>
    intro bs data hn
    unfold mergeLoop
    split
    · have h1 := permWithin_mergePass less bs n (n + 1) 0 data hn
      exact h1.trans (ih (2 * bs) _ (by rw [h1.length_eq]; exact hn))
    · exact PermWithin.refl _ _ _

theorem part_mergeLoop (P : α → Bool) (n : Nat) :
    ∀ (fuel bs : Nat) (data : List α), 0 < bs → n ≤ data.length → n ≤ bs + fuel →
      Chunked P data bs n 0 → Part P (mergeLoop (fun x _ => P x) n fuel bs data) 0 n := by
  intro fuel
  induction fuel with
  | zero =>
    intro bs data hbs hn hf hC
    have := hC.head
    rw [Nat.min_eq_right (by omega)] at this
    exact this
  | succ fuel ih =>
    intro bs data hbs hn hf hC
    unfold mergeLoop
    split
    · have h1 := permWithin_mergePass (fun x _ => P x) bs n (n + 1) 0 data hn
      exact ih (2 * bs) _ (by omega) (by rw [h1.length_eq]; exact hn) (by omega)
        (chunked_mergePass P bs n hbs (n + 1) 0 data hn (by omega) hC)
    · have := hC.head
      rw [Nat.min_eq_right (by omega)] at this
      exact this

theorem permWithin_stable (less : α → α → Bool) (data : List α) (n : Nat)
    (hn : n ≤ data.length) : PermWithin 0 n data (stable less data n) := by
  unfold stable
  have h1 := permWithin_insertionPass less 20 n (n + 1) 0 data hn
  exact h1.trans (permWithin_mergeLoop less n (n + 1) 20 _ (by rw [h1.length_eq]; exact hn))

theorem part_stable (P : α → Bool) (data : List α) (n : Nat) (hn : n ≤ data.length) :
    Part P (stable (fun x _ => P x) data n) 0 n := by
  unfold stable
  have h1 := permWithin_insertionPass (fun x _ => P x) 20 n (n + 1) 0 data hn
  exact part_mergeLoop P n (n + 1) 20 _ (by omega) (by rw [h1.length_eq]; exact hn) (by omega)
    (chunked_insertionPass P 20 n (by omega) (n + 1) 0 data hn (by omega))

theorem length_SliceStable (less : α → α → Bool) (x : List α) :
    (SliceStable less x).length = x.length :=
  (permWithin_stable less x x.length (le_refl _)).length_eq

theorem part_SliceStable (P : α → Bool) (x : List α) :
    Part P (SliceStable (fun x _ => P x) x) 0 x.length :=
  part_stable P x x.length (le_refl _)

end GoSort

/-! ## The ranking step -/

theorem lessName_eq_false (x y : StationOrderedNetwork) : lessName x y = false := by
  simp [lessName]

theorem rank_eq (l : List StationOrderedNetwork) :
    rank l = GoSort.SliceStable lessConnected (GoSort.SliceStable lessKnown
      (GoSort.SliceStable lessSignal (GoSort.SliceStable (fun _ _ => false) l))) := by
  have h : lessName = fun _ _ => false := by
    funext x y
    exact lessName_eq_false x y
  rw [rank, h]

theorem GoSort.elemAt_of_getElem? {α : Type} [Inhabited α] {l : List α} {i : Nat} {x : α}
    (h : l[i]? = some x) : GoSort.elemAt l i = x ∧ i < l.length := by
  constructor
  · simp [GoSort.elemAt, h]
  · by_contra hc
    rw [List.getElem?_eq_none (by omega)] at h
    exact Option.noConfusion h

theorem length_rank (l : List StationOrderedNetwork) : (rank l).length = l.length := by
  simp [rank, GoSort.length_SliceStable]

/-- C1. The entries A ("Home", -40, known, not connected), B ("Guest", -30, not known, not
connected) and C ("Home2", -90, known, connected), given to the ranking step in any order,
come out as [C, A, B]. -/
theorem rank_example (orderedNetworks : List StationOrderedNetwork)
    (h : orderedNetworks.Perm [entryA, entryB, entryC]) :
    rank orderedNetworks = [entryC, entryA, entryB] := by
  have hl : orderedNetworks ∈ [entryA, entryB, entryC].permutations' :=
    List.mem_permutations'.2 h
  have key : ∀ l ∈ [entryA, entryB, entryC].permutations',
      rank l = [entryC, entryA, entryB] := by
    simp only [rank_eq]
    decide
  exact key orderedNetworks hl

theorem rank_example_witness :
    [entryB, entryC, entryA].Perm [entryA, entryB, entryC] ∧
      rank [entryB, entryC, entryA] = [entryC, entryA, entryB] :=
  ⟨by decide, rank_example [entryB, entryC, entryA] (by decide)⟩

/-- C2. In the sequence returned by the ranking step every entry whose network is connected
stands before every entry whose network is not connected. -/
theorem rank_connected_before_not_connected (orderedNetworks : List StationOrderedNetwork)
    (i j : Nat) (x y : StationOrderedNetwork)
    (hx : (rank orderedNetworks)[i]? = some x) (hy : (rank orderedNetworks)[j]? = some y)
    (hcx : x.Network.GetConnected = true) (hcy : y.Network.GetConnected = false) : i < j := by
  obtain ⟨ex, hi⟩ := GoSort.elemAt_of_getElem? hx
  obtain ⟨ey, hj⟩ := GoSort.elemAt_of_getElem? hy
  have hP := GoSort.part_SliceStable (fun e : StationOrderedNetwork => e.Network.GetConnected)
    (GoSort.SliceStable lessKnown (GoSort.SliceStable lessSignal
      (GoSort.SliceStable lessName orderedNetworks)))
  have hr : rank orderedNetworks = GoSort.SliceStable
      (fun e _ => (fun e : StationOrderedNetwork => e.Network.GetConnected) e)
      (GoSort.SliceStable lessKnown (GoSort.SliceStable lessSignal
        (GoSort.SliceStable lessName orderedNetworks))) := rfl
  rw [← hr] at hP
  have hlen : (GoSort.SliceStable lessKnown (GoSort.SliceStable lessSignal
      (GoSort.SliceStable lessName orderedNetworks))).length = (rank orderedNetworks).length := by
    simp [length_rank, GoSort.length_SliceStable]
  rw [hlen] at hP
  by_contra hij
  have hne : i ≠ j := by
    intro h
    subst h
    rw [ex] at ey
    subst ey
    rw [hcx] at hcy
    exact Bool.noConfusion hcy
  have h2 : y.Network.GetConnected = true := by
    have := hP j i (Nat.zero_le _) (by omega) hi (by rw [ex]; exact hcx)
    rw [ey] at this
    exact this
  rw [hcy] at h2
  exact Bool.noConfusion h2

theorem rank_connected_before_not_connected_witness :
    (rank [entryA, entryB, entryC])[0]? = some entryC ∧
      (rank [entryA, entryB, entryC])[2]? = some entryB ∧
      entryC.Network.GetConnected = true ∧ entryB.Network.GetConnected = false ∧ 0 < 2 :=
  ⟨by rw [rank_eq]; decide, by rw [rank_eq]; decide, by decide, by decide,
    rank_connected_before_not_connected [entryA, entryB, entryC] 0 2 entryC entryB
      (by rw [rank_eq]; decide) (by rw [rank_eq]; decide) (by decide) (by decide)⟩

/-- C3. Two connected entries, "Home" with a known network and "Cafe" without one: the
ranking step returns "Cafe" first, the entry without a known network before the entry with
one, although the two have the same connected flag. -/
theorem rank_unknown_before_known_among_connected :
    rank [entry "Home" (-40) true true, entry "Cafe" (-50) false true] =
      [entry "Cafe" (-50) false true, entry "Home" (-40) true true] := by
  rw [rank_eq]
  decide

/-- C4. Two entries with a known network, neither connected, "Home" at -40 and "Work" at
-60: the ranking step returns "Work" first, the weaker signal before the stronger. -/
theorem rank_weaker_signal_first_among_known :
    rank [entry "Home" (-40) true false, entry "Work" (-60) true false] =
      [entry "Work" (-60) true false, entry "Home" (-40) true false] := by
  rw [rank_eq]
  decide

/-- C5. Two entries that differ in the name only, "Zeta" given before "Alpha": the ranking
step returns them as given, "Zeta" before "Alpha", and "Alpha" is the smaller name. -/
theorem rank_names_not_ascending :
    rank [entry "Zeta" (-50) false false, entry "Alpha" (-50) false false] =
      [entry "Zeta" (-50) false false, entry "Alpha" (-50) false false] ∧
      "Alpha" < "Zeta" := by
  constructor
  · rw [rank_eq]
    decide
  · simp
    decide

/-! ## The tombstone of a `KnownNetwork` -/

theorem KnownNetwork.forgotten_of_Forget_ok (conn : Conn) (kn : KnownNetwork) (t : Trace)
    (h : (kn.Forget conn t).1.1 = none) : (kn.Forget conn t).1.2.forgotten = true := by
  unfold KnownNetwork.Forget at h ⊢
  split
  · rename_i hf
    rw [if_pos hf] at h
    exact Option.noConfusion h
  · rename_i hf
    rw [if_neg hf] at h
    dsimp only at h ⊢
    split
    · rename_i err he
      rw [he] at h
      exact Option.noConfusion h
    · rfl

theorem KnownNetwork.forgotten_perform (conn : Conn) (kn : KnownNetwork) (c : KnownNetworkCall)
    (t : Trace) (h : kn.forgotten = true) : (kn.perform conn c t).1.2.forgotten = true := by
  cases c <;>
    simp [KnownNetwork.perform, KnownNetwork.SetAutoConnect, KnownNetwork.Forget, h]

theorem KnownNetwork.forgotten_performAll (conn : Conn) (calls : List KnownNetworkCall) :
    ∀ (kn : KnownNetwork) (t : Trace), kn.forgotten = true →
      (KnownNetwork.performAll conn kn calls t).1.forgotten = true := by
  induction calls with
  | nil => intro kn t h; exact h
  | cons c cs ih =>
    intro kn t h
    unfold KnownNetwork.performAll
    exact ih _ _ (KnownNetwork.forgotten_perform conn kn c t h)

/-- C6. Once `Forget()` has returned success on a `KnownNetwork`, after any sequence of
further calls of its methods the forgotten flag is still set and `GetName`, `GetType`,
`GetHidden`, `GetAutoConnect`, `GetLastConnectedTime` and `SetAutoConnect` all return
`ErrNetworkForgotten`. -/
theorem forgotten_is_terminal (conn : Conn) (kn : KnownNetwork) (t : Trace)
    (hforget : (kn.Forget conn t).1.1 = none) (calls : List KnownNetworkCall)
    (autoConnect : Bool) :
    (KnownNetwork.performAll conn (kn.Forget conn t).1.2 calls
        (kn.Forget conn t).2).1.forgotten = true ∧
      (KnownNetwork.performAll conn (kn.Forget conn t).1.2 calls
        (kn.Forget conn t).2).1.GetName = .error .ErrNetworkForgotten ∧
      (KnownNetwork.performAll conn (kn.Forget conn t).1.2 calls
        (kn.Forget conn t).2).1.GetType = .error .ErrNetworkForgotten ∧
      (KnownNetwork.performAll conn (kn.Forget conn t).1.2 calls
        (kn.Forget conn t).2).1.GetHidden = .error .ErrNetworkForgotten ∧
      (KnownNetwork.performAll conn (kn.Forget conn t).1.2 calls
        (kn.Forget conn t).2).1.GetAutoConnect = .error .ErrNetworkForgotten ∧
      (KnownNetwork.performAll conn (kn.Forget conn t).1.2 calls
        (kn.Forget conn t).2).1.GetLastConnectedTime = .error .ErrNetworkForgotten ∧
      ((KnownNetwork.performAll conn (kn.Forget conn t).1.2 calls
        (kn.Forget conn t).2).1.SetAutoConnect conn autoConnect
          (KnownNetwork.performAll conn (kn.Forget conn t).1.2 calls
            (kn.Forget conn t).2).2).1.1 = some .ErrNetworkForgotten := by
  have h := KnownNetwork.forgotten_performAll conn calls _ (kn.Forget conn t).2
    (KnownNetwork.forgotten_of_Forget_ok conn kn t hforget)
  simp [KnownNetwork.GetName, KnownNetwork.GetType, KnownNetwork.GetHidden,
    KnownNetwork.GetAutoConnect, KnownNetwork.GetLastConnectedTime,
    KnownNetwork.SetAutoConnect, h]

theorem forgotten_is_terminal_witness :
    ((sampleKnown "Home").Forget (sampleConn [] "") []).1.1 = none ∧
      (KnownNetwork.performAll (sampleConn [] "")
        ((sampleKnown "Home").Forget (sampleConn [] "") []).1.2
        [.SetAutoConnect false, .GetName, .Forget, .SetAutoConnect true]
        ((sampleKnown "Home").Forget (sampleConn [] "") []).2).1.GetName
          = .error .ErrNetworkForgotten :=
  ⟨by decide,
    (forgotten_is_terminal (sampleConn [] "") (sampleKnown "Home") [] (by decide)
      [.SetAutoConnect false, .GetName, .Forget, .SetAutoConnect true] true).2.1⟩

/-- C7. When the remote `Forget` call fails on an active `KnownNetwork`, `Forget()` returns
that error, the entity is unchanged (the forgotten flag stays false), and every accessor
still returns the value it held before. -/
theorem forget_failure_keeps_active (conn : Conn) (kn : KnownNetwork) (t : Trace) (err : GoError)
    (hactive : kn.forgotten = false)
    (hfail : conn.call t kn.path knownNetworkMethodForget [] = .error err) :
    (kn.Forget conn t).1.1 = some err ∧ (kn.Forget conn t).1.2 = kn ∧
      (kn.Forget conn t).1.2.forgotten = false ∧
      (kn.Forget conn t).1.2.GetName = .ok kn.name ∧
      (kn.Forget conn t).1.2.GetType = .ok kn.netType ∧
      (kn.Forget conn t).1.2.GetHidden = .ok kn.hidden ∧
      (kn.Forget conn t).1.2.GetAutoConnect = .ok kn.autoConnect ∧
      (kn.Forget conn t).1.2.GetLastConnectedTime = .ok kn.lastConnectedTime := by
  have h : kn.Forget conn t =
      ((some err, kn), t ++ [Event.call kn.path knownNetworkMethodForget []]) := by
    simp [KnownNetwork.Forget, hactive, hfail]
  simp [h, KnownNetwork.GetName, KnownNetwork.GetType, KnownNetwork.GetHidden,
    KnownNetwork.GetAutoConnect, KnownNetwork.GetLastConnectedTime, hactive]

theorem forget_failure_keeps_active_witness :
    (sampleKnown "Home").forgotten = false ∧
      ((sampleKnown "Home").Forget (sampleConn [] knownNetworkMethodForget) []).1.2
        = sampleKnown "Home" :=
  ⟨by decide,
    (forget_failure_keeps_active (sampleConn [] knownNetworkMethodForget) (sampleKnown "Home") []
      (.remote "call failed") (by decide) rfl).2.1⟩

/-! ## The scan pipeline -/

theorem collectStations_eq (conn : Conn) :
    ∀ (pairs : List (ObjectPath × String)) (stations : List Station) (t : Trace),
      collectStations conn pairs stations t =
        (.ok (stations ++ ((pairs.filter fun p => p.2 = "net.connman.iwd.Station").map
          fun p => ({ path := p.1 } : Station))), t) := by
  intro pairs
  induction pairs with
  | nil => intro stations t; simp [collectStations]
  | cons p rest ih =>
    intro stations t
    obtain ⟨k, resource⟩ := p
    unfold collectStations
    by_cases h : resource = "net.connman.iwd.Station"
    · simp [h, NewStation, ih]
    · simp [h, ih]

theorem ScanForNetworks_of_objects (conn : Conn) (scanTime : Nat) (t : Trace)
    (objects : List (ObjectPath × List String)) (h : conn.managedObjects t = .ok objects) :
    ScanForNetworks conn scanTime t =
      if (stationsIn objects).length = 0 then
        (.error (.errorf ("no stations found; Adapters must be powered on and Devices must " ++
          "be powered on in 'station' mode")), t ++ [Event.getManagedObjects])
      else
        match (scanLoop conn scanTime (stationsIn objects) [] (t ++ [Event.getManagedObjects])).1
        with
        | .ok orderedNetworks => (.ok (rank orderedNetworks),
            (scanLoop conn scanTime (stationsIn objects) [] (t ++ [Event.getManagedObjects])).2)
        | .error err => (.error err,
            (scanLoop conn scanTime (stationsIn objects) [] (t ++ [Event.getManagedObjects])).2)
        | .panic => (.panic,
            (scanLoop conn scanTime (stationsIn objects) [] (t ++ [Event.getManagedObjects])).2)
        := by
  unfold ScanForNetworks
  simp only [h, collectStations_eq, List.nil_append]
  rfl

theorem stationsIn_eq_nil (objects : List (ObjectPath × List String))
    (h : ∀ kv ∈ objects, "net.connman.iwd.Station" ∉ kv.2) : stationsIn objects = [] := by
  unfold stationsIn resourcePairs
  rw [List.map_eq_nil_iff, List.filter_eq_nil_iff]
  intro p hp
  rw [List.mem_flatMap] at hp
  obtain ⟨kv, hkv, hp⟩ := hp
  rw [List.mem_map] at hp
  obtain ⟨r, hr, rfl⟩ := hp
  simp only [decide_eq_true_eq]
  intro hr'
  exact h kv hkv (hr' ▸ hr)

/-- C8. Over an enumeration that holds no `net.connman.iwd.Station` object `ScanForNetworks`
returns an error and no list, and the enumeration is the only thing it does: no `Scan`, no
pause, no `GetOrderedNetworks`. -/
theorem scan_without_stations (conn : Conn) (scanTime : Nat) (t : Trace)
    (objects : List (ObjectPath × List String)) (hobj : conn.managedObjects t = .ok objects)
    (hnone : ∀ kv ∈ objects, "net.connman.iwd.Station" ∉ kv.2) :
    ScanForNetworks conn scanTime t =
      (.error (.errorf ("no stations found; Adapters must be powered on and Devices must " ++
        "be powered on in 'station' mode")), t ++ [Event.getManagedObjects]) := by
  rw [ScanForNetworks_of_objects conn scanTime t objects hobj, stationsIn_eq_nil objects hnone]
  rfl

theorem scan_without_stations_witness :
    (∀ kv ∈ noStations, "net.connman.iwd.Station" ∉ kv.2) ∧
      ScanForNetworks (sampleConn noStations "") 5 [] =
        (.error (.errorf ("no stations found; Adapters must be powered on and Devices must " ++
          "be powered on in 'station' mode")), [Event.getManagedObjects]) :=
  ⟨by decide, scan_without_stations (sampleConn noStations "") 5 [] noStations rfl (by decide)⟩
theorem pauses_append (t t' : Trace) : pauses (t ++ t') = pauses t ++ pauses t' := by
  induction t with
  | nil => rfl
  | cons e t ih =>
    cases e <;> simp [pauses, ih]

@[simp] theorem pauses_append_getProperty (t : Trace) (path : ObjectPath) (property : String) :
    pauses (t ++ [Event.getProperty path property]) = pauses t := by
  simp [pauses_append, pauses]

@[simp] theorem pauses_append_call (t : Trace) (path : ObjectPath) (method : String)
    (args : List Variant) : pauses (t ++ [Event.call path method args]) = pauses t := by
  simp [pauses_append, pauses]

@[simp] theorem pauses_append_sleep (t : Trace) (seconds : Nat) :
    pauses (t ++ [Event.sleep seconds]) = pauses t ++ [seconds] := by
  simp [pauses_append, pauses]

@[simp] theorem pauses_NewAdapter (conn : Conn) (path : ObjectPath) (t : Trace) :
    pauses (NewAdapter conn path t).2 = pauses t := by
  unfold NewAdapter
  dsimp only
  repeat' split
  all_goals simp [pauses_append, pauses]

@[simp] theorem pauses_NewDevice (conn : Conn) (path : ObjectPath) (t : Trace) :
    pauses (NewDevice conn path t).2 = pauses t := by
  unfold NewDevice
  dsimp only
  repeat' split
  all_goals simp [pauses_append, pauses]

@[simp] theorem pauses_NewKnownNetwork (conn : Conn) (path : ObjectPath) (t : Trace) :
    pauses (NewKnownNetwork conn path t).2 = pauses t := by
  unfold NewKnownNetwork
  dsimp only
  repeat' split
  all_goals simp [pauses_append, pauses]

@[simp] theorem pauses_NewBasicServiceSet (conn : Conn) (path : ObjectPath) (t : Trace) :
    pauses (NewBasicServiceSet conn path t).2 = pauses t := by
  unfold NewBasicServiceSet
  dsimp only
  repeat' split
  all_goals simp [pauses_append, pauses]

@[simp] theorem pauses_newExtendedServiceSet (conn : Conn) :
    ∀ (paths : List ObjectPath) (ess : List BasicServiceSet) (t : Trace),
      pauses (newExtendedServiceSet conn paths ess t).2 = pauses t := by
  intro paths
  induction paths with
  | nil => intro ess t; rfl
  | cons p ps ih =>
    intro ess t
    unfold newExtendedServiceSet
    split
    · simp [pauses_append, pauses]
    · simp [ih, pauses_append, pauses]

@[simp] theorem pauses_newNetworkKnownNetwork (conn : Conn) (path : ObjectPath) (t : Trace) :
    pauses (newNetworkKnownNetwork conn path t).2 = pauses t := by
  unfold newNetworkKnownNetwork
  dsimp only
  repeat' split
  all_goals simp [pauses_append, pauses]

@[simp] theorem pauses_newNetworkExtendedServiceSet (conn : Conn) (path : ObjectPath)
    (t : Trace) : pauses (newNetworkExtendedServiceSet conn path t).2 = pauses t := by
  unfold newNetworkExtendedServiceSet
  dsimp only
  repeat' split
  all_goals simp [pauses_append, pauses]

@[simp] theorem pauses_NewNetwork (conn : Conn) (path : ObjectPath) (t : Trace) :
    pauses (NewNetwork conn path t).2 = pauses t := by
  unfold NewNetwork
  dsimp only
  repeat' split
  all_goals simp [pauses_append, pauses]

@[simp] theorem pauses_GetScanning (conn : Conn) (s : Station) (t : Trace) :
    pauses (s.GetScanning conn t).2 = pauses t := by
  unfold Station.GetScanning
  dsimp only
  repeat' split
  all_goals simp [pauses_append, pauses]

@[simp] theorem pauses_Scan (conn : Conn) (s : Station) (t : Trace) :
    pauses (s.Scan conn t).2 = pauses t := by
  unfold Station.Scan
  dsimp only
  repeat' split
  all_goals simp [pauses_append, pauses]

@[simp] theorem pauses_orderedNetworksLoop (conn : Conn) :
    ∀ (objects : List (List Variant)) (acc : List StationOrderedNetwork) (t : Trace),
      pauses (orderedNetworksLoop conn objects acc t).2 = pauses t := by
  intro objects
  induction objects with
  | nil => intro acc t; rfl
  | cons obj rest ih =>
    intro acc t
    unfold orderedNetworksLoop
    repeat' split
    all_goals simp [ih, pauses_append, pauses]

@[simp] theorem pauses_GetOrderedNetworks (conn : Conn) (s : Station) (t : Trace) :
    pauses (s.GetOrderedNetworks conn t).2 = pauses t := by
  unfold Station.GetOrderedNetworks
  dsimp only
  repeat' split
  all_goals simp [pauses_append, pauses]

theorem scanLoop_cons (conn : Conn) (scanTime : Nat) (st : Station) (rest : List Station)
    (acc : List StationOrderedNetwork) (t : Trace) :
    scanLoop conn scanTime (st :: rest) acc t =
      match (st.Scan conn t).1 with
      | some _ => (.error (.errorf ("failed to scan Station " ++ st.GetPath)), (st.Scan conn t).2)
      | none =>
        match (st.GetOrderedNetworks conn
          (if scanTime > 0 then (st.Scan conn t).2 ++ [Event.sleep scanTime]
            else (st.Scan conn t).2)).1 with
        | .panic => (.panic, (st.GetOrderedNetworks conn
            (if scanTime > 0 then (st.Scan conn t).2 ++ [Event.sleep scanTime]
              else (st.Scan conn t).2)).2)
        | .error err2 =>
          (.error (.errorf ("failed to get ordered networks for Station " ++ st.GetPath ++ ": "
            ++ err2.Error)), (st.GetOrderedNetworks conn
            (if scanTime > 0 then (st.Scan conn t).2 ++ [Event.sleep scanTime]
              else (st.Scan conn t).2)).2)
        | .ok stOns => scanLoop conn scanTime rest (acc ++ stOns) (st.GetOrderedNetworks conn
            (if scanTime > 0 then (st.Scan conn t).2 ++ [Event.sleep scanTime]
              else (st.Scan conn t).2)).2 := by
  rfl

theorem pauses_scanLoop (conn : Conn) (scanTime : Nat) (hw : 0 < scanTime) :
    ∀ (stations : List Station) (acc : List StationOrderedNetwork) (t : Trace)
      (nets : List StationOrderedNetwork),
      (scanLoop conn scanTime stations acc t).1 = .ok nets →
      pauses (scanLoop conn scanTime stations acc t).2 =
        pauses t ++ List.replicate stations.length scanTime := by
  intro stations
  induction stations with
  | nil => intro acc t nets _; simp [scanLoop]
  | cons st rest ih =>
    intro acc t nets h
    rw [scanLoop_cons] at h ⊢
    cases hs : (st.Scan conn t).1 with
    | some err => rw [hs] at h; simp at h
    | none =>
      rw [hs] at h
      dsimp only at h ⊢
      cases hg : (st.GetOrderedNetworks conn
          (if scanTime > 0 then (st.Scan conn t).2 ++ [Event.sleep scanTime]
            else (st.Scan conn t).2)).1 with
      | panic => rw [hg] at h; simp at h
      | error err2 => rw [hg] at h; simp at h
      | ok stOns =>
        rw [hg] at h
        dsimp only at h ⊢
        rw [ih _ _ nets h]
        simp [hw, List.replicate_succ, pauses_append, pauses]
/-- C9 (as stated, refuted). With two stations, every request succeeding and a wait of 5
seconds, `ScanForNetworks` returns a list and pauses twice, not once. -/
theorem one_shared_pause_counterexample :
    (ScanForNetworks (sampleConn twoStations "") 5 []).1 = .ok [] ∧
      (stationsIn twoStations).length = 2 ∧
      pauses (ScanForNetworks (sampleConn twoStations "") 5 []).2 = [5, 5] ∧
      (pauses (ScanForNetworks (sampleConn twoStations "") 5 []).2).length ≠ 1 := by
  decide

/-- C9 (amended). A run of `ScanForNetworks` with a wait greater than zero that returns a
list pauses once per station: with `n` stations, which are at least one, it adds exactly `n`
pauses of the caller-supplied duration. -/
theorem one_pause_per_station (conn : Conn) (scanTime : Nat) (t : Trace)
    (objects : List (ObjectPath × List String)) (nets : List StationOrderedNetwork)
    (hobj : conn.managedObjects t = .ok objects) (hw : 0 < scanTime)
    (hok : (ScanForNetworks conn scanTime t).1 = .ok nets) :
    1 ≤ (stationsIn objects).length ∧
      pauses (ScanForNetworks conn scanTime t).2 =
        pauses t ++ List.replicate (stationsIn objects).length scanTime := by
  rw [ScanForNetworks_of_objects conn scanTime t objects hobj] at hok ⊢
  by_cases h0 : (stationsIn objects).length = 0
  · rw [if_pos h0] at hok
    simp at hok
  · rw [if_neg h0] at hok ⊢
    refine ⟨by omega, ?_⟩
    cases hl : (scanLoop conn scanTime (stationsIn objects) []
        (t ++ [Event.getManagedObjects])).1 with
    | panic => rw [hl] at hok; simp at hok
    | error err => rw [hl] at hok; simp at hok
    | ok orderedNetworks =>
      dsimp only
      rw [pauses_scanLoop conn scanTime hw _ _ _ _ hl]
      simp [pauses_append, pauses]

theorem one_pause_per_station_witness :
    (sampleConn twoStations "").managedObjects [] = .ok twoStations ∧ 0 < 5 ∧
      (ScanForNetworks (sampleConn twoStations "") 5 []).1 = .ok [] ∧
      pauses (ScanForNetworks (sampleConn twoStations "") 5 []).2 =
        pauses [] ++ List.replicate (stationsIn twoStations).length 5 :=
  ⟨rfl, by decide, by decide,
    (one_pause_per_station (sampleConn twoStations "") 5 [] twoStations [] rfl (by decide)
      (by decide)).2⟩

theorem scanLoop_append (conn : Conn) (scanTime : Nat) (rest : List Station) :
    ∀ (pre : List Station) (acc : List StationOrderedNetwork) (t : Trace)
      (collected : List StationOrderedNetwork),
      (scanLoop conn scanTime pre acc t).1 = .ok collected →
      scanLoop conn scanTime (pre ++ rest) acc t =
        scanLoop conn scanTime rest collected (scanLoop conn scanTime pre acc t).2 := by
  intro pre
  induction pre with
  | nil =>
    intro acc t collected h
    simp only [scanLoop, Result.ok.injEq] at h
    subst h
    rfl
  | cons st pre ih =>
    intro acc t collected h
    rw [List.cons_append, scanLoop_cons]
    rw [scanLoop_cons] at h ⊢
    cases hs : (st.Scan conn t).1 with
    | some err => rw [hs] at h; simp at h
    | none =>
      rw [hs] at h
      dsimp only at h ⊢
      cases hg : (st.GetOrderedNetworks conn
          (if scanTime > 0 then (st.Scan conn t).2 ++ [Event.sleep scanTime]
            else (st.Scan conn t).2)).1 with
      | panic => rw [hg] at h; simp at h
      | error err2 => rw [hg] at h; simp at h
      | ok stOns =>
        rw [hg] at h
        dsimp only at h ⊢
        exact ih _ _ collected h

/-- C10. When the stations before `st` have been scanned and read, and then the `Scan` of
`st` fails, or its `Scan` succeeds and its remote `GetOrderedNetworks` call fails,
`ScanForNetworks` returns an error and no list: what the earlier stations gave is dropped,
and the failing request is the last thing the run does, so no later station is called. -/
theorem scan_failure_aborts (conn : Conn) (scanTime : Nat) (t : Trace)
    (objects : List (ObjectPath × List String)) (pre post : List Station) (st : Station)
    (collected : List StationOrderedNetwork)
    (hobj : conn.managedObjects t = .ok objects)
    (hst : stationsIn objects = pre ++ st :: post)
    (hpre : (scanLoop conn scanTime pre [] (t ++ [Event.getManagedObjects])).1 = .ok collected) :
    (∀ err, (st.Scan conn (scanLoop conn scanTime pre [] (t ++ [Event.getManagedObjects])).2).1
        = some err →
      ScanForNetworks conn scanTime t =
        (.error (.errorf ("failed to scan Station " ++ st.path)),
          (st.Scan conn (scanLoop conn scanTime pre [] (t ++ [Event.getManagedObjects])).2).2)) ∧
    (∀ err t2,
      (st.Scan conn (scanLoop conn scanTime pre [] (t ++ [Event.getManagedObjects])).2).1
        = none →
      t2 = (if scanTime > 0 then
          (st.Scan conn (scanLoop conn scanTime pre [] (t ++ [Event.getManagedObjects])).2).2
            ++ [Event.sleep scanTime]
        else (st.Scan conn (scanLoop conn scanTime pre [] (t ++ [Event.getManagedObjects])).2).2)
        →
      conn.call t2 st.path stationMethodGetOrderedNetworks [] = .error err →
      ScanForNetworks conn scanTime t =
        (.error (.errorf ("failed to get ordered networks for Station " ++ st.path ++ ": "
          ++ err.Error)), t2 ++ [Event.call st.path stationMethodGetOrderedNetworks []])) := by
  have h0 : ¬ (stationsIn objects).length = 0 := by rw [hst]; simp
  rw [ScanForNetworks_of_objects conn scanTime t objects hobj, if_neg h0, hst,
    scanLoop_append conn scanTime (st :: post) pre [] _ collected hpre, scanLoop_cons]
  constructor
  · intro err hs
    rw [hs]
    rfl
  · intro err t2 hs ht2 hcall
    rw [hs]
    dsimp only
    rw [← ht2]
    have hg : st.GetOrderedNetworks conn t2 =
        (.error err, t2 ++ [Event.call st.path stationMethodGetOrderedNetworks []]) := by
      unfold Station.GetOrderedNetworks
      rw [hcall]
    rw [hg]
    rfl

theorem scan_failure_aborts_witness :
    ScanForNetworks (sampleConn twoStations stationMethodScan) 5 [] =
        (.error (.errorf "failed to scan Station /net/connman/iwd/0/4"),
          [Event.getManagedObjects,
            Event.getProperty "/net/connman/iwd/0/4" stationPropertyScanning,
            Event.call "/net/connman/iwd/0/4" stationMethodScan []]) ∧
      ScanForNetworks (sampleConn twoStations stationMethodGetOrderedNetworks) 5 [] =
        (.error (.errorf
          "failed to get ordered networks for Station /net/connman/iwd/0/4: call failed"),
          [Event.getManagedObjects,
            Event.getProperty "/net/connman/iwd/0/4" stationPropertyScanning,
            Event.call "/net/connman/iwd/0/4" stationMethodScan [],
            Event.sleep 5,
            Event.call "/net/connman/iwd/0/4" stationMethodGetOrderedNetworks []]) :=
  ⟨(scan_failure_aborts (sampleConn twoStations stationMethodScan) 5 [] twoStations []
      [{ path := "/net/connman/iwd/1/5" }] { path := "/net/connman/iwd/0/4" } [] rfl
      (by decide) rfl).1 (.remote "call failed") (by decide),
    (scan_failure_aborts (sampleConn twoStations stationMethodGetOrderedNetworks) 5 []
      twoStations [] [{ path := "/net/connman/iwd/1/5" }] { path := "/net/connman/iwd/0/4" } []
      rfl (by decide) rfl).2 (.remote "call failed") _ (by decide) rfl rfl⟩

/-! ## Mutation methods -/

theorem methodCalls_append (t t' : Trace) :
    methodCalls (t ++ t') = methodCalls t ++ methodCalls t' := by
  induction t with
  | nil => rfl
  | cons e t ih =>
    cases e <;> simp [methodCalls, ih]

theorem methodCalls_GetScanning (conn : Conn) (s : Station) (t : Trace) :
    methodCalls (s.GetScanning conn t).2 = methodCalls t := by
  unfold Station.GetScanning
  dsimp only
  repeat' split
  all_goals simp [methodCalls_append, methodCalls]

/-- C12. `Station.Scan()` issues the remote `Scan` method call exactly when the `Scanning`
property reads false: then the call follows the property read; when the property reads true
`Scan()` returns nil and sends nothing after the read; and whenever the read does not give
false, no method call is made at all. -/
theorem scan_calls_iff_not_scanning (conn : Conn) (s : Station) (t : Trace) :
    ((s.GetScanning conn t).1 = .ok false →
        (s.Scan conn t).2 = (s.GetScanning conn t).2 ++ [Event.call s.path stationMethodScan []])
      ∧ ((s.GetScanning conn t).1 = .ok true →
        s.Scan conn t = (none, (s.GetScanning conn t).2))
      ∧ (methodCalls (s.Scan conn t).2 = methodCalls t ++ [(s.path, stationMethodScan)] ↔
        (s.GetScanning conn t).1 = .ok false)
      ∧ ((s.GetScanning conn t).1 ≠ .ok false →
        methodCalls (s.Scan conn t).2 = methodCalls t) := by
  have hm := methodCalls_GetScanning conn s t
  unfold Station.Scan
  dsimp only
  cases hg : (s.GetScanning conn t).1 with
  | error err =>
    simp [hm]
  | ok scanning =>
    cases scanning with
    | true => simp [hm]
    | false =>
      simp only [Bool.not_false, if_true]
      cases hc : conn.call (s.GetScanning conn t).2 s.path stationMethodScan [] <;>
        simp [hm, methodCalls_append, methodCalls]

/-- C13. For a mode that is none of "ad-hoc", "station" and "ap", `Device.SetMode` returns an
error, sends no request (the trace is unchanged) and leaves the device as it was. -/
theorem setMode_unsupported (conn : Conn) (d : Device) (mode : String) (t : Trace)
    (hmode : mode ∉ ["ad-hoc", "station", "ap"]) :
    d.SetMode conn mode t =
      ((some (.errorf ("invalid mode " ++ mode ++ ". Valid modes are [" ++
        " ".intercalate ["ad-hoc", "station", "ap"] ++ "]")), d), t) := by
  unfold Device.SetMode
  dsimp only
  have h : ¬ mode ∈ d.GetSupportedModes := hmode
  rw [if_pos h]
  rfl

theorem setMode_unsupported_witness :
    "bogus" ∉ ["ad-hoc", "station", "ap"] ∧
      sampleDevice.SetMode (sampleConn [] "") "bogus" [] =
        ((some (.errorf "invalid mode bogus. Valid modes are [ad-hoc station ap]"),
          sampleDevice), []) :=
  ⟨by decide, setMode_unsupported (sampleConn [] "") sampleDevice "bogus" [] (by decide)⟩

/-- C14. After a mutation whose remote call succeeds the snapshot holds the requested value
and the property-set is the only request sent: `Device.SetMode` with a supported mode,
`SetPowered` on an `Adapter` and on a `Device`, and `KnownNetwork.SetAutoConnect` on an entity
that is not forgotten. -/
theorem mutation_updates_snapshot (conn : Conn) (t : Trace) :
    (∀ (d : Device) (mode : String), mode ∈ ["ad-hoc", "station", "ap"] →
        conn.SetProperty t d.path devicePropertyMode (Variant.string mode) = none →
        (d.SetMode conn mode t).1.1 = none ∧ (d.SetMode conn mode t).1.2.GetMode = mode ∧
          (d.SetMode conn mode t).2 =
            t ++ [Event.setProperty d.path devicePropertyMode (Variant.string mode)])
      ∧ (∀ (a : Adapter) (powered : Bool),
        conn.SetProperty t a.path adapterPropertyPowered (Variant.bool powered) = none →
        (a.SetPowered conn powered t).1.1 = none ∧
          (a.SetPowered conn powered t).1.2.GetPowered = powered ∧
          (a.SetPowered conn powered t).2 =
            t ++ [Event.setProperty a.path adapterPropertyPowered (Variant.bool powered)])
      ∧ (∀ (d : Device) (powered : Bool),
        conn.SetProperty t d.path devicePropertyPowered (Variant.bool powered) = none →
        (d.SetPowered conn powered t).1.1 = none ∧
          (d.SetPowered conn powered t).1.2.GetPowered = powered ∧
          (d.SetPowered conn powered t).2 =
            t ++ [Event.setProperty d.path devicePropertyPowered (Variant.bool powered)])
      ∧ (∀ (kn : KnownNetwork) (autoConnect : Bool), kn.forgotten = false →
        conn.SetProperty t kn.path knownNetworkPropertyAutoConnect (Variant.bool autoConnect)
          = none →
        (kn.SetAutoConnect conn autoConnect t).1.1 = none ∧
          (kn.SetAutoConnect conn autoConnect t).1.2.GetAutoConnect = .ok autoConnect ∧
          (kn.SetAutoConnect conn autoConnect t).2 =
            t ++ [Event.setProperty kn.path knownNetworkPropertyAutoConnect
              (Variant.bool autoConnect)]) := by
  refine ⟨?_, ?_, ?_, ?_⟩
  · intro d mode hmode hset
    have h : ¬ ¬ mode ∈ d.GetSupportedModes := not_not.2 hmode
    simp only [Device.SetMode, if_neg h, hset, Device.GetMode, and_self]
  · intro a powered hset
    simp only [Adapter.SetPowered, hset, Adapter.GetPowered, and_self]
  · intro d powered hset
    simp only [Device.SetPowered, hset, Device.GetPowered, and_self]
  · intro kn autoConnect hf hset
    simp [KnownNetwork.SetAutoConnect, hf, hset, KnownNetwork.GetAutoConnect]

theorem mutation_updates_snapshot_witness :
    (sampleDevice.SetMode (sampleConn [] "") "ap" []).1.2.GetMode = "ap" ∧
      ((sampleKnown "Home").SetAutoConnect (sampleConn [] "") false []).1.2.GetAutoConnect
        = .ok false :=
  ⟨((mutation_updates_snapshot (sampleConn [] "") []).1 sampleDevice "ap" (by decide) rfl).2.1,
    ((mutation_updates_snapshot (sampleConn [] "") []).2.2.2 (sampleKnown "Home") false
      (by decide) rfl).2.1⟩

/-- C17. On a forgotten `KnownNetwork`, `SetAutoConnect(v)` returns `ErrNetworkForgotten`,
sends no request (the trace is unchanged) and leaves the entity, `autoConnect` included, as
it was. -/
theorem setAutoConnect_forgotten (conn : Conn) (kn : KnownNetwork) (autoConnect : Bool)
    (t : Trace) (hf : kn.forgotten = true) :
    kn.SetAutoConnect conn autoConnect t = ((some .ErrNetworkForgotten, kn), t) ∧
      (kn.SetAutoConnect conn autoConnect t).1.2.autoConnect = kn.autoConnect := by
  simp [KnownNetwork.SetAutoConnect, hf]

theorem setAutoConnect_forgotten_witness :
    ({ sampleKnown "Home" with forgotten := true } : KnownNetwork).forgotten = true ∧
      ({ sampleKnown "Home" with forgotten := true } : KnownNetwork).SetAutoConnect
        (sampleConn [] "") false [] =
          ((some .ErrNetworkForgotten, { sampleKnown "Home" with forgotten := true }), []) :=
  ⟨rfl, (setAutoConnect_forgotten (sampleConn [] "")
    { sampleKnown "Home" with forgotten := true } false [] rfl).1⟩

/-- C15. When the remote call of a mutation method fails, the method returns exactly the
error of that call and the snapshot is equal to the one before the call: `Adapter.SetPowered`,
`Device.SetPowered`, `Device.SetMode` (with a supported mode), `KnownNetwork.SetAutoConnect`
(on an entity that is not forgotten), `AccessPoint.Start`, `Stop` and `StartProfile`,
`AdHoc.Start`, `StartOpen` and `Stop`, and `Network.Connect`. -/
theorem remote_failure_keeps_snapshot (conn : Conn) (t : Trace) (err : GoError) :
    (∀ (a : Adapter) (powered : Bool),
        conn.SetProperty t a.path adapterPropertyPowered (Variant.bool powered) = some err →
        (a.SetPowered conn powered t).1 = (some err, a))
      ∧ (∀ (d : Device) (powered : Bool),
        conn.SetProperty t d.path devicePropertyPowered (Variant.bool powered) = some err →
        (d.SetPowered conn powered t).1 = (some err, d))
      ∧ (∀ (d : Device) (mode : String), mode ∈ ["ad-hoc", "station", "ap"] →
        conn.SetProperty t d.path devicePropertyMode (Variant.string mode) = some err →
        (d.SetMode conn mode t).1 = (some err, d))
      ∧ (∀ (kn : KnownNetwork) (autoConnect : Bool), kn.forgotten = false →
        conn.SetProperty t kn.path knownNetworkPropertyAutoConnect (Variant.bool autoConnect)
          = some err →
        (kn.SetAutoConnect conn autoConnect t).1 = (some err, kn))
      ∧ (∀ (ap : AccessPoint) (ssid psk : String),
        conn.call t ap.path accessPointMethodStart [Variant.string ssid, Variant.string psk]
          = .error err →
        (ap.Start conn ssid psk t).1 = (some err, ap))
      ∧ (∀ (ap : AccessPoint),
        conn.call t ap.path accessPointMethodStop [] = .error err →
        (ap.Stop conn t).1 = (some err, ap))
      ∧ (∀ (ap : AccessPoint) (ssid : String),
        conn.call t ap.path accessPointMethodStartProfile [] = .error err →
        (ap.StartProfile conn ssid t).1 = (some err, ap))
      ∧ (∀ (ah : AdHoc) (ssid psk : String),
        conn.call t ah.path adhocMethodStart [Variant.string ssid, Variant.string psk]
          = .error err →
        (ah.Start conn ssid psk t).1 = (some err, ah))
      ∧ (∀ (ah : AdHoc) (ssid : String),
        conn.call t ah.path adhocMethodStartOpen [] = .error err →
        (ah.StartOpen conn ssid t).1 = (some err, ah))
      ∧ (∀ (ah : AdHoc),
        conn.call t ah.path adhocMethodStop [] = .error err →
        (ah.Stop conn t).1 = (some err, ah))
      ∧ (∀ (n : Network),
        conn.call t n.path networkMethodConnect [] = .error err →
        (n.Connect conn t).1 = (some err, n)) := by
  refine ⟨?_, ?_, ?_, ?_, ?_, ?_, ?_, ?_, ?_, ?_, ?_⟩
  · intro a powered h
    simp only [Adapter.SetPowered, h]
  · intro d powered h
    simp only [Device.SetPowered, h]
  · intro d mode hmode h
    have h' : ¬ ¬ mode ∈ d.GetSupportedModes := not_not.2 hmode
    simp only [Device.SetMode, if_neg h', h]
  · intro kn autoConnect hf h
    simp [KnownNetwork.SetAutoConnect, hf, h]
  · intro ap ssid psk h
    simp only [AccessPoint.Start, h]
  · intro ap h
    simp only [AccessPoint.Stop, h]
  · intro ap ssid h
    simp only [AccessPoint.StartProfile, h]
  · intro ah ssid psk h
    simp only [AdHoc.Start, h]
  · intro ah ssid h
    simp only [AdHoc.StartOpen, h]
  · intro ah h
    simp only [AdHoc.Stop, h]
  · intro n h
    simp only [Network.Connect, h]

theorem remote_failure_keeps_snapshot_witness :
    (sampleConn [] networkMethodConnect).call [] entryA.Network.path networkMethodConnect []
        = .error (.remote "call failed") ∧
      (entryA.Network.Connect (sampleConn [] networkMethodConnect) []).1
        = (some (.remote "call failed"), entryA.Network) :=
  ⟨rfl, (remote_failure_keeps_snapshot (sampleConn [] networkMethodConnect) []
    (.remote "call failed")).2.2.2.2.2.2.2.2.2.2 entryA.Network rfl⟩

/-- C16 (as stated, refuted). A successful `Station.Scan()` on a station that is not scanning
sends two requests, the read of the `Scanning` property and the `Scan` method call. -/
theorem scan_two_requests_counterexample :
    Station.Scan (sampleConn [] "") { path := "/net/connman/iwd/0/4" } [] =
        (none, [Event.getProperty "/net/connman/iwd/0/4" stationPropertyScanning,
          Event.call "/net/connman/iwd/0/4" stationMethodScan []]) ∧
      (Station.Scan (sampleConn [] "") { path := "/net/connman/iwd/0/4" } []).2.length ≠ 1 := by
  decide

/-- C16 (amended). A successful call of `SetPowered` (on an `Adapter` or a `Device`),
`SetMode`, `SetAutoConnect`, `Forget`, `Connect`, `Disconnect`, or of `Start`, `Stop`,
`StartProfile`, `StartOpen` or `Scan` on an `AccessPoint` or `AdHoc`, sends exactly one
request. A successful `Station.Scan()` first reads the `Scanning` property and sends the
`Scan` method call only when the read gives false: two requests then, one when it gives
true. -/
theorem one_request_per_mutation (conn : Conn) (t : Trace) :
    (∀ (a : Adapter) (powered : Bool), (a.SetPowered conn powered t).1.1 = none →
        (a.SetPowered conn powered t).2 =
          t ++ [Event.setProperty a.path adapterPropertyPowered (Variant.bool powered)])
      ∧ (∀ (d : Device) (powered : Bool), (d.SetPowered conn powered t).1.1 = none →
        (d.SetPowered conn powered t).2 =
          t ++ [Event.setProperty d.path devicePropertyPowered (Variant.bool powered)])
      ∧ (∀ (d : Device) (mode : String), (d.SetMode conn mode t).1.1 = none →
        (d.SetMode conn mode t).2 =
          t ++ [Event.setProperty d.path devicePropertyMode (Variant.string mode)])
      ∧ (∀ (kn : KnownNetwork) (autoConnect : Bool),
        (kn.SetAutoConnect conn autoConnect t).1.1 = none →
        (kn.SetAutoConnect conn autoConnect t).2 =
          t ++ [Event.setProperty kn.path knownNetworkPropertyAutoConnect
            (Variant.bool autoConnect)])
      ∧ (∀ (kn : KnownNetwork), (kn.Forget conn t).1.1 = none →
        (kn.Forget conn t).2 = t ++ [Event.call kn.path knownNetworkMethodForget []])
      ∧ (∀ (n : Network), (n.Connect conn t).1.1 = none →
        (n.Connect conn t).2 = t ++ [Event.call n.path networkMethodConnect []])
      ∧ (∀ (s : Station), (s.Disconnect conn t).1 = none →
        (s.Disconnect conn t).2 = t ++ [Event.call s.path stationMethodDisconnect []])
      ∧ (∀ (ap : AccessPoint) (ssid psk : String), (ap.Start conn ssid psk t).1.1 = none →
        (ap.Start conn ssid psk t).2 = t ++ [Event.call ap.path accessPointMethodStart
          [Variant.string ssid, Variant.string psk]])
      ∧ (∀ (ap : AccessPoint), (ap.Stop conn t).1.1 = none →
        (ap.Stop conn t).2 = t ++ [Event.call ap.path accessPointMethodStop []])
      ∧ (∀ (ap : AccessPoint) (ssid : String), (ap.StartProfile conn ssid t).1.1 = none →
        (ap.StartProfile conn ssid t).2 =
          t ++ [Event.call ap.path accessPointMethodStartProfile []])
      ∧ (∀ (ap : AccessPoint), (ap.Scan conn t).1.1 = none →
        (ap.Scan conn t).2 = t ++ [Event.call ap.path accessPointMethodScan []])
      ∧ (∀ (ah : AdHoc) (ssid psk : String), (ah.Start conn ssid psk t).1.1 = none →
        (ah.Start conn ssid psk t).2 = t ++ [Event.call ah.path adhocMethodStart
          [Variant.string ssid, Variant.string psk]])
      ∧ (∀ (ah : AdHoc) (ssid : String), (ah.StartOpen conn ssid t).1.1 = none →
        (ah.StartOpen conn ssid t).2 = t ++ [Event.call ah.path adhocMethodStartOpen []])
      ∧ (∀ (ah : AdHoc), (ah.Stop conn t).1.1 = none →
        (ah.Stop conn t).2 = t ++ [Event.call ah.path adhocMethodStop []])
      ∧ (∀ (s : Station), (s.Scan conn t).1 = none →
        ((s.GetScanning conn t).1 = .ok false ∧
          (s.Scan conn t).2 = t ++ [Event.getProperty s.path stationPropertyScanning,
            Event.call s.path stationMethodScan []]) ∨
        ((s.GetScanning conn t).1 = .ok true ∧
          (s.Scan conn t).2 = t ++ [Event.getProperty s.path stationPropertyScanning])) := by
  refine ⟨?_, ?_, ?_, ?_, ?_, ?_, ?_, ?_, ?_, ?_, ?_, ?_, ?_, ?_, ?_⟩
  · intro a powered h
    unfold Adapter.SetPowered at h ⊢
    dsimp only at h ⊢
    split <;> rfl
  · intro d powered h
    unfold Device.SetPowered at h ⊢
    dsimp only at h ⊢
    split <;> rfl
  · intro d mode h
    unfold Device.SetMode at h ⊢
    dsimp only at h ⊢
    split
    · rename_i hm
      rw [if_pos hm] at h
      simp at h
    · split <;> rfl
  · intro kn autoConnect h
    unfold KnownNetwork.SetAutoConnect at h ⊢
    split
    · rename_i hf
      rw [if_pos hf] at h
      simp at h
    · dsimp only
      split <;> rfl
  · intro kn h
    unfold KnownNetwork.Forget at h ⊢
    split
    · rename_i hf
      rw [if_pos hf] at h
      simp at h
    · dsimp only
      split <;> rfl
  · intro n h
    unfold Network.Connect
    dsimp only
    split <;> rfl
  · intro s h
    unfold Station.Disconnect
    dsimp only
    split <;> rfl
  · intro ap ssid psk h
    unfold AccessPoint.Start
    dsimp only
    split <;> rfl
  · intro ap h
    unfold AccessPoint.Stop
    dsimp only
    split <;> rfl
  · intro ap ssid h
    unfold AccessPoint.StartProfile
    dsimp only
    split <;> rfl
  · intro ap h
    unfold AccessPoint.Scan
    dsimp only
    split <;> rfl
  · intro ah ssid psk h
    unfold AdHoc.Start
    dsimp only
    split <;> rfl
  · intro ah ssid h
    unfold AdHoc.StartOpen
    dsimp only
    split <;> rfl
  · intro ah h
    unfold AdHoc.Stop
    dsimp only
    split <;> rfl
  · intro s h
    have ht : (s.GetScanning conn t).2 = t ++ [Event.getProperty s.path stationPropertyScanning]
        := by
      unfold Station.GetScanning
      dsimp only
      repeat' split
      all_goals rfl
    unfold Station.Scan at h ⊢
    dsimp only at h ⊢
    rw [ht] at h ⊢
    cases hg : (s.GetScanning conn t).1 with
    | error e => rw [hg] at h; simp at h
    | ok scanning =>
      cases scanning with
      | true => right; simp
      | false =>
        left
        simp only [Bool.not_false, if_true, true_and]
        split <;> simp

theorem one_request_per_mutation_witness :
    (Station.Scan (sampleConn [] "") { path := "/net/connman/iwd/0/4" } []).1 = none ∧
      (sampleDevice.SetMode (sampleConn [] "") "ap" []).1.1 = none ∧
      (sampleDevice.SetMode (sampleConn [] "") "ap" []).2 =
        [] ++ [Event.setProperty sampleDevice.path devicePropertyMode (Variant.string "ap")] :=
  ⟨by decide, by decide,
    (one_request_per_mutation (sampleConn [] "") []).2.2.1 sampleDevice "ap" (by decide)⟩

/-! ## Constructors -/

/-- C11. A station whose `GetOrderedNetworks` reply lists "Home", then a network whose
snapshot cannot be built, then "Home" again: `Station.GetOrderedNetworks` returns the first
entry alone with a nil error, and `ScanForNetworks` returns that partial list with a nil
error. -/
theorem network_failure_returns_partial_list :
    (∃ err, (NewNetwork (tableConn oneStation homeProperties replyWithGone)
        "/net/connman/iwd/0/4/Gone" []).1 = .error err) ∧
      (Station.GetOrderedNetworks (tableConn oneStation homeProperties replyWithGone)
        { path := "/net/connman/iwd/0/4" } []).1
          = .ok [{ Network := homeNetwork, SignalStrength := -40 }] ∧
      (ScanForNetworks (tableConn oneStation homeProperties replyWithGone) 0 []).1
          = .ok [{ Network := homeNetwork, SignalStrength := -40 }] := by
  refine ⟨⟨.remote "no such property", rfl⟩, by decide, by decide⟩

theorem prefix_NewAdapter (conn : Conn) (path : ObjectPath) (t : Trace) :
    t <+: (NewAdapter conn path t).2 := by
  unfold NewAdapter
  dsimp only
  repeat' split
  all_goals simp

theorem prefix_NewDevice (conn : Conn) (path : ObjectPath) (t : Trace) :
    t <+: (NewDevice conn path t).2 := by
  unfold NewDevice
  dsimp only
  repeat' split
  all_goals dsimp only
  all_goals first
    | (simp; done)
    | (refine List.IsPrefix.trans ?_ (prefix_NewAdapter _ _ _); simp)
    | (refine List.IsPrefix.trans ?_
        ((prefix_NewAdapter _ _ _).trans (List.prefix_append _ _)); simp)

theorem prefix_NewKnownNetwork (conn : Conn) (path : ObjectPath) (t : Trace) :
    t <+: (NewKnownNetwork conn path t).2 := by
  unfold NewKnownNetwork
  dsimp only
  repeat' split
  all_goals simp

theorem prefix_NewBasicServiceSet (conn : Conn) (path : ObjectPath) (t : Trace) :
    t <+: (NewBasicServiceSet conn path t).2 := by
  unfold NewBasicServiceSet
  dsimp only
  repeat' split
  all_goals simp

theorem prefix_newNetworkKnownNetwork (conn : Conn) (path : ObjectPath) (t : Trace) :
    t <+: (newNetworkKnownNetwork conn path t).2 := by
  unfold newNetworkKnownNetwork
  dsimp only
  repeat' split
  all_goals dsimp only
  all_goals first
    | exact List.prefix_append _ _
    | exact (List.prefix_append _ _).trans (prefix_NewKnownNetwork _ _ _)

/-- C18. In every constructor the failed fetch of a required property is fatal
(`FetchIsFatal`): the constructor returns that fetch's error and no entity, and the fetch is
the last request it sends, unless construction has failed before that fetch already. The
required properties are Name, SupportedModes and Powered of an `Adapter`; Name, Address,
Powered, Adapter and Mode of a `Device`; Name, Connected, Device and Type of a `Network`;
Name, Type, Hidden and AutoConnect of a `KnownNetwork`; Started of an `AccessPoint` and of an
`AdHoc`; Address of a `BasicServiceSet`. -/
theorem required_fetch_failure_is_fatal (conn : Conn) (path : ObjectPath) (t : Trace) :
    (FetchIsFatal conn (NewAdapter conn path t) t path adapterPropertyName
      ∧ FetchIsFatal conn (NewAdapter conn path t)
          (afterFetches t path [adapterPropertyName, adapterPropertyModel, adapterPropertyVendor])
          path adapterPropertySupportedModes
      ∧ FetchIsFatal conn (NewAdapter conn path t)
          (afterFetches t path [adapterPropertyName, adapterPropertyModel, adapterPropertyVendor,
            adapterPropertySupportedModes])
          path adapterPropertyPowered)
    ∧ (FetchIsFatal conn (NewDevice conn path t) t path devicePropertyName
      ∧ FetchIsFatal conn (NewDevice conn path t)
          (afterFetches t path [devicePropertyName]) path devicePropertyAddress
      ∧ FetchIsFatal conn (NewDevice conn path t)
          (afterFetches t path [devicePropertyName, devicePropertyAddress])
          path devicePropertyPowered
      ∧ FetchIsFatal conn (NewDevice conn path t)
          (afterFetches t path [devicePropertyName, devicePropertyAddress, devicePropertyPowered])
          path devicePropertyAdapter
      ∧ ∀ adapterPath,
          Obtained conn conn.storeObjectPath
            (afterFetches t path [devicePropertyName, devicePropertyAddress, devicePropertyPowered])
            path devicePropertyAdapter adapterPath →
          FetchIsFatal conn (NewDevice conn path t)
            (NewAdapter conn adapterPath
              (afterFetches t path [devicePropertyName, devicePropertyAddress,
                devicePropertyPowered, devicePropertyAdapter])).2
            path devicePropertyMode)
    ∧ (FetchIsFatal conn (NewNetwork conn path t) t path networkPropertyName
      ∧ FetchIsFatal conn (NewNetwork conn path t)
          (afterFetches t path [networkPropertyName]) path networkPropertyConnected
      ∧ FetchIsFatal conn (NewNetwork conn path t)
          (afterFetches t path [networkPropertyName, networkPropertyConnected])
          path networkPropertyDevice
      ∧ ∀ devicePath,
          Obtained conn conn.storeObjectPath
            (afterFetches t path [networkPropertyName, networkPropertyConnected])
            path networkPropertyDevice devicePath →
          FetchIsFatal conn (NewNetwork conn path t)
            (NewDevice conn devicePath
              (afterFetches t path [networkPropertyName, networkPropertyConnected,
                networkPropertyDevice])).2
            path networkPropertyType)
    ∧ (FetchIsFatal conn (NewKnownNetwork conn path t) t path knownNetworkPropertyName
      ∧ FetchIsFatal conn (NewKnownNetwork conn path t)
          (afterFetches t path [knownNetworkPropertyName]) path knownNetworkPropertyType
      ∧ FetchIsFatal conn (NewKnownNetwork conn path t)
          (afterFetches t path [knownNetworkPropertyName, knownNetworkPropertyType])
          path knownNetworkPropertyHidden
      ∧ FetchIsFatal conn (NewKnownNetwork conn path t)
          (afterFetches t path [knownNetworkPropertyName, knownNetworkPropertyType,
            knownNetworkPropertyHidden, knownNetworkPropertyLastConnectedTime])
          path knownNetworkPropertyAutoConnect)
    ∧ FetchIsFatal conn (NewAccessPoint conn path t) t path accessPointPropertyStarted
    ∧ FetchIsFatal conn (NewAdHoc conn path t) t path adhocPropertyStarted
    ∧ FetchIsFatal conn (NewBasicServiceSet conn path t) t path
        basicServiceSetPropertyAddress := by
  simp only [FetchIsFatal, Obtained, afterFetches]
  refine ⟨⟨?_, ?_, ?_⟩, ⟨?_, ?_, ?_, ?_, ?_⟩, ⟨?_, ?_, ?_, ?_⟩, ⟨?_, ?_, ?_, ?_⟩, ?_, ?_, ?_⟩
  · intro err h
    unfold FailsAt NewAdapter
    dsimp only
    repeat' split
    all_goals (left; simp_all)
  · intro err h
    unfold FailsAt NewAdapter
    dsimp only
    repeat' split
    all_goals first
      | (left; simp_all; done)
      | (right; simp)
  · intro err h
    unfold FailsAt NewAdapter
    dsimp only
    repeat' split
    all_goals first
      | (left; simp_all; done)
      | (right; simp)
  · intro err h
    unfold FailsAt NewDevice
    dsimp only
    repeat' split
    all_goals (left; simp_all)
  · intro err h
    unfold FailsAt NewDevice
    dsimp only
    repeat' split
    all_goals first
      | (left; simp_all; done)
      | (right; simp)
  · intro err h
    unfold FailsAt NewDevice
    dsimp only
    repeat' split
    all_goals first
      | (left; simp_all; done)
      | (right; simp)
  · intro err h
    unfold FailsAt NewDevice
    dsimp only
    repeat' split
    all_goals first
      | (left; simp_all; done)
      | (right; simp)
  · rintro adapterPath ⟨variant, h1, h2⟩ err h3
    unfold FailsAt NewDevice
    simp only [h1, h2]
    repeat' split
    all_goals first
      | (left; simp_all; done)
      | (right; simp; done)
      | (right; refine ⟨_, rfl, List.IsPrefix.trans ?_ (prefix_NewAdapter _ _ _)⟩; simp)
  · intro err h
    unfold FailsAt NewNetwork
    dsimp only
    repeat' split
    all_goals (left; simp_all)
  · intro err h
    unfold FailsAt NewNetwork
    dsimp only
    repeat' split
    all_goals first
      | (left; simp_all; done)
      | (right; simp)
  · intro err h
    unfold FailsAt NewNetwork
    dsimp only
    repeat' split
    all_goals first
      | (left; simp_all; done)
      | (right; simp)
  · rintro devicePath ⟨variant, h1, h2⟩ err h3
    unfold FailsAt NewNetwork
    simp only [h1, h2]
    repeat' split
    all_goals first
      | (left; simp_all; done)
      | (right; simp; done)
      | (right; refine ⟨_, rfl, List.IsPrefix.trans ?_ (prefix_NewDevice _ _ _)⟩; simp)
  · intro err h
    unfold FailsAt NewKnownNetwork
    dsimp only
    repeat' split
    all_goals (left; simp_all)
  · intro err h
    unfold FailsAt NewKnownNetwork
    dsimp only
    repeat' split
    all_goals first
      | (left; simp_all; done)
      | (right; simp)
  · intro err h
    unfold FailsAt NewKnownNetwork
    dsimp only
    repeat' split
    all_goals first
      | (left; simp_all; done)
      | (right; simp)
  · intro err h
    unfold FailsAt NewKnownNetwork
    dsimp only
    repeat' split
    all_goals first
      | (left; simp_all; done)
      | (right; simp)
  · intro err h
    unfold FailsAt NewAccessPoint
    dsimp only
    repeat' split
    all_goals (left; simp_all)
  · intro err h
    unfold FailsAt NewAdHoc
    dsimp only
    repeat' split
    all_goals (left; simp_all)
  · intro err h
    unfold FailsAt NewBasicServiceSet
    dsimp only
    repeat' split
    all_goals (left; simp_all)

/-- C18, an instance: on a connection where every property of the adapter is missing,
`NewAdapter` returns the error of the first fetch, Name, after that one request. -/
theorem required_fetch_failure_is_fatal_witness :
    (sampleConn noStations "").GetProperty [] "/net/connman/iwd/0" adapterPropertyName
        = .error (.remote "no such property")
      ∧ FailsAt (NewAdapter (sampleConn noStations "") "/net/connman/iwd/0" []) []
          (Event.getProperty "/net/connman/iwd/0" adapterPropertyName)
          (.remote "no such property") :=
  ⟨rfl, (required_fetch_failure_is_fatal (sampleConn noStations "") "/net/connman/iwd/0"
    []).1.1 (.remote "no such property") rfl⟩

/-- C19, counterexample. An adapter whose Model cannot be fetched while Name, SupportedModes
and Powered are obtained, and whose Vendor is fetched with a value that is not a string:
`NewAdapter` returns the decoding error and no adapter. -/
theorem optional_fetch_failure_counterexample :
    (tableConn [] vendorNotStringProperties []).GetProperty
        (afterFetches [] "/net/connman/iwd/0" [adapterPropertyName])
        "/net/connman/iwd/0" adapterPropertyModel = .error (.remote "no such property")
      ∧ Obtained (tableConn [] vendorNotStringProperties [])
          (tableConn [] vendorNotStringProperties []).storeString []
          "/net/connman/iwd/0" adapterPropertyName "phy0"
      ∧ Obtained (tableConn [] vendorNotStringProperties [])
          (tableConn [] vendorNotStringProperties []).storeStrings
          (afterFetches [] "/net/connman/iwd/0"
            [adapterPropertyName, adapterPropertyModel, adapterPropertyVendor])
          "/net/connman/iwd/0" adapterPropertySupportedModes ["ad-hoc", "station", "ap"]
      ∧ Obtained (tableConn [] vendorNotStringProperties [])
          (tableConn [] vendorNotStringProperties []).storeBool
          (afterFetches [] "/net/connman/iwd/0"
            [adapterPropertyName, adapterPropertyModel, adapterPropertyVendor,
              adapterPropertySupportedModes])
          "/net/connman/iwd/0" adapterPropertyPowered true
      ∧ (NewAdapter (tableConn [] vendorNotStringProperties []) "/net/connman/iwd/0" []).1
          = .error (.store "dbus.Store: type mismatch") :=
  ⟨rfl, ⟨_, rfl, rfl⟩, ⟨_, rfl, rfl⟩, ⟨_, rfl, rfl⟩, rfl⟩

/-- C19, amended. When the fetch of an optional property fails while every required property
is obtained, every nested entity is constructed, and every other optional property is absent
or can be decoded (for the KnownNetwork and the ExtendedServiceSet of a `Network`: and the
entities it refers to can be constructed), the constructor returns an entity in which that
optional field is nil. The optional properties are Model and Vendor of an `Adapter`; Name,
Frequency, PairwiseCiphers and GroupCipher of an `AccessPoint`; LastConnectedTime of a
`KnownNetwork`; KnownNetwork and ExtendedServiceSet of a `Network`. -/
theorem optional_fetch_failure_gives_absent (conn : Conn) (path : ObjectPath) (t : Trace)
    (err : GoError) :
    (∀ name vendor modes powered,
        Obtained conn conn.storeString t path adapterPropertyName name →
        conn.GetProperty (afterFetches t path [adapterPropertyName])
          path adapterPropertyModel = .error err →
        optionalString conn (conn.GetProperty
          (afterFetches t path [adapterPropertyName, adapterPropertyModel])
          path adapterPropertyVendor) = .ok vendor →
        Obtained conn conn.storeStrings
          (afterFetches t path [adapterPropertyName, adapterPropertyModel, adapterPropertyVendor])
          path adapterPropertySupportedModes modes →
        Obtained conn conn.storeBool
          (afterFetches t path [adapterPropertyName, adapterPropertyModel, adapterPropertyVendor,
            adapterPropertySupportedModes])
          path adapterPropertyPowered powered →
        (NewAdapter conn path t).1 = .ok
          { path := path, name := name, model := none, vendor := vendor,
            supportedModes := modes, powered := powered })
    ∧ (∀ name model modes powered,
        Obtained conn conn.storeString t path adapterPropertyName name →
        optionalString conn (conn.GetProperty (afterFetches t path [adapterPropertyName])
          path adapterPropertyModel) = .ok model →
        conn.GetProperty (afterFetches t path [adapterPropertyName, adapterPropertyModel])
          path adapterPropertyVendor = .error err →
        Obtained conn conn.storeStrings
          (afterFetches t path [adapterPropertyName, adapterPropertyModel, adapterPropertyVendor])
          path adapterPropertySupportedModes modes →
        Obtained conn conn.storeBool
          (afterFetches t path [adapterPropertyName, adapterPropertyModel, adapterPropertyVendor,
            adapterPropertySupportedModes])
          path adapterPropertyPowered powered →
        (NewAdapter conn path t).1 = .ok
          { path := path, name := name, model := model, vendor := none,
            supportedModes := modes, powered := powered })
    ∧ (∀ started frequency pairwiseCiphers groupCipher,
        Obtained conn conn.storeBool t path accessPointPropertyStarted started →
        conn.GetProperty (afterFetches t path [accessPointPropertyStarted])
          path accessPointPropertyName = .error err →
        optionalProperty conn.storeUint32 (conn.GetProperty
          (afterFetches t path [accessPointPropertyStarted, accessPointPropertyName])
          path accessPointPropertyFrequency) = .ok frequency →
        optionalProperty conn.storeStrings (conn.GetProperty
          (afterFetches t path [accessPointPropertyStarted, accessPointPropertyName,
            accessPointPropertyFrequency])
          path accessPointPropertyPairwiseCiphers) = .ok pairwiseCiphers →
        optionalProperty conn.storeString (conn.GetProperty
          (afterFetches t path [accessPointPropertyStarted, accessPointPropertyName,
            accessPointPropertyFrequency, accessPointPropertyPairwiseCiphers])
          path accessPointPropertyGroupCipher) = .ok groupCipher →
        (NewAccessPoint conn path t).1 = .ok
          { path := path, started := started, name := none, frequency := frequency,
            pairwiseCiphers := pairwiseCiphers, groupCipher := groupCipher })
    ∧ (∀ started name pairwiseCiphers groupCipher,
        Obtained conn conn.storeBool t path accessPointPropertyStarted started →
        optionalProperty conn.storeString (conn.GetProperty
          (afterFetches t path [accessPointPropertyStarted])
          path accessPointPropertyName) = .ok name →
        conn.GetProperty
          (afterFetches t path [accessPointPropertyStarted, accessPointPropertyName])
          path accessPointPropertyFrequency = .error err →
        optionalProperty conn.storeStrings (conn.GetProperty
          (afterFetches t path [accessPointPropertyStarted, accessPointPropertyName,
            accessPointPropertyFrequency])
          path accessPointPropertyPairwiseCiphers) = .ok pairwiseCiphers →
        optionalProperty conn.storeString (conn.GetProperty
          (afterFetches t path [accessPointPropertyStarted, accessPointPropertyName,
            accessPointPropertyFrequency, accessPointPropertyPairwiseCiphers])
          path accessPointPropertyGroupCipher) = .ok groupCipher →
        (NewAccessPoint conn path t).1 = .ok
          { path := path, started := started, name := name, frequency := none,
            pairwiseCiphers := pairwiseCiphers, groupCipher := groupCipher })
    ∧ (∀ started name frequency groupCipher,
        Obtained conn conn.storeBool t path accessPointPropertyStarted started →
        optionalProperty conn.storeString (conn.GetProperty
          (afterFetches t path [accessPointPropertyStarted])
          path accessPointPropertyName) = .ok name →
        optionalProperty conn.storeUint32 (conn.GetProperty
          (afterFetches t path [accessPointPropertyStarted, accessPointPropertyName])
          path accessPointPropertyFrequency) = .ok frequency →
        conn.GetProperty
          (afterFetches t path [accessPointPropertyStarted, accessPointPropertyName,
            accessPointPropertyFrequency])
          path accessPointPropertyPairwiseCiphers = .error err →
        optionalProperty conn.storeString (conn.GetProperty
          (afterFetches t path [accessPointPropertyStarted, accessPointPropertyName,
            accessPointPropertyFrequency, accessPointPropertyPairwiseCiphers])
          path accessPointPropertyGroupCipher) = .ok groupCipher →
        (NewAccessPoint conn path t).1 = .ok
          { path := path, started := started, name := name, frequency := frequency,
            pairwiseCiphers := none, groupCipher := groupCipher })
    ∧ (∀ started name frequency pairwiseCiphers,
        Obtained conn conn.storeBool t path accessPointPropertyStarted started →
        optionalProperty conn.storeString (conn.GetProperty
          (afterFetches t path [accessPointPropertyStarted])
          path accessPointPropertyName) = .ok name →
        optionalProperty conn.storeUint32 (conn.GetProperty
          (afterFetches t path [accessPointPropertyStarted, accessPointPropertyName])
          path accessPointPropertyFrequency) = .ok frequency →
        optionalProperty conn.storeStrings (conn.GetProperty
          (afterFetches t path [accessPointPropertyStarted, accessPointPropertyName,
            accessPointPropertyFrequency])
          path accessPointPropertyPairwiseCiphers) = .ok pairwiseCiphers →
        conn.GetProperty
          (afterFetches t path [accessPointPropertyStarted, accessPointPropertyName,
            accessPointPropertyFrequency, accessPointPropertyPairwiseCiphers])
          path accessPointPropertyGroupCipher = .error err →
        (NewAccessPoint conn path t).1 = .ok
          { path := path, started := started, name := name, frequency := frequency,
            pairwiseCiphers := pairwiseCiphers, groupCipher := none })
    ∧ (∀ name netType hidden autoConnect,
        Obtained conn conn.storeString t path knownNetworkPropertyName name →
        Obtained conn conn.storeString (afterFetches t path [knownNetworkPropertyName])
          path knownNetworkPropertyType netType →
        Obtained conn conn.storeBool
          (afterFetches t path [knownNetworkPropertyName, knownNetworkPropertyType])
          path knownNetworkPropertyHidden hidden →
        conn.GetProperty
          (afterFetches t path [knownNetworkPropertyName, knownNetworkPropertyType,
            knownNetworkPropertyHidden])
          path knownNetworkPropertyLastConnectedTime = .error err →
        Obtained conn conn.storeBool
          (afterFetches t path [knownNetworkPropertyName, knownNetworkPropertyType,
            knownNetworkPropertyHidden, knownNetworkPropertyLastConnectedTime])
          path knownNetworkPropertyAutoConnect autoConnect →
        (NewKnownNetwork conn path t).1 = .ok
          { path := path, name := name, netType := netType, hidden := hidden,
            lastConnectedTime := none, autoConnect := autoConnect, forgotten := false })
    ∧ (∀ name connected devicePath device netType extendedServiceSet,
        Obtained conn conn.storeString t path networkPropertyName name →
        Obtained conn conn.storeBool (afterFetches t path [networkPropertyName])
          path networkPropertyConnected connected →
        Obtained conn conn.storeObjectPath
          (afterFetches t path [networkPropertyName, networkPropertyConnected])
          path networkPropertyDevice devicePath →
        let t3 := afterFetches t path
          [networkPropertyName, networkPropertyConnected, networkPropertyDevice]
        let t4 := (NewDevice conn devicePath t3).2
        (NewDevice conn devicePath t3).1 = .ok device →
        Obtained conn conn.storeString t4 path networkPropertyType netType →
        conn.GetProperty (afterFetches t4 path [networkPropertyType])
          path networkPropertyKnownNetwork = .error err →
        (newNetworkExtendedServiceSet conn path
          (afterFetches t4 path [networkPropertyType, networkPropertyKnownNetwork])).1
          = .ok extendedServiceSet →
        (NewNetwork conn path t).1 = .ok
          { path := path, name := name, connected := connected, device := device,
            netType := netType, knownNetwork := none,
            extendedServiceSet := extendedServiceSet })
    ∧ (∀ name connected devicePath device netType knownNetwork,
        Obtained conn conn.storeString t path networkPropertyName name →
        Obtained conn conn.storeBool (afterFetches t path [networkPropertyName])
          path networkPropertyConnected connected →
        Obtained conn conn.storeObjectPath
          (afterFetches t path [networkPropertyName, networkPropertyConnected])
          path networkPropertyDevice devicePath →
        let t3 := afterFetches t path
          [networkPropertyName, networkPropertyConnected, networkPropertyDevice]
        let t4 := (NewDevice conn devicePath t3).2
        let t5 := afterFetches t4 path [networkPropertyType]
        (NewDevice conn devicePath t3).1 = .ok device →
        Obtained conn conn.storeString t4 path networkPropertyType netType →
        (newNetworkKnownNetwork conn path t5).1 = .ok knownNetwork →
        conn.GetProperty (newNetworkKnownNetwork conn path t5).2
          path networkPropertyExtendedServiceSet = .error err →
        (NewNetwork conn path t).1 = .ok
          { path := path, name := name, connected := connected, device := device,
            netType := netType, knownNetwork := knownNetwork,
            extendedServiceSet := none }) := by
  simp only [Obtained, afterFetches]
  refine ⟨?_, ?_, ?_, ?_, ?_, ?_, ?_, ?_, ?_⟩
  · rintro name vendor modes powered ⟨v1, h1, h1'⟩ h2 h3 ⟨v4, h4, h4'⟩ ⟨v5, h5, h5'⟩
    unfold NewAdapter
    simp only [h1, h1', h2, h3, h4, h4', h5, h5']
    simp only [optionalString]
  · rintro name model modes powered ⟨v1, h1, h1'⟩ h2 h3 ⟨v4, h4, h4'⟩ ⟨v5, h5, h5'⟩
    unfold NewAdapter
    simp only [h1, h1', h2, h3, h4, h4', h5, h5']
    simp only [optionalString]
  · rintro started frequency pairwiseCiphers groupCipher ⟨v1, h1, h1'⟩ h2 h3 h4 h5
    unfold NewAccessPoint
    simp only [h1, h1', h2, h3, h4, h5]
    simp only [optionalProperty]
  · rintro started name pairwiseCiphers groupCipher ⟨v1, h1, h1'⟩ h2 h3 h4 h5
    unfold NewAccessPoint
    simp only [h1, h1', h2, h3, h4, h5]
    simp only [optionalProperty]
  · rintro started name frequency groupCipher ⟨v1, h1, h1'⟩ h2 h3 h4 h5
    unfold NewAccessPoint
    simp only [h1, h1', h2, h3, h4, h5]
    simp only [optionalProperty]
  · rintro started name frequency pairwiseCiphers ⟨v1, h1, h1'⟩ h2 h3 h4 h5
    unfold NewAccessPoint
    simp only [h1, h1', h2, h3, h4, h5]
    simp only [optionalProperty]
  · rintro name netType hidden autoConnect ⟨v1, h1, h1'⟩ ⟨v2, h2, h2'⟩ ⟨v3, h3, h3'⟩ h4
      ⟨v5, h5, h5'⟩
    unfold NewKnownNetwork
    simp only [h1, h1', h2, h2', h3, h3', h4, h5, h5']
    simp only [optionalString]
  · rintro name connected devicePath device netType extendedServiceSet ⟨v1, h1, h1'⟩
      ⟨v2, h2, h2'⟩ ⟨v3, h3, h3'⟩ h4 ⟨v5, h5, h5'⟩ h6 h7
    unfold NewNetwork
    simp only [h1, h1', h2, h2', h3, h3', h4, h5, h5']
    unfold newNetworkKnownNetwork
    simp only [h6, h7]
  · rintro name connected devicePath device netType knownNetwork ⟨v1, h1, h1'⟩
      ⟨v2, h2, h2'⟩ ⟨v3, h3, h3'⟩ h4 ⟨v5, h5, h5'⟩ h6 h7
    unfold NewNetwork
    simp only [h1, h1', h2, h2', h3, h3', h4, h5, h5', h6]
    unfold newNetworkExtendedServiceSet
    simp only [h7]

/-- C19, an instance of the amended statement: the adapter of `homeProperties` has no Model
and no Vendor; `NewAdapter` returns an adapter whose model is nil. -/
theorem optional_fetch_failure_gives_absent_witness :
    (tableConn [] homeProperties []).GetProperty
        (afterFetches [] "/net/connman/iwd/0" [adapterPropertyName])
        "/net/connman/iwd/0" adapterPropertyModel = .error (.remote "no such property")
      ∧ (NewAdapter (tableConn [] homeProperties []) "/net/connman/iwd/0" []).1 = .ok
          { path := "/net/connman/iwd/0", name := "phy0", model := none, vendor := none,
            supportedModes := ["ad-hoc", "station", "ap"], powered := true } :=
  ⟨rfl, (optional_fetch_failure_gives_absent (tableConn [] homeProperties [])
    "/net/connman/iwd/0" [] (.remote "no such property")).1 "phy0" none
    ["ad-hoc", "station", "ap"] true ⟨_, rfl, rfl⟩ rfl rfl ⟨_, rfl, rfl⟩ ⟨_, rfl, rfl⟩⟩

theorem prefix_after_NewDevice (conn : Conn) (path : ObjectPath) (s t : Trace) (ev : Event)
    (h : s <+: t) : s <+: (NewDevice conn path t).2 ++ [ev] :=
  (h.trans (prefix_NewDevice conn path t)).trans (List.prefix_append _ _)

theorem prefix_after_newNetworkKnownNetwork (conn : Conn) (path : ObjectPath) (s t : Trace)
    (h : s <+: t) : s <+: (newNetworkKnownNetwork conn path t).2 :=
  h.trans (prefix_newNetworkKnownNetwork conn path t)

/-- C20, counterexample. An adapter whose Name, SupportedModes and Powered are obtained and
whose Vendor is fetched with a value that is not a string: `NewAdapter` returns the decoding
error and no adapter. A network whose required properties are those of "Home" and whose
KnownNetwork property refers to an object of which no snapshot can be built: `NewNetwork`
returns the error of `NewKnownNetwork` and no network, although without that property it
returns "Home". -/
theorem optional_decode_failure_counterexample :
    ((tableConn [] vendorNotStringProperties []).GetProperty
        (afterFetches [] "/net/connman/iwd/0" [adapterPropertyName, adapterPropertyModel])
        "/net/connman/iwd/0" adapterPropertyVendor = .ok (.bool true)
      ∧ (tableConn [] vendorNotStringProperties []).storeString (.bool true)
          = .error (.store "dbus.Store: type mismatch")
      ∧ (NewAdapter (tableConn [] vendorNotStringProperties []) "/net/connman/iwd/0" []).1
          = .error (.store "dbus.Store: type mismatch"))
    ∧ ((NewNetwork (tableConn [] homeProperties []) "/net/connman/iwd/0/4/Home" []).1
          = .ok homeNetwork
      ∧ (NewKnownNetwork (tableConn [] danglingKnownProperties [])
          "/net/connman/iwd/known/gone" []).1 = .error (.remote "no such property")
      ∧ (NewNetwork (tableConn [] danglingKnownProperties []) "/net/connman/iwd/0/4/Home" []).1
          = .error (.remote "no such property")) :=
  ⟨⟨rfl, rfl, rfl⟩, rfl, rfl, rfl⟩

/-- C20, amended. Only the failed fetch of an optional property is absorbed. When the fetch
succeeds and the value cannot be decoded, the constructor returns the decoding error and no
entity, and that fetch is the last request it sends (`StoreIsFatal`), unless construction
has failed before already: so for Model and Vendor of an `Adapter`, for Name, Frequency,
PairwiseCiphers and GroupCipher of an `AccessPoint`, for LastConnectedTime of a
`KnownNetwork`, and for KnownNetwork and ExtendedServiceSet of a `Network`. When the
KnownNetwork of a `Network` is decoded and `NewKnownNetwork` fails for it, or its
ExtendedServiceSet is decoded and `NewBasicServiceSet` fails for one of its members,
`NewNetwork` returns that error and no network. -/
theorem optional_decode_failure_is_fatal (conn : Conn) (path : ObjectPath) (t : Trace) :
    (StoreIsFatal conn conn.storeString (NewAdapter conn path t)
        (afterFetches t path [adapterPropertyName]) path adapterPropertyModel
      ∧ StoreIsFatal conn conn.storeString (NewAdapter conn path t)
        (afterFetches t path [adapterPropertyName, adapterPropertyModel])
        path adapterPropertyVendor)
    ∧ (StoreIsFatal conn conn.storeString (NewAccessPoint conn path t)
        (afterFetches t path [accessPointPropertyStarted]) path accessPointPropertyName
      ∧ StoreIsFatal conn conn.storeUint32 (NewAccessPoint conn path t)
        (afterFetches t path [accessPointPropertyStarted, accessPointPropertyName])
        path accessPointPropertyFrequency
      ∧ StoreIsFatal conn conn.storeStrings (NewAccessPoint conn path t)
        (afterFetches t path [accessPointPropertyStarted, accessPointPropertyName,
          accessPointPropertyFrequency])
        path accessPointPropertyPairwiseCiphers
      ∧ StoreIsFatal conn conn.storeString (NewAccessPoint conn path t)
        (afterFetches t path [accessPointPropertyStarted, accessPointPropertyName,
          accessPointPropertyFrequency, accessPointPropertyPairwiseCiphers])
        path accessPointPropertyGroupCipher)
    ∧ StoreIsFatal conn conn.storeString (NewKnownNetwork conn path t)
        (afterFetches t path [knownNetworkPropertyName, knownNetworkPropertyType,
          knownNetworkPropertyHidden])
        path knownNetworkPropertyLastConnectedTime
    ∧ (∀ devicePath,
        Obtained conn conn.storeObjectPath
          (afterFetches t path [networkPropertyName, networkPropertyConnected])
          path networkPropertyDevice devicePath →
        let t4 := (NewDevice conn devicePath
          (afterFetches t path [networkPropertyName, networkPropertyConnected,
            networkPropertyDevice])).2
        let t5 := afterFetches t4 path [networkPropertyType]
        let t6 := (newNetworkKnownNetwork conn path t5).2
        StoreIsFatal conn conn.storeObjectPath (NewNetwork conn path t) t5 path
            networkPropertyKnownNetwork
          ∧ (∀ knownPath err,
            Obtained conn conn.storeObjectPath t5 path networkPropertyKnownNetwork knownPath →
            (NewKnownNetwork conn knownPath
              (afterFetches t5 path [networkPropertyKnownNetwork])).1 = .error err →
            (NewNetwork conn path t).1 = .error err
              ∨ ∃ e, (NewNetwork conn path t).1 = .error e ∧ (NewNetwork conn path t).2 <+: t5)
          ∧ StoreIsFatal conn conn.storeObjectPaths (NewNetwork conn path t) t6 path
            networkPropertyExtendedServiceSet
          ∧ (∀ paths err,
            Obtained conn conn.storeObjectPaths t6 path networkPropertyExtendedServiceSet paths →
            (newExtendedServiceSet conn paths []
              (afterFetches t6 path [networkPropertyExtendedServiceSet])).1 = .error err →
            (NewNetwork conn path t).1 = .error err
              ∨ ∃ e, (NewNetwork conn path t).1 = .error e ∧ (NewNetwork conn path t).2 <+: t6))
    := by
  simp only [StoreIsFatal, Obtained, afterFetches]
  refine ⟨⟨?_, ?_⟩, ⟨?_, ?_, ?_, ?_⟩, ?_, ?_⟩
  · intro variant err h1 h2
    unfold FailsAt NewAdapter optionalString
    dsimp only
    repeat' split
    all_goals first
      | (left; simp_all; done)
      | (right; simp)
  · intro variant err h1 h2
    unfold FailsAt NewAdapter optionalString
    dsimp only
    repeat' split
    all_goals first
      | (left; simp_all; done)
      | (right; simp)
  · intro variant err h1 h2
    unfold FailsAt NewAccessPoint optionalProperty
    dsimp only
    repeat' split
    all_goals first
      | (left; simp_all; done)
      | (right; simp)
  · intro variant err h1 h2
    unfold FailsAt NewAccessPoint optionalProperty
    dsimp only
    repeat' split
    all_goals first
      | (left; simp_all; done)
      | (right; simp)
  · intro variant err h1 h2
    unfold FailsAt NewAccessPoint optionalProperty
    dsimp only
    repeat' split
    all_goals first
      | (left; simp_all; done)
      | (right; simp)
  · intro variant err h1 h2
    unfold FailsAt NewAccessPoint optionalProperty
    dsimp only
    repeat' split
    all_goals first
      | (left; simp_all; done)
      | (right; simp)
  · intro variant err h1 h2
    unfold FailsAt NewKnownNetwork optionalString
    dsimp only
    repeat' split
    all_goals first
      | (left; simp_all; done)
      | (right; simp)
  · rintro devicePath ⟨v1, h1, h2⟩
    refine ⟨?_, ?_, ?_, ?_⟩
    · intro variant err h3 h4
      unfold FailsAt NewNetwork
      simp only [h1, h2]
      unfold newNetworkKnownNetwork
      simp only [h3, h4]
      repeat' split
      all_goals first
        | (left; simp_all; done)
        | (right; simp; done)
        | (right; refine ⟨_, rfl, prefix_after_NewDevice _ _ _ _ _ ?_⟩; simp)
    · rintro knownPath err ⟨v2, h3, h4⟩ h5
      unfold NewNetwork
      simp only [h1, h2]
      unfold newNetworkKnownNetwork
      simp only [h3, h4, h5]
      repeat' split
      all_goals first
        | (left; simp_all; done)
        | (right; simp; done)
        | (right; refine ⟨_, rfl, prefix_after_NewDevice _ _ _ _ _ ?_⟩; simp)
    · intro variant err h3 h4
      unfold FailsAt NewNetwork
      simp only [h1, h2]
      unfold newNetworkExtendedServiceSet
      simp only [h3, h4]
      repeat' split
      all_goals first
        | (left; simp_all; done)
        | (right; simp; done)
        | (right; refine ⟨_, rfl, prefix_after_newNetworkKnownNetwork _ _ _ _ ?_⟩; simp; done)
        | (right; refine ⟨_, rfl, prefix_after_newNetworkKnownNetwork _ _ _ _
            (prefix_after_NewDevice _ _ _ _ _ ?_)⟩; simp)
    · rintro paths err ⟨v2, h3, h4⟩ h5
      unfold NewNetwork
      simp only [h1, h2]
      unfold newNetworkExtendedServiceSet
      simp only [h3, h4, h5]
      repeat' split
      all_goals first
        | (left; simp_all; done)
        | (right; simp; done)
        | (right; refine ⟨_, rfl, prefix_after_newNetworkKnownNetwork _ _ _ _ ?_⟩; simp; done)
        | (right; refine ⟨_, rfl, prefix_after_newNetworkKnownNetwork _ _ _ _
            (prefix_after_NewDevice _ _ _ _ _ ?_)⟩; simp)

/-- C20, an instance of the amended statement: the Vendor of the adapter of
`vendorNotStringProperties` is fetched and is not a string; `NewAdapter` fails at that fetch
with the decoding error. -/
theorem optional_decode_failure_is_fatal_witness :
    (tableConn [] vendorNotStringProperties []).GetProperty
        (afterFetches [] "/net/connman/iwd/0" [adapterPropertyName, adapterPropertyModel])
        "/net/connman/iwd/0" adapterPropertyVendor = .ok (.bool true)
      ∧ (tableConn [] vendorNotStringProperties []).storeString (.bool true)
          = .error (.store "dbus.Store: type mismatch")
      ∧ FailsAt (NewAdapter (tableConn [] vendorNotStringProperties []) "/net/connman/iwd/0" [])
          (afterFetches [] "/net/connman/iwd/0" [adapterPropertyName, adapterPropertyModel])
          (Event.getProperty "/net/connman/iwd/0" adapterPropertyVendor)
          (.store "dbus.Store: type mismatch") :=
  ⟨rfl, rfl, (optional_decode_failure_is_fatal (tableConn [] vendorNotStringProperties [])
    "/net/connman/iwd/0" []).1.2 (.bool true) (.store "dbus.Store: type mismatch") rfl rfl⟩

/-! ## Log level -/

/-- C30. `SetLogLevel` and `GetLogLevel` are inverse on the seven levels: for every `l` from
`LogLevelTrace` to `LogLevelPanic`, `GetLogLevel()` after `SetLogLevel(l)` returns `l`,
whatever the level was before; for every other value `SetLogLevel` leaves the level of the
logger as it was. -/
theorem setLogLevel_getLogLevel (level : LogLevel) (current : logrus.Level) :
    (LogLevelTrace ≤ level ∧ level ≤ LogLevelPanic →
        GetLogLevel (SetLogLevel level current) = level)
      ∧ (LogLevelPanic < level → SetLogLevel level current = current) := by
  constructor
  · rintro ⟨_, h⟩
    have h6 : level ≤ 6 := h
    interval_cases level <;> rfl
  · intro h
    have h6 : 6 < level := h
    obtain ⟨n, rfl⟩ : ∃ n : Nat, level = n + 7 :=
      ⟨level - 7, (Nat.sub_add_cancel (show 7 ≤ level from h6)).symm⟩
    simp [SetLogLevel, LogLevelTrace, LogLevelDebug, LogLevelInfo, LogLevelWarning,
      LogLevelError, LogLevelFatal, LogLevelPanic]

theorem setLogLevel_getLogLevel_witness :
    GetLogLevel (SetLogLevel LogLevelWarning logrus.InfoLevel) = LogLevelWarning
      ∧ SetLogLevel 7 logrus.DebugLevel = logrus.DebugLevel :=
  ⟨(setLogLevel_getLogLevel LogLevelWarning logrus.InfoLevel).1 ⟨by decide, by decide⟩,
    (setLogLevel_getLogLevel 7 logrus.DebugLevel).2 (by decide)⟩

/-! ## Validation, arguments, malformed replies -/

/-- C29. The validation of `Device.SetMode` reads the fixed list of
`Device.GetSupportedModes` only: for every device, a mode of that list is sent to the bus as a
property-set, also when the supported modes of the device's adapter do not contain it; and a
mode outside the list is refused also when the adapter supports it. -/
theorem setMode_ignores_adapter_modes (conn : Conn) (d : Device) (mode : String) (t : Trace) :
    d.GetSupportedModes = ["ad-hoc", "station", "ap"]
      ∧ (mode ∈ ["ad-hoc", "station", "ap"] → mode ∉ d.GetAdapter.GetSupportedModes →
        (d.SetMode conn mode t).2
          = t ++ [Event.setProperty d.path devicePropertyMode (Variant.string mode)])
      ∧ (mode ∉ ["ad-hoc", "station", "ap"] → mode ∈ d.GetAdapter.GetSupportedModes →
        (d.SetMode conn mode t).2 = t ∧ (d.SetMode conn mode t).1.1.isSome = true) := by
  refine ⟨rfl, ?_, ?_⟩
  · intro h _
    unfold Device.SetMode
    simp only [Device.GetSupportedModes, h, not_true_eq_false, if_false]
    split <;> rfl
  · intro h _
    unfold Device.SetMode
    simp [Device.GetSupportedModes, h]

theorem setMode_ignores_adapter_modes_witness :
    "ap" ∉ stationOnlyDevice.GetAdapter.GetSupportedModes
      ∧ (stationOnlyDevice.SetMode (sampleConn [] "") "ap" []).2
        = [Event.setProperty "/net/connman/iwd/0/4" devicePropertyMode (Variant.string "ap")] :=
  ⟨by decide, (setMode_ignores_adapter_modes (sampleConn [] "") stationOnlyDevice "ap" []).2.1
    (by decide) (by decide)⟩

/-- C27. `AccessPoint.StartProfile(ssid)` and `AdHoc.StartOpen(ssid)` send their method call
without any argument, whatever `ssid` is, while `AccessPoint.Start(ssid, psk)`,
`AdHoc.Start(ssid, psk)` and `Station.ConnectHiddenNetwork(ssid)` send their arguments. -/
theorem startProfile_drops_ssid (conn : Conn) (ap : AccessPoint) (ah : AdHoc) (s : Station)
    (ssid psk : String) (t : Trace) :
    (ap.StartProfile conn ssid t).2 = t ++ [Event.call ap.path accessPointMethodStartProfile []]
      ∧ (ah.StartOpen conn ssid t).2 = t ++ [Event.call ah.path adhocMethodStartOpen []]
      ∧ (ap.Start conn ssid psk t).2 = t ++ [Event.call ap.path accessPointMethodStart
          [Variant.string ssid, Variant.string psk]]
      ∧ (ah.Start conn ssid psk t).2 = t ++ [Event.call ah.path adhocMethodStart
          [Variant.string ssid, Variant.string psk]]
      ∧ (s.ConnectHiddenNetwork conn ssid t).2
          = t ++ [Event.call s.path stationMethodConnectHiddenNetwork [Variant.string ssid]] := by
  refine ⟨?_, ?_, ?_, ?_, ?_⟩
  · unfold AccessPoint.StartProfile
    dsimp only
    split <;> rfl
  · unfold AdHoc.StartOpen
    dsimp only
    split <;> rfl
  · unfold AccessPoint.Start
    dsimp only
    split <;> rfl
  · unfold AdHoc.Start
    dsimp only
    split <;> rfl
  · unfold Station.ConnectHiddenNetwork
    dsimp only
    split <;> rfl

/-- C24. A station whose `GetOrderedNetworks` reply has an entry with one field only, or an
entry whose second field is not a signed 16-bit integer: `Station.GetOrderedNetworks` panics
(index out of range, failed type assertion), and so does `ScanForNetworks`. -/
theorem malformed_entry_panics :
    (Station.GetOrderedNetworks (tableConn oneStation homeProperties replyWithShortEntry)
        { path := "/net/connman/iwd/0/4" } []).1 = .panic
      ∧ (Station.GetOrderedNetworks (tableConn oneStation homeProperties replyWithStringSignal)
        { path := "/net/connman/iwd/0/4" } []).1 = .panic
      ∧ (ScanForNetworks (tableConn oneStation homeProperties replyWithShortEntry) 0 []).1
        = .panic := by
  refine ⟨by decide, by decide, by decide⟩

/-! ## Constructors without optional properties -/

/-- C21, counterexample. A basic service set whose Address is fetched and is not a string:
the fetch of the one required property succeeds and `NewBasicServiceSet` returns the decoding
error and no entity. -/
theorem fetch_succeeds_construction_fails :
    (tableConn [] addressNotStringProperties []).GetProperty [] "/net/connman/iwd/0/4/bss0"
        basicServiceSetPropertyAddress = .ok (.bool true)
      ∧ (NewBasicServiceSet (tableConn [] addressNotStringProperties [])
          "/net/connman/iwd/0/4/bss0" []).1 = .error (.store "dbus.Store: type mismatch") :=
  ⟨rfl, rfl⟩

/-- C21, amended. `NewBasicServiceSet` and `NewAdHoc` return an entity exactly when the one
required property (Address, Started) is obtained, that is fetched and decoded; the entity
they return then holds the path and the decoded value, so it is never partially populated;
in every other case they return an error and no entity. -/
theorem construction_iff_required_obtained (conn : Conn) (path : ObjectPath) (t : Trace) :
    (∀ bss : BasicServiceSet, (NewBasicServiceSet conn path t).1 = .ok bss ↔
        bss.path = path
          ∧ Obtained conn conn.storeString t path basicServiceSetPropertyAddress bss.address)
      ∧ (∀ ah : AdHoc, (NewAdHoc conn path t).1 = .ok ah ↔
        ah.path = path ∧ Obtained conn conn.storeBool t path adhocPropertyStarted ah.started)
      ∧ ((∃ bss, (NewBasicServiceSet conn path t).1 = .ok bss)
        ∨ ∃ err, (NewBasicServiceSet conn path t).1 = .error err)
      ∧ ((∃ ah, (NewAdHoc conn path t).1 = .ok ah)
        ∨ ∃ err, (NewAdHoc conn path t).1 = .error err) := by
  refine ⟨?_, ?_, ?_, ?_⟩
  · intro bss
    unfold NewBasicServiceSet Obtained
    dsimp only
    cases h1 : conn.GetProperty t path basicServiceSetPropertyAddress with
    | error err => simp
    | ok variant =>
      cases h2 : conn.storeString variant with
      | error err => simp [h2]
      | ok address =>
        cases bss
        simp [h2]
        tauto
  · intro ah
    unfold NewAdHoc Obtained
    dsimp only
    cases h1 : conn.GetProperty t path adhocPropertyStarted with
    | error err => simp
    | ok variant =>
      cases h2 : conn.storeBool variant with
      | error err => simp [h2]
      | ok started =>
        cases ah
        simp [h2]
        tauto
  · cases h : (NewBasicServiceSet conn path t).1 with
    | error err => exact Or.inr ⟨err, rfl⟩
    | ok bss => exact Or.inl ⟨bss, rfl⟩
  · cases h : (NewAdHoc conn path t).1 with
    | error err => exact Or.inr ⟨err, rfl⟩
    | ok ah => exact Or.inl ⟨ah, rfl⟩

/-! ## The ranking step as a rearrangement -/

namespace GoSort

variable {α : Type} [Inhabited α]

theorem insertLoop_never (a j : Nat) (data : List α) :
    insertLoop (fun _ _ => false) a j data = data := by
  cases j <;> simp [insertLoop]

theorem insertionSort_never (data : List α) (a b : Nat) :
    insertionSort (fun _ _ => false) data a b = data := by
  unfold insertionSort
  generalize List.range' (a + 1) (b - (a + 1)) = l
  induction l generalizing data with
  | nil => rfl
  | cons i l ih => simp [List.foldl_cons, insertLoop_never, ih]

theorem searchLoop_const_false (fuel i j : Nat) : searchLoop (fun _ => false) fuel i j = i := by
  induction fuel generalizing j with
  | zero => rfl
  | succ fuel ih =>
    unfold searchLoop
    split
    · simp [ih]
    · rfl

theorem searchLoop_const_true (fuel i j : Nat) (h : j - i ≤ fuel) :
    j ≤ searchLoop (fun _ => true) fuel i j := by
  induction fuel generalizing i with
  | zero =>
    unfold searchLoop
    omega
  | succ fuel ih =>
    unfold searchLoop
    split
    · simp only [if_true]
      apply ih
      omega
    · omega

theorem shiftDown_of_le (i k : Nat) (data : List α) (h : k ≤ i) : shiftDown i k data = data := by
  cases k with
  | zero => rfl
  | succ k =>
    unfold shiftDown
    rw [if_neg (by omega)]

theorem symMerge_never (fuel : Nat) (data : List α) (a m b : Nat) :
    symMerge (fun _ _ => false) fuel data a m b = data := by
  induction fuel generalizing data a m b with
  | zero => rfl
  | succ fuel ih =>
    unfold symMerge
    split
    · rename_i h1
      simp only [searchLoop_const_false]
      exact shiftUp_self data a (m - 1) (by omega)
    · split
      · simp only [Bool.not_false]
        exact shiftDown_of_le _ _ _ (searchLoop_const_true _ _ _ (le_refl _))
      · simp only [Bool.not_false]
        have hs := searchLoop_const_true
          ((if m > (a + b) / 2 then (a + b) / 2 else m)
            - (if m > (a + b) / 2 then (a + b) / 2 + m - b else a))
          (if m > (a + b) / 2 then (a + b) / 2 + m - b else a)
          (if m > (a + b) / 2 then (a + b) / 2 else m) (le_refl _)
        generalize searchLoop (fun _ => true)
          ((if m > (a + b) / 2 then (a + b) / 2 else m)
            - (if m > (a + b) / 2 then (a + b) / 2 + m - b else a))
          (if m > (a + b) / 2 then (a + b) / 2 + m - b else a)
          (if m > (a + b) / 2 then (a + b) / 2 else m) = start at hs ⊢
        have h1 : ¬ (start < m ∧ m < (a + b) / 2 + m - start) := by
          split at hs <;> omega
        rw [if_neg h1]
        split <;> split <;> simp only [ih]

theorem insertionPass_never (blockSize n : Nat) (fuel a : Nat) (data : List α) :
    insertionPass (fun _ _ => false) blockSize n fuel a data = data := by
  induction fuel generalizing a data with
  | zero => simp [insertionPass, insertionSort_never]
  | succ fuel ih =>
    unfold insertionPass
    split
    · rw [insertionSort_never, ih]
    · rw [insertionSort_never]

theorem mergePass_never (blockSize n : Nat) (fuel a : Nat) (data : List α) :
    mergePass (fun _ _ => false) blockSize n fuel a data = data := by
  induction fuel generalizing a data with
  | zero => rfl
  | succ fuel ih =>
    unfold mergePass
    split
    · rw [symMerge_never, ih]
    · split
      · rw [symMerge_never]
      · rfl

theorem mergeLoop_never (n : Nat) (fuel blockSize : Nat) (data : List α) :
    mergeLoop (fun _ _ => false) n fuel blockSize data = data := by
  induction fuel generalizing blockSize data with
  | zero => rfl
  | succ fuel ih =>
    unfold mergeLoop
    split
    · rw [mergePass_never, ih]
    · rfl

theorem SliceStable_never (x : List α) : SliceStable (fun _ _ => false) x = x := by
  unfold SliceStable stable
  rw [insertionPass_never, mergeLoop_never]

end GoSort

/-- C26. The first sort pass of `ScanForNetworks`, `sort.SliceStable` with the name
comparison that reads `orderedNetworks[i]` for both names, returns every sequence
unchanged. -/
theorem name_pass_is_noop (orderedNetworks : List StationOrderedNetwork) :
    GoSort.SliceStable lessName orderedNetworks = orderedNetworks := by
  have h : lessName = fun _ _ => false := by
    funext x y
    exact lessName_eq_false x y
  rw [h, GoSort.SliceStable_never]

namespace GoSort

variable {α : Type} [Inhabited α]

theorem elemAt_eq_getElem (data : List α) (i : Nat) (h : i < data.length) :
    elemAt data i = data[i] := by
  simp [elemAt, List.getD, List.getElem?_eq_getElem h]

theorem PermWithin.perm {a b : Nat} {data data' : List α} (h : PermWithin a b data data')
    (hb : b ≤ data.length) : data'.Perm data := by
  obtain ⟨hlen, σ, hfix, hel⟩ := h
  have hmem : ∀ x, x < data.length ↔ σ x < data.length := by
    intro x
    constructor
    · intro hx
      by_contra hc
      have h1 : σ (σ x) = σ x := hfix (σ x) (Or.inr (by omega))
      have h2 : σ x = x := σ.injective h1
      omega
    · intro hx
      by_contra hc
      have h1 : σ x = x := hfix x (Or.inr (by omega))
      omega
  let τ : Equiv.Perm (Fin data.length) :=
    Fin.equivSubtype.trans ((σ.subtypePerm hmem).trans Fin.equivSubtype.symm)
  have hτ : ∀ i : Fin data.length, (τ i : Nat) = σ i := fun i => rfl
  have e : data' = List.ofFn ((fun i : Fin data.length => data[(i : Nat)]) ∘ τ) := by
    apply List.ext_getElem
    · simp [hlen]
    · intro i h1 h2
      have hi : i < data.length := by omega
      have h3 := hel i
      rw [elemAt_eq_getElem data' i h1,
        elemAt_eq_getElem data (σ i) ((hmem i).1 hi)] at h3
      simp only [List.getElem_ofFn, Function.comp_apply]
      rw [h3]
      congr 1
  rw [e]
  have := τ.ofFn_comp_perm (fun i : Fin data.length => data[(i : Nat)])
  rwa [List.ofFn_getElem] at this

theorem perm_SliceStable (less : α → α → Bool) (x : List α) : (SliceStable less x).Perm x :=
  (permWithin_stable less x x.length (le_refl _)).perm (le_refl _)

end GoSort

/-- C28. The sequence returned by the ranking step of `ScanForNetworks` is a permutation of
the sequence it is given, the concatenation of the stations' lists: no entry is dropped or
duplicated, and the length is the same. -/
theorem rank_is_permutation (orderedNetworks : List StationOrderedNetwork) :
    (rank orderedNetworks).Perm orderedNetworks
      ∧ (rank orderedNetworks).length = orderedNetworks.length := by
  have h : (rank orderedNetworks).Perm orderedNetworks := by
    unfold rank
    exact ((GoSort.perm_SliceStable lessConnected _).trans
      ((GoSort.perm_SliceStable lessKnown _).trans
        ((GoSort.perm_SliceStable lessSignal _).trans
          (GoSort.perm_SliceStable lessName _))))
  exact ⟨h, h.length_eq⟩

/-! ## Lookups by name -/

theorem adapterByNameLoop_name (conn : Conn) (name : String) (a : Adapter) :
    ∀ (pairs : List (ObjectPath × String)) (t : Trace),
      (adapterByNameLoop conn name pairs t).1 = .ok a → a.GetName = name := by
  intro pairs
  induction pairs with
  | nil => intro t h; simp [adapterByNameLoop] at h
  | cons p rest ih =>
    obtain ⟨k, resource⟩ := p
    intro t h
    unfold adapterByNameLoop at h
    split at h
    · split at h
      · simp at h
      · split at h
        · rename_i hn
          simp only [Except.ok.injEq] at h
          rw [← h]
          exact hn
        · exact ih _ h
    · exact ih _ h

theorem deviceByNameLoop_name (conn : Conn) (name : String) (d : Device) :
    ∀ (pairs : List (ObjectPath × String)) (t : Trace),
      (deviceByNameLoop conn name pairs t).1 = .ok d → d.GetName = name := by
  intro pairs
  induction pairs with
  | nil => intro t h; simp [deviceByNameLoop] at h
  | cons p rest ih =>
    obtain ⟨k, resource⟩ := p
    intro t h
    unfold deviceByNameLoop at h
    split at h
    · split at h
      · simp at h
      · split at h
        · rename_i hn
          simp only [Except.ok.injEq] at h
          rw [← h]
          exact hn
        · exact ih _ h
    · exact ih _ h

theorem knownNetworkByNameLoop_name (conn : Conn) (name : String) (kn : KnownNetwork) :
    ∀ (pairs : List (ObjectPath × String)) (t : Trace),
      (knownNetworkByNameLoop conn name pairs t).1 = .ok kn → kn.GetName = .ok name := by
  intro pairs
  induction pairs with
  | nil => intro t h; simp [knownNetworkByNameLoop] at h
  | cons p rest ih =>
    obtain ⟨k, resource⟩ := p
    intro t h
    unfold knownNetworkByNameLoop at h
    split at h
    · split at h
      · simp at h
      · split at h
        · exact ih _ h
        · split at h
          · rename_i hg hn
            simp only [Except.ok.injEq] at h
            rw [← h, hg, hn]
          · exact ih _ h
    · exact ih _ h

theorem adaptersLoop_extends (conn : Conn) :
    ∀ (pairs : List (ObjectPath × String)) (acc adapters : List Adapter) (t t' : Trace),
      adaptersLoop conn pairs acc t = (.ok adapters, t') → acc <+: adapters := by
  intro pairs
  induction pairs with
  | nil =>
    intro acc adapters t t' h
    simp only [adaptersLoop, Prod.mk.injEq, Except.ok.injEq] at h
    rw [h.1]
  | cons p rest ih =>
    obtain ⟨k, resource⟩ := p
    intro acc adapters t t' h
    unfold adaptersLoop at h
    split at h
    · split at h
      · simp at h
      · exact (List.prefix_append _ _).trans (ih _ _ _ _ h)
    · exact ih _ _ _ _ h

theorem adapterByNameLoop_not_found (conn : Conn) (name : String) :
    ∀ (pairs : List (ObjectPath × String)) (acc adapters : List Adapter) (t t' : Trace),
      adaptersLoop conn pairs acc t = (.ok adapters, t') →
      (∀ a ∈ adapters, a.GetName ≠ name) →
      adapterByNameLoop conn name pairs t
        = (.error (.errorf ("could not find Adapter with name " ++ name)), t') := by
  intro pairs
  induction pairs with
  | nil =>
    intro acc adapters t t' h _
    simp only [adaptersLoop, Prod.mk.injEq] at h
    simp [adapterByNameLoop, h.2]
  | cons p rest ih =>
    obtain ⟨k, resource⟩ := p
    intro acc adapters t t' h hne
    unfold adaptersLoop at h
    unfold adapterByNameLoop
    split at h
    · rename_i hr
      rw [if_pos hr]
      split at h
      · simp at h
      · rename_i adapter hc
        have hmem : adapter ∈ adapters :=
          (adaptersLoop_extends conn _ _ _ _ _ h).subset (by simp)
        rw [if_neg (hne adapter hmem)]
        exact ih _ _ _ _ h hne
    · rename_i hr
      rw [if_neg hr]
      exact ih _ _ _ _ h hne

theorem devicesLoop_extends (conn : Conn) :
    ∀ (pairs : List (ObjectPath × String)) (acc devices : List Device) (t t' : Trace),
      devicesLoop conn pairs acc t = (.ok devices, t') → acc <+: devices := by
  intro pairs
  induction pairs with
  | nil =>
    intro acc devices t t' h
    simp only [devicesLoop, Prod.mk.injEq, Except.ok.injEq] at h
    rw [h.1]
  | cons p rest ih =>
    obtain ⟨k, resource⟩ := p
    intro acc devices t t' h
    unfold devicesLoop at h
    split at h
    · split at h
      · simp at h
      · exact (List.prefix_append _ _).trans (ih _ _ _ _ h)
    · exact ih _ _ _ _ h

theorem deviceByNameLoop_not_found (conn : Conn) (name : String) :
    ∀ (pairs : List (ObjectPath × String)) (acc devices : List Device) (t t' : Trace),
      devicesLoop conn pairs acc t = (.ok devices, t') →
      (∀ d ∈ devices, d.GetName ≠ name) →
      deviceByNameLoop conn name pairs t
        = (.error (.errorf ("could not find Device with name " ++ name)), t') := by
  intro pairs
  induction pairs with
  | nil =>
    intro acc devices t t' h _
    simp only [devicesLoop, Prod.mk.injEq] at h
    simp [deviceByNameLoop, h.2]
  | cons p rest ih =>
    obtain ⟨k, resource⟩ := p
    intro acc devices t t' h hne
    unfold devicesLoop at h
    unfold deviceByNameLoop
    split at h
    · rename_i hr
      rw [if_pos hr]
      split at h
      · simp at h
      · rename_i device hc
        have hmem : device ∈ devices :=
          (devicesLoop_extends conn _ _ _ _ _ h).subset (by simp)
        rw [if_neg (hne device hmem)]
        exact ih _ _ _ _ h hne
    · rename_i hr
      rw [if_neg hr]
      exact ih _ _ _ _ h hne

theorem knownNetworksLoop_extends (conn : Conn) :
    ∀ (pairs : List (ObjectPath × String)) (acc knownNetworks : List KnownNetwork)
      (t t' : Trace),
      knownNetworksLoop conn pairs acc t = (.ok knownNetworks, t') → acc <+: knownNetworks := by
  intro pairs
  induction pairs with
  | nil =>
    intro acc knownNetworks t t' h
    simp only [knownNetworksLoop, Prod.mk.injEq, Except.ok.injEq] at h
    rw [h.1]
  | cons p rest ih =>
    obtain ⟨k, resource⟩ := p
    intro acc knownNetworks t t' h
    unfold knownNetworksLoop at h
    split at h
    · split at h
      · simp at h
      · exact (List.prefix_append _ _).trans (ih _ _ _ _ h)
    · exact ih _ _ _ _ h

theorem knownNetworkByNameLoop_not_found (conn : Conn) (name : String) :
    ∀ (pairs : List (ObjectPath × String)) (acc knownNetworks : List KnownNetwork)
      (t t' : Trace),
      knownNetworksLoop conn pairs acc t = (.ok knownNetworks, t') →
      (∀ kn ∈ knownNetworks, kn.GetName ≠ .ok name) →
      knownNetworkByNameLoop conn name pairs t
        = (.error (.errorf ("could not find KnownNetwork with name " ++ name)), t') := by
  intro pairs
  induction pairs with
  | nil =>
    intro acc knownNetworks t t' h _
    simp only [knownNetworksLoop, Prod.mk.injEq] at h
    simp [knownNetworkByNameLoop, h.2]
  | cons p rest ih =>
    obtain ⟨k, resource⟩ := p
    intro acc knownNetworks t t' h hne
    unfold knownNetworksLoop at h
    unfold knownNetworkByNameLoop
    split at h
    · rename_i hr
      rw [if_pos hr]
      split at h
      · simp at h
      · rename_i knownNetwork hc
        have hmem : knownNetwork ∈ knownNetworks :=
          (knownNetworksLoop_extends conn _ _ _ _ _ h).subset (by simp)
        have hn := hne knownNetwork hmem
        split
        · exact ih _ _ _ _ h hne
        · rename_i knName hg
          have : knName ≠ name := by
            intro he
            rw [hg, he] at hn
            exact hn rfl
          rw [if_neg this]
          exact ih _ _ _ _ h hne
    · rename_i hr
      rw [if_neg hr]
      exact ih _ _ _ _ h hne

/-- C25. Whenever `GetAdapterByName`, `GetDeviceByName` or `GetKnownNetworkByName` returns an
entity, the name of that entity is the requested name. Whenever every entity of the kind in
the enumeration is constructed successfully (`GetAdapters`, `GetDevices`, `GetKnownNetworks`
return the list of them on the same bus) and none of them has the requested name, the lookup
returns the not-found error and no entity, after the same requests. -/
theorem lookup_by_name (conn : Conn) (name : String) (t : Trace) :
    ((∀ a, (GetAdapterByName conn name t).1 = .ok a → a.GetName = name)
      ∧ (∀ d, (GetDeviceByName conn name t).1 = .ok d → d.GetName = name)
      ∧ (∀ kn, (GetKnownNetworkByName conn name t).1 = .ok kn → kn.GetName = .ok name))
    ∧ ((∀ adapters t', GetAdapters conn t = (.ok adapters, t') →
          (∀ a ∈ adapters, a.GetName ≠ name) →
          GetAdapterByName conn name t
            = (.error (.errorf ("could not find Adapter with name " ++ name)), t'))
      ∧ (∀ devices t', GetDevices conn t = (.ok devices, t') →
          (∀ d ∈ devices, d.GetName ≠ name) →
          GetDeviceByName conn name t
            = (.error (.errorf ("could not find Device with name " ++ name)), t'))
      ∧ (∀ knownNetworks t', GetKnownNetworks conn t = (.ok knownNetworks, t') →
          (∀ kn ∈ knownNetworks, kn.GetName ≠ .ok name) →
          GetKnownNetworkByName conn name t
            = (.error (.errorf ("could not find KnownNetwork with name " ++ name)), t'))) := by
  refine ⟨⟨?_, ?_, ?_⟩, ?_, ?_, ?_⟩
  · intro a h
    unfold GetAdapterByName at h
    dsimp only at h
    split at h
    · simp at h
    · exact adapterByNameLoop_name conn name a _ _ h
  · intro d h
    unfold GetDeviceByName at h
    dsimp only at h
    split at h
    · simp at h
    · exact deviceByNameLoop_name conn name d _ _ h
  · intro kn h
    unfold GetKnownNetworkByName at h
    dsimp only at h
    split at h
    · simp at h
    · exact knownNetworkByNameLoop_name conn name kn _ _ h
  · intro adapters t' h hne
    unfold GetAdapters at h
    unfold GetAdapterByName
    dsimp only at h ⊢
    split at h
    · simp at h
    · rename_i objects hm
      exact adapterByNameLoop_not_found conn name _ _ _ _ _ h hne
  · intro devices t' h hne
    unfold GetDevices at h
    unfold GetDeviceByName
    dsimp only at h ⊢
    split at h
    · simp at h
    · rename_i objects hm
      exact deviceByNameLoop_not_found conn name _ _ _ _ _ h hne
  · intro knownNetworks t' h hne
    unfold GetKnownNetworks at h
    unfold GetKnownNetworkByName
    dsimp only at h ⊢
    split at h
    · simp at h
    · rename_i objects hm
      exact knownNetworkByNameLoop_not_found conn name _ _ _ _ _ h hne

theorem lookup_by_name_witness :
    (GetAdapterByName (tableConn oneStation homeProperties []) "phy0" []).1 = .ok sampleAdapter
      ∧ sampleAdapter.GetName = "phy0"
      ∧ (GetAdapters (tableConn oneStation homeProperties []) []).1 = .ok [sampleAdapter]
      ∧ (GetAdapterByName (tableConn oneStation homeProperties []) "phy1" []).1
        = .error (.errorf "could not find Adapter with name phy1") :=
  ⟨rfl, (lookup_by_name (tableConn oneStation homeProperties []) "phy0" []).1.1 sampleAdapter rfl,
    rfl,
    congrArg Prod.fst ((lookup_by_name (tableConn oneStation homeProperties []) "phy1" []).2.1
      [sampleAdapter] (GetAdapters (tableConn oneStation homeProperties []) []).2 rfl
      (by decide))⟩

/-! ## Nested snapshots -/

/-- C22. Nested snapshots are independent copies. For a caller that holds a device `d` and an
adapter `a`: after `x := d.GetAdapter()` and `x.SetPowered(powered)` the adapter `a` is what
it was, field by field, and so is the device with its embedded adapter; after
`a.SetPowered(powered)` the device, and with it its embedded adapter, is what it was. This
holds whether the remote call succeeds or fails, and so also when `a` and the adapter of `d`
are snapshots of the same object path. -/
theorem nested_snapshots_independent (conn : Conn) (h : Snapshots) (d a : Nat)
    (powered : Bool) (t : Trace) (hd : d < h.devices.length) (ha : a < h.adapters.length) :
    (∃ h1 x r, h.getAdapter d = some (h1, x) ∧ h1.setPowered conn x powered t = some r
        ∧ r.1.2.adapters[a]? = h.adapters[a]?
        ∧ r.1.2.devices = h.devices
        ∧ (r.1.1 = none → (r.1.2.adapters[x]?.map Adapter.GetPowered) = some powered))
      ∧ (∃ r, h.setPowered conn a powered t = some r
        ∧ r.1.2.devices = h.devices
        ∧ (r.1.2.devices[d]?.map Device.GetAdapter) = (h.devices[d]?.map Device.GetAdapter)
        ∧ (r.1.1 = none → (r.1.2.adapters[a]?.map Adapter.GetPowered) = some powered)) := by
  constructor
  · refine ⟨{ h with adapters := h.adapters ++ [(h.devices[d]).GetAdapter] },
      h.adapters.length, ?_⟩
    have e1 : h.getAdapter d = some ({ h with adapters := h.adapters ++
        [(h.devices[d]).GetAdapter] }, h.adapters.length) := by
      simp [Snapshots.getAdapter, List.getElem?_eq_getElem hd]
    simp only [Snapshots.setPowered, List.getElem?_concat_length, e1, true_and]
    refine ⟨_, rfl, ?_, rfl, ?_⟩
    · rw [List.getElem?_set_ne (by omega), List.getElem?_append_left ha]
    · intro hs
      simp only [List.getElem?_set_self (l := h.adapters ++ [(h.devices[d]).GetAdapter])
        (show h.adapters.length < (h.adapters ++ [(h.devices[d]).GetAdapter]).length by simp),
        Option.map_some']
      unfold Adapter.SetPowered at hs ⊢
      dsimp only at hs ⊢
      split at hs
      · simp at hs
      · rename_i hn
        simp [hn, Adapter.GetPowered]
  · have e2 : h.adapters[a]? = some (h.adapters[a]) := List.getElem?_eq_getElem ha
    simp only [Snapshots.setPowered, e2]
    refine ⟨_, rfl, rfl, rfl, ?_⟩
    intro hs
    simp only [List.getElem?_set_self ha, Option.map_some']
    unfold Adapter.SetPowered at hs ⊢
    dsimp only at hs ⊢
    split at hs
    · simp at hs
    · rename_i hn
      simp [hn, Adapter.GetPowered]

theorem nested_snapshots_independent_witness :
    (∃ h1 x r, sampleSnapshots.getAdapter 0 = some (h1, x)
        ∧ h1.setPowered (sampleConn [] "") x false [] = some r
        ∧ r.1.2.adapters[0]? = sampleSnapshots.adapters[0]?
        ∧ r.1.2.devices = sampleSnapshots.devices
        ∧ (r.1.1 = none → (r.1.2.adapters[x]?.map Adapter.GetPowered) = some false))
      ∧ (∃ r, sampleSnapshots.setPowered (sampleConn [] "") 0 false [] = some r
        ∧ r.1.2.devices = sampleSnapshots.devices
        ∧ (r.1.2.devices[0]?.map Device.GetAdapter)
          = (sampleSnapshots.devices[0]?.map Device.GetAdapter)
        ∧ (r.1.1 = none → (r.1.2.adapters[0]?.map Adapter.GetPowered) = some false)) :=
  nested_snapshots_independent (sampleConn [] "") sampleSnapshots 0 0 false [] (by decide)
    (by decide)

/-! ## Termination and nesting of the constructors -/

theorem length_NewAdapter (conn : Conn) (path : ObjectPath) (t : Trace) :
    (NewAdapter conn path t).2.length ≤ t.length + 5 := by
  unfold NewAdapter
  dsimp only
  repeat' split
  all_goals simp

theorem length_NewKnownNetwork (conn : Conn) (path : ObjectPath) (t : Trace) :
    (NewKnownNetwork conn path t).2.length ≤ t.length + 5 := by
  unfold NewKnownNetwork
  dsimp only
  repeat' split
  all_goals simp

theorem length_NewBasicServiceSet (conn : Conn) (path : ObjectPath) (t : Trace) :
    (NewBasicServiceSet conn path t).2.length = t.length + 1 := by
  unfold NewBasicServiceSet
  dsimp only
  repeat' split
  all_goals simp

theorem length_NewAccessPoint (conn : Conn) (path : ObjectPath) (t : Trace) :
    (NewAccessPoint conn path t).2.length ≤ t.length + 5 := by
  unfold NewAccessPoint
  dsimp only
  repeat' split
  all_goals simp

theorem length_NewAdHoc (conn : Conn) (path : ObjectPath) (t : Trace) :
    (NewAdHoc conn path t).2.length = t.length + 1 := by
  unfold NewAdHoc
  dsimp only
  repeat' split
  all_goals simp

theorem length_NewDevice (conn : Conn) (path : ObjectPath) (t : Trace) :
    (NewDevice conn path t).2.length ≤ t.length + 10 := by
  unfold NewDevice
  dsimp only
  repeat' split
  all_goals dsimp only
  all_goals first
    | (simp; done)
    | (refine le_trans (length_NewAdapter _ _ _) ?_; simp)
    | (simp only [List.length_append, List.length_singleton]
       refine le_trans (Nat.add_le_add_right (length_NewAdapter _ _ _) 1) ?_
       simp)

theorem length_newExtendedServiceSet (conn : Conn) :
    ∀ (paths : List ObjectPath) (ess : List BasicServiceSet) (t : Trace),
      (newExtendedServiceSet conn paths ess t).2.length ≤ t.length + paths.length := by
  intro paths
  induction paths with
  | nil => intro ess t; simp [newExtendedServiceSet]
  | cons p paths ih =>
    intro ess t
    unfold newExtendedServiceSet
    split
    · simp only [length_NewBasicServiceSet, List.length_cons]
      omega
    · refine le_trans (ih _ _) ?_
      simp only [length_NewBasicServiceSet, List.length_cons]
      omega

theorem length_newNetworkKnownNetwork (conn : Conn) (path : ObjectPath) (t : Trace) :
    (newNetworkKnownNetwork conn path t).2.length ≤ t.length + 6 := by
  unfold newNetworkKnownNetwork
  dsimp only
  repeat' split
  all_goals dsimp only
  all_goals first
    | (refine le_trans (length_NewKnownNetwork _ _ _) ?_; simp)
    | simp

theorem length_newNetworkExtendedServiceSet (conn : Conn) (path : ObjectPath) (t : Trace) :
    (newNetworkExtendedServiceSet conn path t).2.length
      ≤ t.length + 1 + extendedServiceSetSize conn path t := by
  unfold newNetworkExtendedServiceSet extendedServiceSetSize
  dsimp only
  repeat' split
  all_goals dsimp only
  all_goals first
    | (refine le_trans (length_newExtendedServiceSet _ _ _ _) ?_; simp_all)
    | simp

theorem length_NewNetwork (conn : Conn) (path : ObjectPath) (t : Trace) :
    ∃ τ, (NewNetwork conn path t).2.length
      ≤ t.length + 21 + extendedServiceSetSize conn path τ := by
  unfold NewNetwork
  dsimp only
  repeat' split
  all_goals dsimp only
  all_goals first
    | (refine ⟨t, ?_⟩
       simp only [List.length_append, List.length_singleton]
       omega)
    | (refine ⟨t, le_trans (length_NewDevice _ _ _) ?_⟩
       simp only [List.length_append, List.length_singleton]
       omega)
    | (refine ⟨t, ?_⟩
       simp only [List.length_append, List.length_singleton]
       refine le_trans (Nat.add_le_add_right (length_NewDevice _ _ _) 1) ?_
       simp only [List.length_append, List.length_singleton]
       omega)
    | (refine ⟨t, le_trans (length_newNetworkKnownNetwork _ _ _) ?_⟩
       simp only [List.length_append, List.length_singleton]
       refine le_trans (Nat.add_le_add_right (Nat.add_le_add_right
         (length_NewDevice _ _ _) 1) 6) ?_
       simp only [List.length_append, List.length_singleton]
       omega)
    | (apply Exists.intro
       refine le_trans (length_newNetworkExtendedServiceSet _ _ _) ?_
       refine Nat.add_le_add ?_ (le_refl _)
       refine le_trans (Nat.add_le_add_right (length_newNetworkKnownNetwork _ _ _) 1) ?_
       simp only [List.length_append, List.length_singleton]
       refine le_trans (Nat.add_le_add_right (Nat.add_le_add_right (Nat.add_le_add_right
         (length_NewDevice _ _ _) 1) 6) 1) ?_
       simp only [List.length_append, List.length_singleton]
       omega)

theorem prefix_NewAccessPoint (conn : Conn) (path : ObjectPath) (t : Trace) :
    t <+: (NewAccessPoint conn path t).2 := by
  unfold NewAccessPoint
  dsimp only
  repeat' split
  all_goals simp

theorem prefix_NewAdHoc (conn : Conn) (path : ObjectPath) (t : Trace) :
    t <+: (NewAdHoc conn path t).2 := by
  unfold NewAdHoc
  dsimp only
  repeat' split
  all_goals simp

theorem prefix_newExtendedServiceSet (conn : Conn) :
    ∀ (paths : List ObjectPath) (ess : List BasicServiceSet) (t : Trace),
      t <+: (newExtendedServiceSet conn paths ess t).2 := by
  intro paths
  induction paths with
  | nil => intro ess t; simp [newExtendedServiceSet]
  | cons p paths ih =>
    intro ess t
    unfold newExtendedServiceSet
    split
    · exact prefix_NewBasicServiceSet conn p t
    · exact (prefix_NewBasicServiceSet conn p t).trans (ih _ _)

theorem prefix_newNetworkExtendedServiceSet (conn : Conn) (path : ObjectPath) (t : Trace) :
    t <+: (newNetworkExtendedServiceSet conn path t).2 := by
  unfold newNetworkExtendedServiceSet
  dsimp only
  repeat' split
  all_goals dsimp only
  all_goals first
    | exact List.prefix_append _ _
    | exact (List.prefix_append _ _).trans (prefix_newExtendedServiceSet _ _ _ _)

theorem prefix_NewNetwork (conn : Conn) (path : ObjectPath) (t : Trace) :
    t <+: (NewNetwork conn path t).2 := by
  unfold NewNetwork
  dsimp only
  repeat' split
  all_goals dsimp only
  all_goals first
    | (simp; done)
    | exact prefix_after_NewDevice _ _ _ _ _ (by simp)
    | exact (List.IsPrefix.trans (by simp) (prefix_NewDevice _ _ _))
    | exact prefix_after_newNetworkKnownNetwork _ _ _ _
        (prefix_after_NewDevice _ _ _ _ _ (by simp))
    | exact (prefix_after_newNetworkKnownNetwork _ _ _ _
        (prefix_after_NewDevice _ _ _ _ _ (by simp))).trans
          (prefix_newNetworkExtendedServiceSet _ _ _)

theorem recorded_NewDevice (conn : Conn) (path : ObjectPath) (t : Trace) :
    (NewDevice.recorded conn path t).1 = NewDevice conn path t := by
  unfold NewDevice.recorded NewDevice NewAdapter.recorded
  dsimp only
  repeat' split
  all_goals rfl

theorem recorded_newExtendedServiceSet (conn : Conn) :
    ∀ (paths : List ObjectPath) (ess : List BasicServiceSet) (t : Trace),
      (newExtendedServiceSet.recorded conn paths ess t).1
        = newExtendedServiceSet conn paths ess t := by
  intro paths
  induction paths with
  | nil => intro ess t; rfl
  | cons p paths ih =>
    intro ess t
    unfold newExtendedServiceSet.recorded newExtendedServiceSet NewBasicServiceSet.recorded
    dsimp only
    split
    · rfl
    · exact ih _ _

theorem recorded_newNetworkKnownNetwork (conn : Conn) (path : ObjectPath) (t : Trace) :
    (newNetworkKnownNetwork.recorded conn path t).1 = newNetworkKnownNetwork conn path t := by
  unfold newNetworkKnownNetwork.recorded newNetworkKnownNetwork NewKnownNetwork.recorded
  dsimp only
  repeat' split
  all_goals rfl

theorem recorded_newNetworkExtendedServiceSet (conn : Conn) (path : ObjectPath) (t : Trace) :
    (newNetworkExtendedServiceSet.recorded conn path t).1
      = newNetworkExtendedServiceSet conn path t := by
  unfold newNetworkExtendedServiceSet.recorded newNetworkExtendedServiceSet
  simp only [recorded_newExtendedServiceSet]
  repeat' split
  all_goals rfl

theorem recorded_NewNetwork (conn : Conn) (path : ObjectPath) (t : Trace) :
    (NewNetwork.recorded conn path t).1 = NewNetwork conn path t := by
  unfold NewNetwork.recorded NewNetwork
  simp only [recorded_NewDevice, recorded_newNetworkKnownNetwork,
    recorded_newNetworkExtendedServiceSet]
  repeat' split
  all_goals rfl

theorem Constructor.mem_invoked (c : Constructor) (nested : List (List Constructor))
    (chain : List Constructor) :
    chain ∈ c.invoked nested ↔ chain = [c] ∨ ∃ x ∈ nested, chain = c :: x := by
  simp only [Constructor.invoked, List.mem_cons, List.mem_map]
  constructor
  · rintro (h | ⟨x, hx, rfl⟩)
    · exact Or.inl h
    · exact Or.inr ⟨x, hx, rfl⟩
  · rintro (h | ⟨x, hx, rfl⟩)
    · exact Or.inl h
    · exact Or.inr ⟨x, hx, rfl⟩

theorem chains_NewDevice (conn : Conn) (path : ObjectPath) (t : Trace)
    (chain : List Constructor) (h : chain ∈ (NewDevice.recorded conn path t).2) :
    chain ∈ [[Constructor.NewDevice], [Constructor.NewDevice, Constructor.NewAdapter]] := by
  revert h
  unfold NewDevice.recorded NewAdapter.recorded
  dsimp only
  repeat' split
  all_goals
    simp only [Constructor.invoked, List.map_cons, List.map_nil, List.mem_cons,
      List.mem_singleton, List.not_mem_nil, or_false]
    tauto

theorem chains_newExtendedServiceSet (conn : Conn) (chain : List Constructor) :
    ∀ (paths : List ObjectPath) (ess : List BasicServiceSet) (t : Trace),
      chain ∈ (newExtendedServiceSet.recorded conn paths ess t).2 →
        chain = [Constructor.NewBasicServiceSet] := by
  intro paths
  induction paths with
  | nil => intro ess t h; simp [newExtendedServiceSet.recorded] at h
  | cons p paths ih =>
    intro ess t h
    unfold newExtendedServiceSet.recorded at h
    split at h
    · simpa [NewBasicServiceSet.recorded, Constructor.invoked] using h
    · rcases List.mem_append.1 h with h1 | h1
      · simpa [NewBasicServiceSet.recorded, Constructor.invoked] using h1
      · exact ih _ _ h1

theorem chains_newNetworkKnownNetwork (conn : Conn) (path : ObjectPath) (t : Trace)
    (chain : List Constructor) (h : chain ∈ (newNetworkKnownNetwork.recorded conn path t).2) :
    chain = [Constructor.NewKnownNetwork] := by
  revert h
  unfold newNetworkKnownNetwork.recorded NewKnownNetwork.recorded
  dsimp only
  repeat' split
  all_goals simp [Constructor.invoked]

theorem chains_newNetworkExtendedServiceSet (conn : Conn) (path : ObjectPath) (t : Trace)
    (chain : List Constructor)
    (h : chain ∈ (newNetworkExtendedServiceSet.recorded conn path t).2) :
    chain = [Constructor.NewBasicServiceSet] := by
  revert h
  unfold newNetworkExtendedServiceSet.recorded
  dsimp only
  repeat' split
  all_goals first
    | (simp; done)
    | exact chains_newExtendedServiceSet conn chain _ _ _

theorem chains_NewNetwork (conn : Conn) (path : ObjectPath) (t : Trace)
    (chain : List Constructor) (h : chain ∈ (NewNetwork.recorded conn path t).2) :
    chain ∈ [[Constructor.NewNetwork], [Constructor.NewNetwork, Constructor.NewDevice],
      [Constructor.NewNetwork, Constructor.NewDevice, Constructor.NewAdapter],
      [Constructor.NewNetwork, Constructor.NewKnownNetwork],
      [Constructor.NewNetwork, Constructor.NewBasicServiceSet]] := by
  have key : ∀ nested : List (List Constructor),
      (∀ x ∈ nested, x ∈ [[Constructor.NewDevice],
        [Constructor.NewDevice, Constructor.NewAdapter], [Constructor.NewKnownNetwork],
        [Constructor.NewBasicServiceSet]]) →
      chain ∈ Constructor.NewNetwork.invoked nested →
      chain ∈ [[Constructor.NewNetwork], [Constructor.NewNetwork, Constructor.NewDevice],
        [Constructor.NewNetwork, Constructor.NewDevice, Constructor.NewAdapter],
        [Constructor.NewNetwork, Constructor.NewKnownNetwork],
        [Constructor.NewNetwork, Constructor.NewBasicServiceSet]] := by
    intro nested hn hc
    rcases (Constructor.mem_invoked _ _ _).1 hc with rfl | ⟨x, hx, rfl⟩
    · simp
    · have := hn x hx
      simp only [List.mem_cons, List.mem_singleton, List.not_mem_nil, or_false] at this
      rcases this with rfl | rfl | rfl | rfl <;> simp
  have hD : ∀ (dp : ObjectPath) (τ : Trace), ∀ x ∈ (NewDevice.recorded conn dp τ).2,
      x ∈ [[Constructor.NewDevice], [Constructor.NewDevice, Constructor.NewAdapter],
        [Constructor.NewKnownNetwork], [Constructor.NewBasicServiceSet]] := by
    intro dp τ x hx
    have := chains_NewDevice conn dp τ x hx
    simp only [List.mem_cons, List.mem_singleton, List.not_mem_nil, or_false] at this ⊢
    tauto
  have hK : ∀ (τ : Trace), ∀ x ∈ (newNetworkKnownNetwork.recorded conn path τ).2,
      x ∈ [[Constructor.NewDevice], [Constructor.NewDevice, Constructor.NewAdapter],
        [Constructor.NewKnownNetwork], [Constructor.NewBasicServiceSet]] := by
    intro τ x hx
    rw [chains_newNetworkKnownNetwork conn path τ x hx]
    simp
  have hE : ∀ (τ : Trace), ∀ x ∈ (newNetworkExtendedServiceSet.recorded conn path τ).2,
      x ∈ [[Constructor.NewDevice], [Constructor.NewDevice, Constructor.NewAdapter],
        [Constructor.NewKnownNetwork], [Constructor.NewBasicServiceSet]] := by
    intro τ x hx
    rw [chains_newNetworkExtendedServiceSet conn path τ x hx]
    simp
  revert h
  unfold NewNetwork.recorded
  dsimp only
  repeat' split
  all_goals
    refine key _ ?_
    intro x hx
  all_goals first
    | exact absurd hx (List.not_mem_nil _)
    | exact hD _ _ x hx
    | (rcases List.mem_append.1 hx with h1 | h1
       · exact hD _ _ x h1
       · exact hK _ x h1)
    | (rcases List.mem_append.1 hx with h1 | h1
       · rcases List.mem_append.1 h1 with h2 | h2
         · exact hD _ _ x h2
         · exact hK _ x h2
       · exact hE _ x h1)

theorem chain_of_NewDevice_ok (conn : Conn) (path : ObjectPath) (t : Trace) {d : Device}
    (h : (NewDevice.recorded conn path t).1.1 = .ok d) :
    [Constructor.NewDevice, Constructor.NewAdapter] ∈ (NewDevice.recorded conn path t).2 := by
  revert h
  unfold NewDevice.recorded NewAdapter.recorded
  dsimp only
  repeat' split
  all_goals simp [Constructor.invoked]

theorem chain_of_NewNetwork_ok (conn : Conn) (path : ObjectPath) (t : Trace) {n : Network}
    (h : (NewNetwork.recorded conn path t).1.1 = .ok n) :
    [Constructor.NewNetwork, Constructor.NewDevice, Constructor.NewAdapter]
      ∈ (NewNetwork.recorded conn path t).2 := by
  revert h
  unfold NewNetwork.recorded
  dsimp only
  repeat' split
  all_goals first
    | (intro h; simp at h; done)
    | (intro _
       refine (Constructor.mem_invoked _ _ _).2 (Or.inr ⟨_, ?_, rfl⟩)
       refine List.mem_append_left _ (List.mem_append_left _ ?_)
       apply chain_of_NewDevice_ok
       assumption)

theorem nested_run_of_NewDevice (conn : Conn) (path : ObjectPath) (t : Trace) (d : Device)
    (h : (NewDevice conn path t).1 = .ok d) :
    ∃ adapterPath τ, (NewAdapter conn adapterPath τ).1 = .ok d.adapter ∧ t <+: τ
      ∧ (NewAdapter conn adapterPath τ).2 <+: (NewDevice conn path t).2 := by
  revert h
  unfold NewDevice
  dsimp only
  repeat' split
  all_goals first
    | (intro h; simp at h; done)
    | (intro h
       simp only [Except.ok.injEq] at h
       subst h
       apply Exists.intro
       apply Exists.intro
       refine ⟨?_, ?_, List.prefix_append _ _⟩
       · assumption
       · simp)

theorem nested_run_of_NewNetwork (conn : Conn) (path : ObjectPath) (t : Trace) (n : Network)
    (h : (NewNetwork conn path t).1 = .ok n) :
    ∃ devicePath τ, (NewDevice conn devicePath τ).1 = .ok n.device ∧ t <+: τ
      ∧ (NewDevice conn devicePath τ).2 <+: (NewNetwork conn path t).2 := by
  revert h
  unfold NewNetwork
  dsimp only
  repeat' split
  all_goals first
    | (intro h; simp at h; done)
    | (intro h
       simp only [Except.ok.injEq] at h
       subst h
       apply Exists.intro
       apply Exists.intro
       refine ⟨?_, ?_, ?_⟩
       · assumption
       · simp
       · exact (List.prefix_append _ _).trans
           ((prefix_newNetworkKnownNetwork _ _ _).trans
             (prefix_newNetworkExtendedServiceSet _ _ _)))

theorem fetches_NewAdapter (conn : Conn) (path : ObjectPath) (t : Trace) :
    ∃ n, (NewAdapter conn path t).2 = t ++ (fetches path [adapterPropertyName,
      adapterPropertyModel, adapterPropertyVendor, adapterPropertySupportedModes,
      adapterPropertyPowered]).take n := by
  unfold NewAdapter
  dsimp only
  repeat' split
  all_goals first
    | (refine ⟨1, ?_⟩; simp [fetches]; done)
    | (refine ⟨2, ?_⟩; simp [fetches]; done)
    | (refine ⟨3, ?_⟩; simp [fetches]; done)
    | (refine ⟨4, ?_⟩; simp [fetches]; done)
    | (refine ⟨5, ?_⟩; simp [fetches])

theorem fetches_NewKnownNetwork (conn : Conn) (path : ObjectPath) (t : Trace) :
    ∃ n, (NewKnownNetwork conn path t).2 = t ++ (fetches path [knownNetworkPropertyName,
      knownNetworkPropertyType, knownNetworkPropertyHidden,
      knownNetworkPropertyLastConnectedTime, knownNetworkPropertyAutoConnect]).take n := by
  unfold NewKnownNetwork
  dsimp only
  repeat' split
  all_goals first
    | (refine ⟨1, ?_⟩; simp [fetches]; done)
    | (refine ⟨2, ?_⟩; simp [fetches]; done)
    | (refine ⟨3, ?_⟩; simp [fetches]; done)
    | (refine ⟨4, ?_⟩; simp [fetches]; done)
    | (refine ⟨5, ?_⟩; simp [fetches])

theorem fetches_NewAccessPoint (conn : Conn) (path : ObjectPath) (t : Trace) :
    ∃ n, (NewAccessPoint conn path t).2 = t ++ (fetches path [accessPointPropertyStarted,
      accessPointPropertyName, accessPointPropertyFrequency,
      accessPointPropertyPairwiseCiphers, accessPointPropertyGroupCipher]).take n := by
  unfold NewAccessPoint
  dsimp only
  repeat' split
  all_goals first
    | (refine ⟨1, ?_⟩; simp [fetches]; done)
    | (refine ⟨2, ?_⟩; simp [fetches]; done)
    | (refine ⟨3, ?_⟩; simp [fetches]; done)
    | (refine ⟨4, ?_⟩; simp [fetches]; done)
    | (refine ⟨5, ?_⟩; simp [fetches])

theorem fetches_NewBasicServiceSet (conn : Conn) (path : ObjectPath) (t : Trace) :
    (NewBasicServiceSet conn path t).2 = t ++ fetches path [basicServiceSetPropertyAddress] := by
  unfold NewBasicServiceSet
  dsimp only
  repeat' split
  all_goals rfl

theorem fetches_NewAdHoc (conn : Conn) (path : ObjectPath) (t : Trace) :
    (NewAdHoc conn path t).2 = t ++ fetches path [adhocPropertyStarted] := by
  unfold NewAdHoc
  dsimp only
  repeat' split
  all_goals rfl

/-- C23. Nesting: the recorded runs are the runs of the constructors (the same entity or
error, the same trace), and in every run of every constructor every chain of nested
constructor invocations has at most three members and no constructor occurs twice in it, so
no constructor re-enters itself. Every run of `NewNetwork` that returns a network has the
chain `NewNetwork`, `NewDevice`, `NewAdapter`, and contains a run of `NewDevice` that returns
the device of that network; every run of `NewDevice` that returns a device has the chain
`NewDevice`, `NewAdapter`, and contains a run of `NewAdapter` that returns the adapter of that
device. The runs of the constructors that invoke no constructor consist of fetches of their
own properties on their own object, in the order of the source, or of no request at all.
Termination: every constructor returns after a bounded number of requests, whatever the bus
answers: `NewAdapter`, `NewKnownNetwork` and `NewAccessPoint` after at most 5,
`NewBasicServiceSet` and `NewAdHoc` after 1, `NewStation`, `NewStationDiagnostic` and
`NewAgentManager` after none, `NewDevice` after at most 10, and `NewNetwork` after at most 21
and one for each member of the ExtendedServiceSet it reads. -/
theorem constructors_terminate_depth_three (conn : Conn) (path : ObjectPath) (t : Trace) :
    ((NewNetwork.recorded conn path t).1 = NewNetwork conn path t
        ∧ (NewDevice.recorded conn path t).1 = NewDevice conn path t
        ∧ (NewAdapter.recorded conn path t).1 = NewAdapter conn path t
        ∧ (NewKnownNetwork.recorded conn path t).1 = NewKnownNetwork conn path t
        ∧ (NewBasicServiceSet.recorded conn path t).1 = NewBasicServiceSet conn path t
        ∧ (NewAccessPoint.recorded conn path t).1 = NewAccessPoint conn path t
        ∧ (NewAdHoc.recorded conn path t).1 = NewAdHoc conn path t
        ∧ (NewStation.recorded conn path t).1 = NewStation conn path t
        ∧ (NewStationDiagnostic.recorded conn path t).1 = NewStationDiagnostic conn path t
        ∧ (NewAgentManager.recorded conn path t).1 = NewAgentManager conn path t)
      ∧ (∀ chain,
        chain ∈ (NewNetwork.recorded conn path t).2 ∨ chain ∈ (NewDevice.recorded conn path t).2
          ∨ chain ∈ (NewAdapter.recorded conn path t).2
          ∨ chain ∈ (NewKnownNetwork.recorded conn path t).2
          ∨ chain ∈ (NewBasicServiceSet.recorded conn path t).2
          ∨ chain ∈ (NewAccessPoint.recorded conn path t).2
          ∨ chain ∈ (NewAdHoc.recorded conn path t).2
          ∨ chain ∈ (NewStation.recorded conn path t).2
          ∨ chain ∈ (NewStationDiagnostic.recorded conn path t).2
          ∨ chain ∈ (NewAgentManager.recorded conn path t).2 →
        chain.length ≤ 3 ∧ chain.Nodup)
      ∧ ((∀ n, (NewNetwork conn path t).1 = .ok n →
          [Constructor.NewNetwork, Constructor.NewDevice, Constructor.NewAdapter]
            ∈ (NewNetwork.recorded conn path t).2)
        ∧ (∀ d, (NewDevice conn path t).1 = .ok d →
          [Constructor.NewDevice, Constructor.NewAdapter] ∈ (NewDevice.recorded conn path t).2))
      ∧ ((∀ n, (NewNetwork conn path t).1 = .ok n →
          ∃ devicePath τ, (NewDevice conn devicePath τ).1 = .ok n.device ∧ t <+: τ
            ∧ (NewDevice conn devicePath τ).2 <+: (NewNetwork conn path t).2)
        ∧ (∀ d, (NewDevice conn path t).1 = .ok d →
          ∃ adapterPath τ, (NewAdapter conn adapterPath τ).1 = .ok d.adapter ∧ t <+: τ
            ∧ (NewAdapter conn adapterPath τ).2 <+: (NewDevice conn path t).2))
      ∧ ((∃ n, (NewAdapter conn path t).2 = t ++ (fetches path [adapterPropertyName,
            adapterPropertyModel, adapterPropertyVendor, adapterPropertySupportedModes,
            adapterPropertyPowered]).take n)
        ∧ (∃ n, (NewKnownNetwork conn path t).2 = t ++ (fetches path [knownNetworkPropertyName,
            knownNetworkPropertyType, knownNetworkPropertyHidden,
            knownNetworkPropertyLastConnectedTime, knownNetworkPropertyAutoConnect]).take n)
        ∧ (∃ n, (NewAccessPoint conn path t).2 = t ++ (fetches path [accessPointPropertyStarted,
            accessPointPropertyName, accessPointPropertyFrequency,
            accessPointPropertyPairwiseCiphers, accessPointPropertyGroupCipher]).take n)
        ∧ (NewBasicServiceSet conn path t).2 = t ++ fetches path [basicServiceSetPropertyAddress]
        ∧ (NewAdHoc conn path t).2 = t ++ fetches path [adhocPropertyStarted]
        ∧ (NewStation conn path t).2 = t
        ∧ (NewStationDiagnostic conn path t).2 = t
        ∧ (NewAgentManager conn path t).2 = t)
      ∧ ((t <+: (NewDevice conn path t).2 ∧ (NewDevice conn path t).2.length ≤ t.length + 10)
        ∧ (t <+: (NewNetwork conn path t).2
          ∧ ∃ τ, (NewNetwork conn path t).2.length
            ≤ t.length + 21 + extendedServiceSetSize conn path τ)
        ∧ (NewAdapter conn path t).2.length ≤ t.length + 5
        ∧ (NewKnownNetwork conn path t).2.length ≤ t.length + 5
        ∧ (NewAccessPoint conn path t).2.length ≤ t.length + 5) := by
  refine ⟨⟨recorded_NewNetwork _ _ _, recorded_NewDevice _ _ _, rfl, rfl, rfl, rfl, rfl, rfl, rfl,
    rfl⟩, ?_, ⟨?_, ?_⟩, ⟨nested_run_of_NewNetwork _ _ _, nested_run_of_NewDevice _ _ _⟩,
    ⟨fetches_NewAdapter _ _ _, fetches_NewKnownNetwork _ _ _,
    fetches_NewAccessPoint _ _ _, fetches_NewBasicServiceSet _ _ _, fetches_NewAdHoc _ _ _, rfl,
    rfl, rfl⟩, ⟨prefix_NewDevice _ _ _, length_NewDevice _ _ _⟩,
    ⟨prefix_NewNetwork _ _ _, length_NewNetwork _ _ _⟩, length_NewAdapter _ _ _,
    length_NewKnownNetwork _ _ _, length_NewAccessPoint _ _ _⟩
  · intro chain h
    have hall : chain ∈ [[Constructor.NewNetwork],
        [Constructor.NewNetwork, Constructor.NewDevice],
        [Constructor.NewNetwork, Constructor.NewDevice, Constructor.NewAdapter],
        [Constructor.NewNetwork, Constructor.NewKnownNetwork],
        [Constructor.NewNetwork, Constructor.NewBasicServiceSet],
        [Constructor.NewDevice], [Constructor.NewDevice, Constructor.NewAdapter],
        [Constructor.NewAdapter], [Constructor.NewKnownNetwork],
        [Constructor.NewBasicServiceSet], [Constructor.NewAccessPoint],
        [Constructor.NewAdHoc], [Constructor.NewStation], [Constructor.NewStationDiagnostic],
        [Constructor.NewAgentManager]] := by
      rcases h with h | h | h | h | h | h | h | h | h | h
      · have := chains_NewNetwork conn path t chain h
        simp only [List.mem_cons, List.mem_singleton, List.not_mem_nil, or_false] at this ⊢
        tauto
      · have := chains_NewDevice conn path t chain h
        simp only [List.mem_cons, List.mem_singleton, List.not_mem_nil, or_false] at this ⊢
        tauto
      all_goals
        simp only [NewAdapter.recorded, NewKnownNetwork.recorded, NewBasicServiceSet.recorded,
          NewAccessPoint.recorded, NewAdHoc.recorded, NewStation.recorded,
          NewStationDiagnostic.recorded, NewAgentManager.recorded, Constructor.invoked,
          List.map_nil, List.mem_singleton] at h
        simp [h]
    have key : ∀ c ∈ [[Constructor.NewNetwork],
        [Constructor.NewNetwork, Constructor.NewDevice],
        [Constructor.NewNetwork, Constructor.NewDevice, Constructor.NewAdapter],
        [Constructor.NewNetwork, Constructor.NewKnownNetwork],
        [Constructor.NewNetwork, Constructor.NewBasicServiceSet],
        [Constructor.NewDevice], [Constructor.NewDevice, Constructor.NewAdapter],
        [Constructor.NewAdapter], [Constructor.NewKnownNetwork],
        [Constructor.NewBasicServiceSet], [Constructor.NewAccessPoint],
        [Constructor.NewAdHoc], [Constructor.NewStation], [Constructor.NewStationDiagnostic],
        [Constructor.NewAgentManager]], c.length ≤ 3 ∧ c.Nodup := by
      decide
    exact key chain hall
  · intro n h
    rw [← recorded_NewNetwork] at h
    exact chain_of_NewNetwork_ok conn path t h
  · intro d h
    rw [← recorded_NewDevice] at h
    exact chain_of_NewDevice_ok conn path t h

theorem constructors_terminate_depth_three_witness :
    (NewNetwork (tableConn [] homeProperties []) "/net/connman/iwd/0/4/Home" []).1
        = .ok homeNetwork
      ∧ [Constructor.NewNetwork, Constructor.NewDevice, Constructor.NewAdapter]
        ∈ (NewNetwork.recorded (tableConn [] homeProperties [])
          "/net/connman/iwd/0/4/Home" []).2
      ∧ [Constructor.NewNetwork, Constructor.NewDevice, Constructor.NewAdapter].length ≤ 3
      ∧ [Constructor.NewNetwork, Constructor.NewDevice, Constructor.NewAdapter].Nodup :=
  ⟨rfl,
    (constructors_terminate_depth_three (tableConn [] homeProperties [])
      "/net/connman/iwd/0/4/Home" []).2.2.1.1 homeNetwork rfl,
    (constructors_terminate_depth_three (tableConn [] homeProperties [])
      "/net/connman/iwd/0/4/Home" []).2.1 _
      (Or.inl ((constructors_terminate_depth_three (tableConn [] homeProperties [])
        "/net/connman/iwd/0/4/Home" []).2.2.1.1 homeNetwork rfl))⟩

end Spider
